import Mathlib

/-!
# Bedroom scene (`bedroom.cpp`): interaction, animation and drawing

A shallow embedding of the process-wide state of `bedroom.cpp`, of the two callbacks
that mutate it, `myKeyboardFunc` and `animate`, and of the drawing code run by the
`display` callback and the resize callback `fullScreen`, as the stream of GL calls
they issue.

Modelling conventions

* C `double` variables are embedded as rationals (`ℚ`), i.e. arithmetic is exact.
  All values `theta` takes on the trajectories studied here are small even
  integers, which `double` represents exactly.
* `GLboolean` variables are embedded as `Bool`: the program only ever stores
  `true` or `false` in them.
* The part of the GL / GLUT library state that the two callbacks touch (the
  enable bits of `GL_LIGHT0..2` and the pending-redisplay mark set by
  `glutPostRedisplay`) is carried next to the globals in `World`.
* `exit(1)` does not return; a callback that reaches it yields `Outcome.exited`.
* `GLfloat` values are rationals as well; a division whose divisor is zero has no
  rational result and yields `none` (`divGLfloat`).
-/

namespace Bedroom

/-! ## State -/

/-- The global variables of `bedroom.cpp` (lines 30-35), in declaration order. -/
structure Globals where
  redFlag : Bool
  switchOne : Bool
  switchTwo : Bool
  switchLamp : Bool
  amb1 : Bool
  diff1 : Bool
  spec1 : Bool
  amb2 : Bool
  diff2 : Bool
  spec2 : Bool
  amb3 : Bool
  diff3 : Bool
  spec3 : Bool
  windowHeight : ℚ
  windowWidth : ℚ
  eyeX : ℚ
  eyeY : ℚ
  eyeZ : ℚ
  refX : ℚ
  refY : ℚ
  refZ : ℚ
  theta : ℚ
  y : ℚ
  z : ℚ
deriving DecidableEq

/-- The initialisers of the global variables (lines 30-35). -/
def Globals.initial : Globals where
  redFlag := true
  switchOne := false
  switchTwo := false
  switchLamp := false
  amb1 := true
  diff1 := true
  spec1 := true
  amb2 := true
  diff2 := true
  spec2 := true
  amb3 := true
  diff3 := true
  spec3 := true
  windowHeight := 800
  windowWidth := 600
  eyeX := 7.0
  eyeY := 2.0
  eyeZ := 15.0
  refX := 0
  refY := 0
  refZ := 0
  theta := 180.0
  y := 1.36
  z := 7.97888

/-- The three fixed-function light units the program uses. -/
inductive GLLight where
  | GL_LIGHT0
  | GL_LIGHT1
  | GL_LIGHT2
deriving DecidableEq

/-- The globals together with the library state the callbacks write:
the enable bit of each light unit and the pending-redisplay mark. -/
structure World where
  g : Globals
  light0 : Bool
  light1 : Bool
  light2 : Bool
  redisplay : Bool
deriving DecidableEq

/-- The world at program start: initial globals, every light unit disabled
(the GL default), no redisplay pending. -/
def World.initial : World where
  g := Globals.initial
  light0 := false
  light1 := false
  light2 := false
  redisplay := false

/-- Library call `glEnable(GL_LIGHTi)`. -/
def glEnable (l : GLLight) (w : World) : World :=
  match l with
  | .GL_LIGHT0 => { w with light0 := true }
  | .GL_LIGHT1 => { w with light1 := true }
  | .GL_LIGHT2 => { w with light2 := true }

/-- Library call `glDisable(GL_LIGHTi)`. -/
def glDisable (l : GLLight) (w : World) : World :=
  match l with
  | .GL_LIGHT0 => { w with light0 := false }
  | .GL_LIGHT1 => { w with light1 := false }
  | .GL_LIGHT2 => { w with light2 := false }

/-- Library call `glutPostRedisplay()`: marks the window for redisplay. -/
def glutPostRedisplay (w : World) : World :=
  { w with redisplay := true }

/-- How a callback ends: it returns normally, or it calls `exit(status)`. -/
inductive Outcome where
  | returned (w : World)
  | exited (status : Int) (w : World)
deriving DecidableEq

/-- The world a callback leaves behind, however it ended. -/
def Outcome.world : Outcome → World
  | .returned w => w
  | .exited _ w => w

/-- Whether the callback terminated the process, and with which status. -/
def Outcome.exitStatus : Outcome → Option Int
  | .returned _ => none
  | .exited c _ => some c

/-! ## Animation tick (`animate`, lines 1580-1638) -/

/-- The four-way `if / else if` chain assigning `y` from the updated `theta`
(lines 1586-1601 and, identically, 1613-1628). -/
def yBands (g : Globals) : Globals :=
  if g.theta ≥ 196 ∧ g.theta ≤ 210 then
    { g with y := 1.44 }
  else if g.theta ≥ 180 ∧ g.theta ≤ 194 then
    { g with y := 1.42 }
  else if g.theta ≥ 180 ∧ g.theta ≤ 194 then
    { g with y := 1.4 }
  else if g.theta ≥ 164 ∧ g.theta ≤ 178 then
    { g with y := 1.42 }
  else
    g

/-- The idle callback `animate`. -/
def animate (w : World) : World :=
  let g := w.g
  let g :=
    if g.redFlag = true then
      let g := { g with theta := g.theta + 2 }
      let g := { g with z := g.z - 0.02 }
      let g := yBands g
      if g.theta = 210 then { g with redFlag := false } else g
    else if g.redFlag = false then
      let g := { g with theta := g.theta - 2 }
      let g := { g with z := g.z + 0.02 }
      let g := yBands g
      if g.theta = 150 then { g with redFlag := true } else g
    else
      g
  glutPostRedisplay { w with g := g }

/-- The world after `n` consecutive idle ticks. -/
def ticks : Nat → World → World
  | 0, w => w
  | n + 1, w => ticks n (animate w)

/-! ## Keyboard callback (`myKeyboardFunc`, lines 1469-1577)

The `switch` is embedded label by label.  A label whose statements can run off
their end continues with the function of the next label, as C does; `break`
is `Outcome.returned`, and `exit(1)` is `Outcome.exited 1`. -/

/-- Label `case 27` (escape): `exit(1)`. -/
def case27 (w : World) : Outcome :=
  .exited 1 w

/-- Label `case 't'`. -/
def caseT (w : World) : Outcome :=
  if w.g.spec3 = false then .returned { w with g := { w.g with spec3 := true } }
  else .returned { w with g := { w.g with spec3 := false } }

/-- Label `case 'r'`. -/
def caseR (w : World) : Outcome :=
  if w.g.diff3 = false then .returned { w with g := { w.g with diff3 := true } }
  else .returned { w with g := { w.g with diff3 := false } }

/-- Label `case 'e'`. -/
def caseE (w : World) : Outcome :=
  if w.g.amb3 = false then .returned { w with g := { w.g with amb3 := true } }
  else .returned { w with g := { w.g with amb3 := false } }

/-- Label `case '9'`. -/
def case9 (w : World) : Outcome :=
  if w.g.spec2 = false then .returned { w with g := { w.g with spec2 := true } }
  else .returned { w with g := { w.g with spec2 := false } }

/-- Label `case '8'`. -/
def case8 (w : World) : Outcome :=
  if w.g.diff2 = false then .returned { w with g := { w.g with diff2 := true } }
  else .returned { w with g := { w.g with diff2 := false } }

/-- Label `case '7'`. -/
def case7 (w : World) : Outcome :=
  if w.g.amb2 = false then .returned { w with g := { w.g with amb2 := true } }
  else .returned { w with g := { w.g with amb2 := false } }

/-- Label `case '6'`. -/
def case6 (w : World) : Outcome :=
  if w.g.spec1 = false then .returned { w with g := { w.g with spec1 := true } }
  else .returned { w with g := { w.g with spec1 := false } }

/-- Label `case '5'`. -/
def case5 (w : World) : Outcome :=
  if w.g.diff1 = false then .returned { w with g := { w.g with diff1 := true } }
  else .returned { w with g := { w.g with diff1 := false } }

/-- Label `case '4'`. -/
def case4 (w : World) : Outcome :=
  if w.g.amb1 = false then .returned { w with g := { w.g with amb1 := true } }
  else .returned { w with g := { w.g with amb1 := false } }

/-- Label `case '3'`; an `if / else if` without final `else`, followed by
label `case '4'`. -/
def case3 (w : World) : Outcome :=
  if w.g.switchLamp = false then
    .returned (glEnable .GL_LIGHT2
      { w with g := { w.g with switchLamp := true, amb3 := true, diff3 := true, spec3 := true } })
  else if w.g.switchLamp = true then
    .returned (glDisable .GL_LIGHT2
      { w with g := { w.g with switchLamp := false, amb3 := false, diff3 := false,
                               spec3 := false } })
  else case4 w

/-- Label `case '2'`; followed by label `case '3'`. -/
def case2 (w : World) : Outcome :=
  if w.g.switchTwo = false then
    .returned (glEnable .GL_LIGHT1
      { w with g := { w.g with switchTwo := true, amb2 := true, diff2 := true, spec2 := true } })
  else if w.g.switchTwo = true then
    .returned (glDisable .GL_LIGHT1
      { w with g := { w.g with switchTwo := false, amb2 := false, diff2 := false,
                               spec2 := false } })
  else case3 w

/-- Label `case '1'`; followed by label `case '2'`. -/
def case1 (w : World) : Outcome :=
  if w.g.switchOne = false then
    .returned (glEnable .GL_LIGHT0
      { w with g := { w.g with switchOne := true, amb1 := true, diff1 := true, spec1 := true } })
  else if w.g.switchOne = true then
    .returned (glDisable .GL_LIGHT0
      { w with g := { w.g with switchOne := false, amb1 := false, diff1 := false,
                               spec1 := false } })
  else case2 w

/-- The `switch (key)` statement of `myKeyboardFunc`; `key` is the value of the
`unsigned char` argument (ASCII code). A key without label skips the switch. -/
def keySwitch (key : Nat) (w : World) : Outcome :=
  match key with
  | 119 /- w -/ => .returned { w with g := { w.g with eyeY := w.g.eyeY + 1.0 } }
  | 115 /- s -/ => .returned { w with g := { w.g with eyeY := w.g.eyeY - 1.0 } }
  | 97  /- a -/ => .returned { w with g := { w.g with eyeX := w.g.eyeX - 1.0 } }
  | 100 /- d -/ => .returned { w with g := { w.g with eyeX := w.g.eyeX + 1.0 } }
  | 111 /- o -/ => .returned { w with g := { w.g with eyeZ := w.g.eyeZ + 1 } }
  | 105 /- i -/ => .returned { w with g := { w.g with eyeZ := w.g.eyeZ - 1 } }
  | 113 /- q -/ =>
    .returned { w with g := { w.g with eyeX := 7.0, eyeY := 2.0, eyeZ := 15.0,
                                       refX := 0.0, refY := 0.0, refZ := 0.0 } }
  | 106 /- j -/ => .returned { w with g := { w.g with refY := w.g.refY + 1.0 } }
  | 110 /- n -/ => .returned { w with g := { w.g with refY := w.g.refY - 1.0 } }
  | 98  /- b -/ => .returned { w with g := { w.g with refX := w.g.refX - 1.0 } }
  | 109 /- m -/ => .returned { w with g := { w.g with refX := w.g.refX + 1.0 } }
  | 107 /- k -/ => .returned { w with g := { w.g with refZ := w.g.refZ + 1 } }
  | 108 /- l -/ => .returned { w with g := { w.g with refZ := w.g.refZ - 1 } }
  | 49  /- 1 -/ => case1 w
  | 50  /- 2 -/ => case2 w
  | 51  /- 3 -/ => case3 w
  | 52  /- 4 -/ => case4 w
  | 53  /- 5 -/ => case5 w
  | 54  /- 6 -/ => case6 w
  | 55  /- 7 -/ => case7 w
  | 56  /- 8 -/ => case8 w
  | 57  /- 9 -/ => case9 w
  | 101 /- e -/ => caseE w
  | 114 /- r -/ => caseR w
  | 116 /- t -/ => caseT w
  | 27  /- escape -/ => case27 w
  | _ => .returned w

/-- The keyboard callback: the switch, then `glutPostRedisplay()` unless the
switch left through `exit`. The pointer position (`x`, `y` in the source) is not used. -/
def myKeyboardFunc (key : Nat) (_x _y : Int) (w : World) : Outcome :=
  match keySwitch key w with
  | .returned w1 => .returned (glutPostRedisplay w1)
  | .exited status w1 => .exited status w1

/-- The world after pressing a list of keys in turn (pointer at the origin);
an `exit` ends the run. -/
def pressKeys : List Nat → World → Outcome
  | [], w => .returned w
  | key :: rest, w =>
    match myKeyboardFunc key 0 0 w with
    | .returned w1 => pressKeys rest w1
    | .exited status w1 => .exited status w1

/-- The key codes that have a label in the switch of `myKeyboardFunc`. -/
def recognisedKeys : List Nat :=
  [119, 115, 97, 100, 111, 105, 113, 106, 110, 98, 109, 107, 108,
   49, 50, 51, 52, 53, 54, 55, 56, 57, 101, 114, 116, 27]

/-! ## Specification-side definitions for the pendulum -/

/-- The closed form of `theta` over one period of 60 ticks, as the
specification words it (`k` is the tick count modulo 60). -/
def triangleWave (k : Nat) : ℚ :=
  if k ≤ 15 then 180 + 2 * k else if k ≤ 45 then 240 - 2 * k else 60 + 2 * k

/-- The direction flag over one period: rising on the first and last quarter. -/
def rising (k : Nat) : Bool :=
  decide (k < 15 ∨ 45 ≤ k)

/-- The pendulum of `w` sits at phase `k` of the triangle wave. -/
def OnWave (k : Nat) (w : World) : Prop :=
  w.g.theta = triangleWave k ∧ w.g.redFlag = rising k

/-! ## Specification-side projections for camera and lights -/

/-- The eye point of the camera. -/
def eye (w : World) : ℚ × ℚ × ℚ :=
  (w.g.eyeX, w.g.eyeY, w.g.eyeZ)

/-- The reference (look-at) point of the camera. -/
def refPoint (w : World) : ℚ × ℚ × ℚ :=
  (w.g.refX, w.g.refY, w.g.refZ)

/-- Everything that belongs to light one: master switch, the three sub-channel
booleans, and the enable bit of `GL_LIGHT0`. -/
def lightOneFlags (w : World) : Bool × Bool × Bool × Bool × Bool :=
  (w.g.switchOne, w.g.amb1, w.g.diff1, w.g.spec1, w.light0)

/-- Everything that belongs to light two (`GL_LIGHT1`). -/
def lightTwoFlags (w : World) : Bool × Bool × Bool × Bool × Bool :=
  (w.g.switchTwo, w.g.amb2, w.g.diff2, w.g.spec2, w.light1)

/-- Everything that belongs to the lamp (`GL_LIGHT2`). -/
def lampFlags (w : World) : Bool × Bool × Bool × Bool × Bool :=
  (w.g.switchLamp, w.g.amb3, w.g.diff3, w.g.spec3, w.light2)


/-! ## Drawing: the GL command stream

The drawing routines of `bedroom.cpp` only issue GL / GLUT calls.  Each routine is
embedded as the list of calls it issues, in order (`GLCmd`); `GLfloat` values are
rationals.  Default arguments of the C++ routines (`ambX = ambY = ambZ = 0`,
`shine = 50`) are written out at every call.  A routine that reads globals takes
them as its first argument.  The result of the image loader `SOIL_load_OGL_texture`
is an input of the routines that reach it. -/

/-- The GL constants the drawing code passes. -/
inductive GLenum where
  | GL_FRONT
  | GL_AMBIENT
  | GL_DIFFUSE
  | GL_SPECULAR
  | GL_SHININESS
  | GL_EMISSION
  | GL_POSITION
  | GL_SPOT_DIRECTION
  | GL_SPOT_CUTOFF
  | GL_QUADS
  | GL_TRIANGLES
  | GL_POLYGON
  | GL_LINE_STRIP
  | GL_TEXTURE_2D
  | GL_LIGHTING
  | GL_PROJECTION
  | GL_MODELVIEW
deriving DecidableEq

/-- The routines that emit geometry (`glBegin` or `glutSolidSphere`). -/
inductive Routine where
  | drawCube1
  | drawCarpet
  | drawTrapezoid
  | drawpyramid
  | polygon
  | polygonLine
  | drawSphere
  | lightBulb1
  | lightBulb2
deriving DecidableEq

/-- One call into GL / GLUT (or to `std::cerr`), with its arguments.
`enter r` is not a call: it marks that control enters the geometry routine `r`. -/
inductive GLCmd where
  | glClear
  | glMatrixMode (mode : GLenum)
  | glLoadIdentity
  | gluPerspective (fovy aspect zNear zFar : ℚ)
  | gluLookAt (eyeX eyeY eyeZ centerX centerY centerZ upX upY upZ : ℚ)
  | glViewport (x y width height : Int)
  | glEnable (cap : GLenum)
  | glDisable (cap : GLenum)
  | glPushMatrix
  | glPopMatrix
  | glPushAttrib
  | glPopAttrib
  | glTranslatef (x y z : ℚ)
  | glScalef (x y z : ℚ)
  | glRotatef (angle x y z : ℚ)
  | glColor3f (red green blue : ℚ)
  | glMaterialfv (face pname : GLenum) (params : List ℚ)
  | glLightfv (light : GLLight) (pname : GLenum) (params : List ℚ)
  | glLightf (light : GLLight) (pname : GLenum) (param : ℚ)
  | glBegin (mode : GLenum)
  | glEnd
  | glNormal3f (nx ny nz : ℚ)
  | glVertex3fv (x y z : ℚ)
  | glVertex2f (x y : ℚ)
  | glTexCoord2f (s t : ℚ)
  | glBindTexture (target : GLenum) (texture : Nat)
  | glutSolidSphere (radius : ℚ) (slices nstacks : Nat)
  | glFlush
  | glutSwapBuffers
  | soilLoadingError
  | enter (r : Routine)

/-! ### Geometry tables and primitives (lines 38-426) -/

/-- `loadTexture("image.png")`: `soil` is what `SOIL_load_OGL_texture` returned.
The routine reports on `std::cerr` when that is 0, and returns it either way. -/
def loadTexture (soil : Nat) : List GLCmd × Nat :=
  let texture := soil
  (if texture = 0 then [.soilLoadingError] else [], texture)

/-- Vertex table of the cuboid. -/
def v_cube : List (List ℚ) :=
  [[0.0, 0.0, 0.0],
   [0.0, 0.0, 3.0],
   [3.0, 0.0, 3.0],
   [3.0, 0.0, 0.0],
   [0.0, 3.0, 0.0],
   [0.0, 3.0, 3.0],
   [3.0, 3.0, 3.0],
   [3.0, 3.0, 0.0]]

/-- Face table of the cuboid: bottom, top, front, back, right, left. -/
def quadIndices : List (List Nat) :=
  [[0, 1, 2, 3],
   [4, 5, 6, 7],
   [5, 1, 2, 6],
   [0, 4, 7, 3],
   [2, 3, 7, 6],
   [1, 5, 4, 0]]

/-- Table lookup `t[i][j]` in an index table. -/
def idx (t : List (List Nat)) (i j : Nat) : Nat :=
  (t.getD i []).getD j 0

/-- Table lookup `t[i][j]` in a vertex table. -/
def coord (t : List (List ℚ)) (i j : Nat) : ℚ :=
  (t.getD i []).getD j 0

/-- The routine `getNormal3p`: the cross product of the two edge vectors anchored at
the first point, handed to `glNormal3f`. -/
def getNormal3p (x1 y1 z1 x2 y2 z2 x3 y3 z3 : ℚ) : GLCmd :=
  let Ux := x2 - x1
  let Uy := y2 - y1
  let Uz := z2 - z1
  let Vx := x3 - x1
  let Vy := y3 - y1
  let Vz := z3 - z1
  let Nx := Uy * Vz - Uz * Vy
  let Ny := Uz * Vx - Ux * Vz
  let Nz := Ux * Vy - Uy * Vx
  .glNormal3f Nx Ny Nz

/-- The call `glVertex3fv(&t[i][0])`. -/
def glVertex3fv (t : List (List ℚ)) (i : Nat) : GLCmd :=
  .glVertex3fv (coord t i 0) (coord t i 1) (coord t i 2)

/-- The four `glMaterialfv` calls that open every material routine. -/
def setMaterial (difX difY difZ ambX ambY ambZ shine : ℚ) : List GLCmd :=
  [.glMaterialfv .GL_FRONT .GL_AMBIENT [ambX, ambY, ambZ, 1.0],
   .glMaterialfv .GL_FRONT .GL_DIFFUSE [difX, difY, difZ, 1.0],
   .glMaterialfv .GL_FRONT .GL_SPECULAR [1.0, 1.0, 1.0, 1.0],
   .glMaterialfv .GL_FRONT .GL_SHININESS [shine]]

/-- The local array `no_mat`. -/
def no_mat : List ℚ := [0.0, 0.0, 0.0, 1.0]

/-- The routine `drawCube1`. -/
def drawCube1 (difX difY difZ ambX ambY ambZ shine : ℚ) : List GLCmd :=
  [.enter .drawCube1] ++
  setMaterial difX difY difZ ambX ambY ambZ shine ++
  [.glMaterialfv .GL_FRONT .GL_EMISSION no_mat] ++
  [.glBegin .GL_QUADS] ++
  ((List.range 6).flatMap fun i =>
    [getNormal3p
       (coord v_cube (idx quadIndices i 0) 0) (coord v_cube (idx quadIndices i 0) 1)
       (coord v_cube (idx quadIndices i 0) 2)
       (coord v_cube (idx quadIndices i 1) 0) (coord v_cube (idx quadIndices i 1) 1)
       (coord v_cube (idx quadIndices i 1) 2)
       (coord v_cube (idx quadIndices i 2) 0) (coord v_cube (idx quadIndices i 2) 1)
       (coord v_cube (idx quadIndices i 2) 2),
     glVertex3fv v_cube (idx quadIndices i 0),
     glVertex3fv v_cube (idx quadIndices i 1),
     glVertex3fv v_cube (idx quadIndices i 2),
     glVertex3fv v_cube (idx quadIndices i 3)]) ++
  [.glEnd]

/-- The routine `drawCarpet`; `soil` is the result of the image loader. -/
def drawCarpet (soil : Nat) (difX difY difZ ambX ambY ambZ shine : ℚ) : List GLCmd :=
  [.enter .drawCarpet] ++
  [.glPushMatrix, .glPushAttrib] ++
  (loadTexture soil).1 ++
  [.glEnable .GL_TEXTURE_2D, .glBindTexture .GL_TEXTURE_2D (loadTexture soil).2] ++
  setMaterial difX difY difZ ambX ambY ambZ shine ++
  [.glMaterialfv .GL_FRONT .GL_EMISSION no_mat] ++
  [.glBegin .GL_QUADS] ++
  ((List.range 6).flatMap fun i =>
    [getNormal3p
       (coord v_cube (idx quadIndices i 0) 0) (coord v_cube (idx quadIndices i 0) 1)
       (coord v_cube (idx quadIndices i 0) 2)
       (coord v_cube (idx quadIndices i 1) 0) (coord v_cube (idx quadIndices i 1) 1)
       (coord v_cube (idx quadIndices i 1) 2)
       (coord v_cube (idx quadIndices i 2) 0) (coord v_cube (idx quadIndices i 2) 1)
       (coord v_cube (idx quadIndices i 2) 2),
     .glTexCoord2f 0.0 0.0, glVertex3fv v_cube (idx quadIndices i 0),
     .glTexCoord2f 1.0 0.0, glVertex3fv v_cube (idx quadIndices i 1),
     .glTexCoord2f 1.0 1.0, glVertex3fv v_cube (idx quadIndices i 2),
     .glTexCoord2f 0.0 1.0, glVertex3fv v_cube (idx quadIndices i 3)]) ++
  [.glEnd] ++
  [.glDisable .GL_TEXTURE_2D, .glPopAttrib, .glPopMatrix]

/-- Vertex table of the trapezoidal prism. -/
def v_trapezoid : List (List ℚ) :=
  [[0.0, 0.0, 0.0],
   [0.0, 0.0, 3.0],
   [3.0, 0.0, 3.0],
   [3.0, 0.0, 0.0],
   [0.5, 3.0, 0.5],
   [0.5, 3.0, 2.5],
   [2.5, 3.0, 2.5],
   [2.5, 3.0, 0.5]]

/-- Face table of the trapezoidal prism: bottom, top, front, back, right, left. -/
def TquadIndices : List (List Nat) :=
  [[0, 1, 2, 3],
   [4, 5, 6, 7],
   [5, 1, 2, 6],
   [0, 4, 7, 3],
   [2, 3, 7, 6],
   [1, 5, 4, 0]]

/-- The routine `drawTrapezoid`; it reads the global `switchLamp`. -/
def drawTrapezoid (g : Globals) (difX difY difZ ambX ambY ambZ shine : ℚ) : List GLCmd :=
  let mat_emission : List ℚ := [difX, difY, difZ, 0.0]
  [.enter .drawTrapezoid] ++
  setMaterial difX difY difZ ambX ambY ambZ shine ++
  (if g.switchLamp = true then [.glMaterialfv .GL_FRONT .GL_EMISSION mat_emission]
   else [.glMaterialfv .GL_FRONT .GL_EMISSION no_mat]) ++
  [.glBegin .GL_QUADS] ++
  ((List.range 6).flatMap fun i =>
    [getNormal3p
       (coord v_trapezoid (idx TquadIndices i 0) 0) (coord v_trapezoid (idx TquadIndices i 0) 1)
       (coord v_trapezoid (idx TquadIndices i 0) 2)
       (coord v_trapezoid (idx TquadIndices i 1) 0) (coord v_trapezoid (idx TquadIndices i 1) 1)
       (coord v_trapezoid (idx TquadIndices i 1) 2)
       (coord v_trapezoid (idx TquadIndices i 2) 0) (coord v_trapezoid (idx TquadIndices i 2) 1)
       (coord v_trapezoid (idx TquadIndices i 2) 2),
     glVertex3fv v_trapezoid (idx TquadIndices i 0),
     glVertex3fv v_trapezoid (idx TquadIndices i 1),
     glVertex3fv v_trapezoid (idx TquadIndices i 2),
     glVertex3fv v_trapezoid (idx TquadIndices i 3)]) ++
  [.glEnd]

/-- Vertex table of the pyramid; vertex 4 is the apex. -/
def v_pyramid : List (List ℚ) :=
  [[0.0, 0.0, 0.0],
   [0.0, 0.0, 2.0],
   [2.0, 0.0, 2.0],
   [2.0, 0.0, 0.0],
   [1.0, 4.0, 1.0]]

/-- Triangle table of the pyramid: front, right, back, left. -/
def p_Indices : List (List Nat) :=
  [[4, 1, 2],
   [4, 2, 3],
   [4, 3, 0],
   [4, 0, 1]]

/-- Base quad of the pyramid. -/
def PquadIndices : List (List Nat) :=
  [[0, 3, 2, 1]]

/-- The routine `drawpyramid`; it does not set the emission. -/
def drawpyramid (difX difY difZ ambX ambY ambZ shine : ℚ) : List GLCmd :=
  [.enter .drawpyramid] ++
  setMaterial difX difY difZ ambX ambY ambZ shine ++
  [.glBegin .GL_TRIANGLES] ++
  ((List.range 4).flatMap fun i =>
    [getNormal3p
       (coord v_pyramid (idx p_Indices i 0) 0) (coord v_pyramid (idx p_Indices i 0) 1)
       (coord v_pyramid (idx p_Indices i 0) 2)
       (coord v_pyramid (idx p_Indices i 1) 0) (coord v_pyramid (idx p_Indices i 1) 1)
       (coord v_pyramid (idx p_Indices i 1) 2)
       (coord v_pyramid (idx p_Indices i 2) 0) (coord v_pyramid (idx p_Indices i 2) 1)
       (coord v_pyramid (idx p_Indices i 2) 2),
     glVertex3fv v_pyramid (idx p_Indices i 0),
     glVertex3fv v_pyramid (idx p_Indices i 1),
     glVertex3fv v_pyramid (idx p_Indices i 2)]) ++
  [.glEnd] ++
  [.glBegin .GL_QUADS] ++
  ((List.range 1).flatMap fun i =>
    [getNormal3p
       (coord v_pyramid (idx PquadIndices i 0) 0) (coord v_pyramid (idx PquadIndices i 0) 1)
       (coord v_pyramid (idx PquadIndices i 0) 2)
       (coord v_pyramid (idx PquadIndices i 1) 0) (coord v_pyramid (idx PquadIndices i 1) 1)
       (coord v_pyramid (idx PquadIndices i 1) 2)
       (coord v_pyramid (idx PquadIndices i 2) 0) (coord v_pyramid (idx PquadIndices i 2) 1)
       (coord v_pyramid (idx PquadIndices i 2) 2),
     glVertex3fv v_pyramid (idx PquadIndices i 0),
     glVertex3fv v_pyramid (idx PquadIndices i 1),
     glVertex3fv v_pyramid (idx PquadIndices i 2),
     glVertex3fv v_pyramid (idx PquadIndices i 3)]) ++
  [.glEnd]

/-- The routine `polygon` (mirror fill); it does not set the emission. -/
def polygon (difX difY difZ ambX ambY ambZ shine : ℚ) : List GLCmd :=
  [.enter .polygon] ++
  setMaterial difX difY difZ ambX ambY ambZ shine ++
  [.glBegin .GL_POLYGON,
   .glVertex2f 0 0,
   .glVertex2f 6 0,
   .glVertex2f 5.8 1,
   .glVertex2f 5.2 2,
   .glVertex2f 5 2.2,
   .glVertex2f 4 2.8,
   .glVertex2f 3 3,
   .glVertex2f 2 2.8,
   .glVertex2f 1 2.2,
   .glVertex2f 0.8 2,
   .glVertex2f 0.2 1,
   .glEnd]

/-- The routine `polygonLine` (mirror outline); it does not set the emission. -/
def polygonLine (difX difY difZ ambX ambY ambZ shine : ℚ) : List GLCmd :=
  [.enter .polygonLine] ++
  setMaterial difX difY difZ ambX ambY ambZ shine ++
  [.glBegin .GL_LINE_STRIP,
   .glVertex2f 6 0,
   .glVertex2f 5.8 1,
   .glVertex2f 5.2 2,
   .glVertex2f 5 2.2,
   .glVertex2f 4 2.8,
   .glVertex2f 3 3,
   .glVertex2f 2 2.8,
   .glVertex2f 1 2.2,
   .glVertex2f 0.8 2,
   .glVertex2f 0.2 1,
   .glVertex2f 0 0,
   .glEnd]

/-- The routine `drawSphere`; it does not set the emission. -/
def drawSphere (difX difY difZ ambX ambY ambZ shine : ℚ) : List GLCmd :=
  [.enter .drawSphere] ++
  setMaterial difX difY difZ ambX ambY ambZ shine ++
  [.glutSolidSphere 3.0 20 16]

/-- What the drawing code takes from outside the program text: the handle returned by
the image loader for `image.png` (0 on failure), and the seventh argument (`shine`) of
the `drawSphere` call at line 635, which the source leaves out although `drawSphere`
declares no default for it. -/
structure Env where
  soil : Nat
  knobShine : ℚ

/-! ### Furniture assemblies (lines 429-1231) -/

/-- The assembly `cupboard` (lines 429-518). -/
def cupboard : List GLCmd :=
  ([.glPushMatrix, .glTranslatef 4 0 4.4, .glScalef 0.5 1 0.5] ++
    drawCube1 0.5 0.2 0.2 0.25 0.1 0.1 50 ++ [.glPopMatrix]) ++
  ([.glPushMatrix, .glTranslatef 4 1 5.9, .glScalef 0.5 0.01 0.0001] ++
    drawCube1 0.2 0.1 0.1 0.1 0.05 0.05 50 ++ [.glPopMatrix]) ++
  ([.glPushMatrix, .glTranslatef 4 0.5 5.9, .glScalef 0.5 0.01 0.0001] ++
    drawCube1 0.2 0.1 0.1 0.1 0.05 0.05 50 ++ [.glPopMatrix]) ++
  ([.glPushMatrix, .glTranslatef 4 0 5.9, .glScalef 0.5 0.01 0.0001] ++
    drawCube1 0.2 0.1 0.1 0.1 0.05 0.05 50 ++ [.glPopMatrix]) ++
  ([.glPushMatrix, .glTranslatef 5.5 0 5.9, .glScalef 0.01 1 0.0001] ++
    drawCube1 0.2 0.1 0.1 0.1 0.05 0.05 50 ++ [.glPopMatrix]) ++
  ([.glPushMatrix, .glTranslatef 4.75 1 5.9, .glScalef 0.01 0.67 0.0001] ++
    drawCube1 0.2 0.1 0.1 0.1 0.05 0.05 50 ++ [.glPopMatrix]) ++
  ([.glPushMatrix, .glTranslatef 4 0 5.9, .glScalef 0.01 1 0.0001] ++
    drawCube1 0.2 0.1 0.1 0.1 0.05 0.05 50 ++ [.glPopMatrix]) ++
  ([.glPushMatrix, .glTranslatef 5 1.4 5.9, .glScalef 0.02 0.18 0.01] ++
    drawCube1 0.2 0.1 0.1 0.1 0.05 0.05 50 ++ [.glPopMatrix]) ++
  ([.glPushMatrix, .glTranslatef 5.02 1.9 5.91, .glScalef 0.02 0.02 0.01] ++
    drawSphere 0.2 0.1 0.1 0.1 0.05 0.05 10 ++ [.glPopMatrix]) ++
  ([.glPushMatrix, .glTranslatef 4.5 1.4 5.9, .glScalef 0.02 0.18 0.01] ++
    drawCube1 0.2 0.1 0.1 0.1 0.05 0.05 50 ++ [.glPopMatrix]) ++
  ([.glPushMatrix, .glTranslatef 4.52 1.9 5.91, .glScalef 0.02 0.02 0.01] ++
    drawSphere 0.2 0.1 0.1 0.1 0.05 0.05 10 ++ [.glPopMatrix]) ++
  ([.glPushMatrix, .glTranslatef 4.5 0.7 5.9, .glScalef 0.16 0.02 0.01] ++
    drawCube1 0.2 0.1 0.1 0.1 0.05 0.05 50 ++ [.glPopMatrix]) ++
  ([.glPushMatrix, .glTranslatef 4.5 0.25 5.9, .glScalef 0.16 0.02 0.01] ++
    drawCube1 0.2 0.1 0.1 0.1 0.05 0.05 50 ++ [.glPopMatrix])

/-- The assembly `room` (lines 522-565); the carpet reaches the image loader. -/
def room (env : Env) : List GLCmd :=
  ([.glPushMatrix, .glTranslatef 3 (-0.2) 7, .glScalef 1.3 0.01 1.7] ++
    drawCarpet env.soil 0.4 0.1 0.0 0.20 0.05 0.0 50 ++ [.glPopMatrix]) ++
  ([.glPushMatrix, .glTranslatef (-1.5) (-1) 0.5, .glScalef 5 2 0.1] ++
    drawCube1 1 0.8 0.7 0.5 0.4 0.35 50 ++ [.glPopMatrix]) ++
  ([.glPushMatrix, .glTranslatef (-4.5) (-1) 0, .glScalef 1 2 5] ++
    drawCube1 1 0.8 0.7 0.5 0.4 0.35 50 ++ [.glPopMatrix]) ++
  ([.glPushMatrix, .glTranslatef 8 (-1) 0, .glScalef 0.2 2 5] ++
    drawCube1 1 0.8 0.7 0.5 0.4 0.35 50 ++ [.glPopMatrix]) ++
  ([.glPushMatrix, .glTranslatef (-2) 5.1 0, .glScalef 5 0.1 7] ++
    drawCube1 1.0 0.9 0.8 0.5 0.45 0.4 50 ++ [.glPopMatrix]) ++
  ([.glPushMatrix, .glTranslatef (-1) (-5) 0, .glScalef 5 0.1 7] ++
    drawCube1 0.5 0.1 0.0 0.25 0.05 0 50 ++ [.glPopMatrix])

/-- The assembly `bed` (lines 568-612). -/
def bed : List GLCmd :=
  ([.glPushMatrix, .glTranslatef (-2) (-0.5) 6.2, .glScalef 0.1 0.5 0.9] ++
    drawCube1 0.5 0.2 0.2 0.25 0.1 0.1 50 ++ [.glPopMatrix]) ++
  ([.glPushMatrix, .glTranslatef 0 (-0.5) 6.2, .glScalef 1 0.2 0.9] ++
    drawCube1 0.824 0.706 0.549 0.412 0.353 0.2745 50 ++ [.glPopMatrix]) ++
  ([.glPushMatrix, .glTranslatef 0.5 0.5 6, .glRotatef 20 0 0 1, .glScalef 0.1 0.15 0.28] ++
    drawCube1 0.627 0.322 0.176 0.3135 0.161 0.088 50 ++ [.glPopMatrix]) ++
  ([.glPushMatrix, .glTranslatef 0.5 0.5 7.2, .glRotatef 22 0 0 1, .glScalef 0.1 0.15 0.28] ++
    drawCube1 0.627 0.322 0.176 0.3135 0.161 0.088 50 ++ [.glPopMatrix]) ++
  ([.glPushMatrix, .glTranslatef 1.4 0.45 5.5, .glScalef 0.5 0.05 0.95] ++
    drawCube1 0.627 0.322 0.176 0.3135 0.161 0.088 50 ++ [.glPopMatrix]) ++
  ([.glPushMatrix, .glTranslatef 1.4 (-0.3) 8.16, .glScalef 0.5 0.25 0.05] ++
    drawCube1 0.627 0.322 0.176 0.3135 0.161 0.088 50 ++ [.glPopMatrix])

/-- The assembly `bedsideDrawer` (lines 615-637); the call of `drawSphere` for the knob passes six arguments. -/
def bedsideDrawer (env : Env) : List GLCmd :=
  ([.glPushMatrix, .glTranslatef 0.5 (-0.1) 8.7, .glScalef 0.12 0.2 0.23] ++
    drawCube1 0.2 0.1 0.1 0.1 0.05 0.05 50 ++ [.glPopMatrix]) ++
  ([.glPushMatrix, .glTranslatef 0.88 0 8.8, .glScalef 0.0001 0.11 0.18] ++
    drawCube1 0.3 0.2 0.2 0.15 0.1 0.1 50 ++ [.glPopMatrix]) ++
  ([.glPushMatrix, .glTranslatef 0.9 0.15 9.05, .glScalef 0.01 0.02 0.02] ++
    drawSphere 0.3 0.1 0.0 0.15 0.05 0.0 env.knobShine ++ [.glPopMatrix])

/-- The assembly `lamp` (lines 641-665); the shade is the only `drawTrapezoid` call. -/
def lamp (g : Globals) : List GLCmd :=
  ([.glPushMatrix, .glTranslatef 0.6 0.5 8.95, .glScalef 0.07 0.02 0.07] ++
    drawCube1 0 0 1 0 0 0.5 50 ++ [.glPopMatrix]) ++
  [.glColor3f 1 0 0] ++
  ([.glPushMatrix, .glTranslatef 0.7 0.35 9.05, .glScalef 0.01 0.2 0.01] ++
    drawCube1 1 0 0 0.5 0.0 0.0 50 ++ [.glPopMatrix]) ++
  [.glColor3f 0.000 0.000 0.545] ++
  ([.glPushMatrix, .glTranslatef 0.6 0.9 8.9, .glScalef 0.08 0.09 0.08] ++
    drawTrapezoid g 0.000 0.000 0.545 0 0 0.2725 50 ++ [.glPopMatrix])

/-- The assembly `LinkinParkPoster` (lines 668-711). -/
def LinkinParkPoster : List GLCmd :=
  [.glColor3f 0.0 0.0 0.0] ++
  ([.glPushMatrix, .glTranslatef (-1) 1.4 4.6, .glScalef 0.0001 0.65 0.8] ++
    drawCube1 0 0 0 0 0 0 10 ++ [.glPopMatrix]) ++
  [.glColor3f 1.0 1.0 1.0] ++
  ([.glPushMatrix, .glTranslatef (-0.9) 2.1 5.5, .glScalef 0.0001 0.02 0.25] ++
    drawCube1 1.0 1.0 1.0 1.0 1.0 1.0 10 ++ [.glPopMatrix]) ++
  ([.glPushMatrix, .glTranslatef (-0.9) 2.1 6.2, .glRotatef (-14) 1 0 0, .glScalef 0.0001 0.28 0.02] ++
    drawCube1 1.0 1.0 1.0 1.0 1.0 1.0 10 ++ [.glPopMatrix]) ++
  ([.glPushMatrix, .glTranslatef (-0.9) 1.8 6, .glRotatef (-14) 1 0 0, .glScalef 0.0001 0.29 0.02] ++
    drawCube1 1.0 1.0 1.0 1.0 1.0 1.0 10 ++ [.glPopMatrix]) ++
  ([.glPushMatrix, .glTranslatef (-0.9) 2.1 5.5, .glRotatef 23 1 0 0, .glScalef 0.0001 0.25 0.02] ++
    drawCube1 1.0 1.0 1.0 1.0 1.0 1.0 10 ++ [.glPopMatrix])

/-- The assembly `dressingTable` (lines 746-956). -/
def dressingTable : List GLCmd :=
  ([.glPushMatrix, .glTranslatef 5.9 0 4.6, .glScalef 0.2 0.2 0.2] ++
    drawCube1 0.545 0.271 0.075 0.2725 0.1355 0.0375 50 ++ [.glPopMatrix]) ++
  ([.glPushMatrix, .glTranslatef 7 0 4.6, .glScalef 0.2 0.2 0.2] ++
    drawCube1 0.545 0.271 0.075 0.2725 0.1355 0.0375 50 ++ [.glPopMatrix]) ++
  ([.glPushMatrix, .glTranslatef 5.9 0.6 4.6, .glScalef 0.57 0.1 0.2] ++
    drawCube1 0.545 0.271 0.075 0.2725 0.1355 0.0375 50 ++ [.glPopMatrix]) ++
  ([.glPushMatrix, .glTranslatef 5.9 0.6 5.2, .glScalef 0.57 0.01 0.0001] ++
    drawCube1 0.2 0.1 0.1 0.1 0.05 0.05 50 ++ [.glPopMatrix]) ++
  ([.glPushMatrix, .glTranslatef 5.9 0.9 5.2, .glScalef 0.57 0.01 0.0001] ++
    drawCube1 0.2 0.1 0.1 0.1 0.05 0.05 50 ++ [.glPopMatrix]) ++
  [.glColor3f 0.2 0.1 0.1] ++
  ([.glPushMatrix, .glTranslatef 6.5 0.75 5.2, .glScalef 0.16 0.02 0.0001] ++
    drawCube1 0.2 0.1 0.1 0.1 0.05 0.05 50 ++ [.glPopMatrix]) ++
  [.glColor3f 0.2 0.1 0.1] ++
  ([.glPushMatrix, .glTranslatef 6.4 0.1 5.2, .glScalef 0.02 0.13 0.0001] ++
    drawCube1 0.2 0.1 0.1 0.1 0.05 0.05 50 ++ [.glPopMatrix]) ++
  [.glColor3f 0.2 0.1 0.1] ++
  ([.glPushMatrix, .glTranslatef 7.1 0.1 5.2, .glScalef 0.02 0.13 0.0001] ++
    drawCube1 0.2 0.1 0.1 0.1 0.05 0.05 50 ++ [.glPopMatrix]) ++
  ([.glPushMatrix, .glTranslatef 6.2 0.9 4.7, .glScalef 0.36 0.5 0.0001] ++
    drawCube1 0.690 0.878 0.902 0.345 0.439 0.451 10 ++ [.glPopMatrix]) ++
  ([.glPushMatrix, .glTranslatef 5.92 0.9 4.7, .glScalef 0.1 0.48 0.0001] ++
    drawCube1 0.690 0.878 0.902 0.345 0.439 0.451 10 ++ [.glPopMatrix]) ++
  [.glColor3f 0.2 0.1 0.1] ++
  ([.glPushMatrix, .glTranslatef 5.92 0.9 4.71, .glScalef 0.019 0.48 0.0001] ++
    drawCube1 0.2 0.1 0.1 0.1 0.05 0.05 50 ++ [.glPopMatrix]) ++
  [.glColor3f 0.2 0.1 0.1] ++
  ([.glPushMatrix, .glTranslatef 6.17 0.9 4.71, .glScalef 0.019 0.48 0.0001] ++
    drawCube1 0.2 0.1 0.1 0.1 0.05 0.05 50 ++ [.glPopMatrix]) ++
  [.glColor3f 0.2 0.1 0.1] ++
  ([.glPushMatrix, .glTranslatef 5.92 0.9 4.71, .glScalef 0.55 0.019 0.0001] ++
    drawCube1 0.2 0.1 0.1 0.1 0.05 0.05 50 ++ [.glPopMatrix]) ++
  [.glColor3f 0.2 0.1 0.1] ++
  ([.glPushMatrix, .glTranslatef 5.92 2.3 4.71, .glScalef 0.1 0.019 0.0001] ++
    drawCube1 0.2 0.1 0.1 0.1 0.05 0.05 50 ++ [.glPopMatrix]) ++
  ([.glPushMatrix, .glTranslatef 7.25 0.9 4.7, .glScalef 0.1 0.48 0.0001] ++
    drawCube1 0.690 0.878 0.902 0.345 0.439 0.451 10 ++ [.glPopMatrix]) ++
  [.glColor3f 0.2 0.1 0.1] ++
  ([.glPushMatrix, .glTranslatef 7.25 2.3 4.71, .glScalef 0.1 0.019 0.0001] ++
    drawCube1 0.2 0.1 0.1 0.1 0.05 0.05 50 ++ [.glPopMatrix]) ++
  [.glColor3f 0.2 0.1 0.1] ++
  ([.glPushMatrix, .glTranslatef 7.25 0.9 4.71, .glScalef 0.019 0.48 0.0001] ++
    drawCube1 0.2 0.1 0.1 0.1 0.05 0.05 50 ++ [.glPopMatrix]) ++
  [.glColor3f 0.2 0.1 0.1] ++
  ([.glPushMatrix, .glTranslatef 7.5 0.9 4.71, .glScalef 0.019 0.48 0.0001] ++
    drawCube1 0.2 0.1 0.1 0.1 0.05 0.05 50 ++ [.glPopMatrix]) ++
  [.glColor3f 0.690 0.878 0.902] ++
  ([.glPushMatrix, .glTranslatef 6.2 2.4 4.7, .glScalef 0.18 0.18 2] ++
    polygon 0.690 0.878 0.902 0.345 0.439 0.451 10 ++ [.glPopMatrix]) ++
  [.glColor3f 0.2 0.1 0.1] ++
  ([.glPushMatrix, .glTranslatef 6.2 2.4 4.71, .glScalef 0.18 0.18 1] ++
    polygonLine 0.2 0.1 0.1 0.1 0.05 0.05 50 ++ [.glPopMatrix])

/-- The assembly `wallshelf` (lines 959-1084). -/
def wallshelf : List GLCmd :=
  ([.glPushMatrix, .glTranslatef 1.5 2.7 3, .glScalef 0.4 0.03 0.2] ++
    drawCube1 0.2 0.1 0.1 0.1 0.05 0.05 50 ++ [.glPopMatrix]) ++
  ([.glPushMatrix, .glTranslatef 1 2.3 3, .glScalef 0.4 0.03 0.2] ++
    drawCube1 0.2 0.1 0.1 0.1 0.05 0.05 50 ++ [.glPopMatrix]) ++
  ([.glPushMatrix, .glTranslatef 0.5 1.9 3, .glScalef 0.4 0.03 0.2] ++
    drawCube1 0.2 0.1 0.1 0.1 0.05 0.05 50 ++ [.glPopMatrix]) ++
  ([.glPushMatrix, .glTranslatef 1 1.5 3, .glScalef 0.4 0.03 0.2] ++
    drawCube1 0.2 0.1 0.1 0.1 0.05 0.05 50 ++ [.glPopMatrix]) ++
  ([.glPushMatrix, .glTranslatef 1.5 1.1 3, .glScalef 0.4 0.03 0.2] ++
    drawCube1 0.2 0.1 0.1 0.1 0.05 0.05 50 ++ [.glPopMatrix]) ++
  ([.glPushMatrix, .glTranslatef 1.5 1.2 3, .glScalef 0.04 0.06 0.2] ++
    drawCube1 0.698 0.133 0.133 0.349 0.0665 0.0665 50 ++ [.glPopMatrix]) ++
  ([.glPushMatrix, .glTranslatef 2 1.2 3, .glScalef 0.04 0.06 0.2] ++
    drawCube1 0.729 0.333 0.827 0.3645 0.1665 0.4135 50 ++ [.glPopMatrix]) ++
  ([.glPushMatrix, .glTranslatef 2.5 1.2 3, .glScalef 0.04 0.06 0.2] ++
    drawCube1 0.098 0.098 0.439 0.049 0.049 0.2195 50 ++ [.glPopMatrix]) ++
  ([.glPushMatrix, .glTranslatef 2.51 1.35 3, .glScalef 0.01 0.05 0.2] ++
    drawCube1 0.529 0.808 0.980 0.2645 0.404 0.490 50 ++ [.glPopMatrix]) ++
  [.glColor3f 0.502 0.502 0.000] ++
  ([.glPushMatrix, .glTranslatef 2.5 2.71 3, .glScalef 0.05 0.16 0.01] ++
    drawCube1 0.502 0.502 0.000 0.251 0.251 0 50 ++ [.glPopMatrix]) ++
  ([.glPushMatrix, .glTranslatef 1.8 2.71 3, .glScalef 0.16 0.1 0.01] ++
    drawCube1 0 0 0.9 0 0 0.45 50 ++ [.glPopMatrix]) ++
  [.glColor3f 0.416 0.353 0.804] ++
  ([.glPushMatrix, .glTranslatef 1.3 2.4 3, .glScalef 0.16 0.08 0.01] ++
    drawCube1 0.416 0.353 0.804 0.208 0.1765 0.402 50 ++ [.glPopMatrix]) ++
  ([.glPushMatrix, .glTranslatef 0.4 1.9 3, .glScalef 0.05 0.16 0.01] ++
    drawCube1 0.863 0.078 0.235 0.4315 0.039 0.1175 50 ++ [.glPopMatrix]) ++
  ([.glPushMatrix, .glTranslatef 0.7 1.9 3, .glScalef 0.05 0.12 0.01] ++
    drawCube1 0.780 0.082 0.522 0.39 0.041 0.261 50 ++ [.glPopMatrix]) ++
  [.glColor3f 0.600 0.196 0.800] ++
  ([.glPushMatrix, .glTranslatef 1 1.9 3, .glScalef 0.05 0.09 0.01] ++
    drawCube1 0.6 0.196 0.8 0.3 0.098 0.4 50 ++ [.glPopMatrix]) ++
  ([.glPushMatrix, .glTranslatef 1.8 1.5 3, .glScalef 0.2 0.1 0.2] ++
    drawpyramid 0.282 0.239 0.545 0.141 0.1195 0.2725 50 ++ [.glPopMatrix]) ++
  ([.glPushMatrix, .glTranslatef 1.4 1.5 3, .glScalef 0.15 0.1 0.2] ++
    drawpyramid 0.251 0.878 0.816 0.1255 0.439 0.408 50 ++ [.glPopMatrix])

/-- The assembly `Clock` (lines 1086-1144); the stick is rotated by `theta`, the ball is placed at depth `z`. -/
def Clock (g : Globals) : List GLCmd :=
  [.glColor3f 0.545 0.271 0.075] ++
  ([.glPushMatrix, .glTranslatef (-0.9) 1.8 7.87, .glScalef 0.08 0.25 0.1] ++
    drawCube1 0.545 0.271 0.075 0.271 0.1335 0.0375 50 ++ [.glPopMatrix]) ++
  ([.glPushMatrix, .glTranslatef (-0.83) 1.9 7.9, .glScalef 0.06 0.2 0.08] ++
    drawCube1 1.000 0.894 0.710 1.000 0.894 0.710 50 ++ [.glPopMatrix]) ++
  ([.glPushMatrix, .glTranslatef (-0.65) 2.18 8.01, .glRotatef 45 1 0 0, .glScalef 0.0001 0.01 0.04] ++
    drawCube1 0 0 0 0 0 0 50 ++ [.glPopMatrix]) ++
  ([.glPushMatrix, .glTranslatef (-0.65) 2.18 8.01, .glRotatef 90 1 0 0, .glScalef 0.0001 0.012 0.08] ++
    drawCube1 0 0 0 0 0 0 50 ++ [.glPopMatrix]) ++
  [.glColor3f 0.2 0.1 0.1] ++
  ([.glPushMatrix, .glTranslatef (-0.7) 2 8.1, .glRotatef g.theta 1 0 0, .glScalef 0.0001 0.2 0.03] ++
    drawCube1 0.2 0.1 0.1 0.1 0.05 0.05 50 ++ [.glPopMatrix]) ++
  [.glColor3f 0.2 0.1 0.1] ++
  ([.glPushMatrix, .glTranslatef (-0.72) 1.42 g.z, .glScalef 0.035 0.035 0.035] ++
    drawSphere 0.2 0.1 0.1 0.1 0.05 0.05 10 ++ [.glPopMatrix]) ++
  ([.glPushMatrix, .glTranslatef (-0.9) 2.5 7.81, .glScalef 0.16 0.1 0.2] ++
    drawpyramid 0.5 0.2 0 0.25 0.1 0 50 ++ [.glPopMatrix])

/-- The assembly `window` (lines 1146-1205). -/
def window : List GLCmd :=
  ([.glPushMatrix, .glTranslatef (-0.9) 1 8.9, .glScalef 0.0001 0.6 0.3] ++
    drawCube1 1.0 1.0 1.0 0.05 0.05 0.05 50 ++ [.glPopMatrix]) ++
  ([.glPushMatrix, .glTranslatef (-0.9) 1 8.9, .glScalef 0.04 0.6 0.0001] ++
    drawCube1 0.8 0.6 0.4 0.4 0.3 0.2 50 ++ [.glPopMatrix]) ++
  ([.glPushMatrix, .glTranslatef (-0.9) 1 9.8, .glScalef 0.04 0.6 0.0001] ++
    drawCube1 0.8 0.6 0.4 0.4 0.3 0.2 50 ++ [.glPopMatrix]) ++
  ([.glPushMatrix, .glTranslatef (-0.7) 2.7 8.9, .glScalef 0.0001 0.05 0.4] ++
    drawCube1 0.7 0.6 0.5 0.35 0.3 0.25 50 ++ [.glPopMatrix]) ++
  ([.glPushMatrix, .glTranslatef (-0.8) 1.02 8.9, .glScalef 0.0001 0.02 0.34] ++
    drawCube1 0.7 0.6 0.5 0.35 0.3 0.25 50 ++ [.glPopMatrix]) ++
  ([.glPushMatrix, .glTranslatef (-0.87) 2.1 8.9, .glScalef 0.0001 0.02 0.3] ++
    drawCube1 0.0 0.0 0.0 0.0 0.0 0.0 5 ++ [.glPopMatrix]) ++
  ([.glPushMatrix, .glTranslatef (-0.87) 1.6 8.9, .glScalef 0.0001 0.02 0.3] ++
    drawCube1 0.0 0.0 0.0 0.0 0.0 0.0 5 ++ [.glPopMatrix]) ++
  ([.glPushMatrix, .glTranslatef (-0.87) 1 9.3, .glScalef 0.0001 0.6 0.02] ++
    drawCube1 0.0 0.0 0.0 0.0 0.0 0.0 5 ++ [.glPopMatrix])

/-- The assembly `sphericalObject` (lines 1208-1231). -/
def sphericalObject : List GLCmd :=
  ([.glPushMatrix, .glTranslatef 5 0.2 10, .glScalef 0.1 0.02 0.1] ++
    drawSphere 0.5 0.2 0 0.25 0.1 0 20 ++ [.glPopMatrix]) ++
  [.glColor3f 0.2 0.1 0.1] ++
  ([.glPushMatrix, .glTranslatef 4.98 (-0.1) 10, .glScalef 0.02 0.1 0.02] ++
    drawCube1 0.2 0.1 0.1 0.1 0.05 0.05 50 ++ [.glPopMatrix]) ++
  ([.glPushMatrix, .glTranslatef 5 (-0.1) 10, .glScalef 0.05 0.01 0.05] ++
    drawSphere 0.5 0.2 0 0.25 0.1 0 20 ++ [.glPopMatrix])

/-- The loop `for (float yPos = start; yPos >= stop; yPos -= 0.4) body`. -/
def forYPos (yPos stop : ℚ) (body : ℚ → List GLCmd) : List GLCmd :=
  if yPos ≥ stop then body yPos ++ forYPos (yPos - 0.4) stop body else []
termination_by Nat.ceil ((yPos - stop) / 0.4 + 1)
decreasing_by
  rename_i h
  have h1 : (0 : ℚ) ≤ (yPos - 0.4 - stop) / 0.4 + 1 := by
    have : yPos - 0.4 - stop = (yPos - stop) - 0.4 := by ring
    rw [this, sub_div]
    have h2 : (0 : ℚ) ≤ (yPos - stop) / 0.4 := div_nonneg (by linarith) (by norm_num)
    have h4 : (0.4 : ℚ) / 0.4 = 1 := by norm_num
    rw [h4]
    linarith
  have h3 : (yPos - stop) / 0.4 + 1 = ((yPos - 0.4 - stop) / 0.4 + 1) + 1 := by
    field_simp
    ring
  rw [h3, Nat.ceil_add_one h1]
  exact Nat.lt_succ_self _

/-- The assembly `wardrobe` (lines 714-743). -/
def wardrobe : List GLCmd :=
  ([.glPushMatrix, .glTranslatef 0 0 4, .glScalef 0.12 0.6 0.4] ++
    drawCube1 0.3 0.1 0 0.15 0.05 0 50 ++ [.glPopMatrix]) ++
  forYPos 1.4 0.2 (fun yPos =>
    [.glPushMatrix, .glTranslatef 0.36 yPos 4.05, .glScalef 0.0001 0.11 0.38] ++
      drawCube1 0.5 0.2 0.2 0.25 0.1 0.1 50 ++ [.glPopMatrix]) ++
  [.glColor3f 0.3 0.1 0] ++
  forYPos 1.5 0.3 (fun yPos =>
    [.glPushMatrix, .glTranslatef 0.37 yPos 4.3, .glScalef 0.01 0.03 0.2] ++
      drawCube1 0.3 0.1 0 0.15 0.05 0.0 50 ++ [.glPopMatrix])

/-! ### Light bulbs and light sources (lines 1233-1427) -/

/-- The routine `lightBulb1`; it reads the global `switchOne`.  (The `enter` mark
stands after the transform, right before the material calls.) -/
def lightBulb1 (g : Globals) : List GLCmd :=
  [.glPushMatrix, .glTranslatef 5 5 8, .glScalef 0.2 0.2 0.2] ++
    ([.enter .lightBulb1,
      .glMaterialfv .GL_FRONT .GL_AMBIENT no_mat,
      .glMaterialfv .GL_FRONT .GL_DIFFUSE [1.000, 0.843, 0.000, 1.0],
      .glMaterialfv .GL_FRONT .GL_SPECULAR no_mat,
      .glMaterialfv .GL_FRONT .GL_SHININESS [100.0]] ++
     (if g.switchOne = true then [.glMaterialfv .GL_FRONT .GL_EMISSION [1.000, 1, 1, 0.0]]
      else [.glMaterialfv .GL_FRONT .GL_EMISSION no_mat]) ++
     [.glutSolidSphere 1.0 16 16]) ++
    [.glPopMatrix]

/-- The routine `lightBulb2`; it reads the global `switchTwo`. -/
def lightBulb2 (g : Globals) : List GLCmd :=
  [.glPushMatrix, .glTranslatef 0 5 8, .glScalef 0.2 0.2 0.2] ++
    ([.enter .lightBulb2,
      .glMaterialfv .GL_FRONT .GL_AMBIENT no_mat,
      .glMaterialfv .GL_FRONT .GL_DIFFUSE [1.000, 0.843, 0.000, 1.0],
      .glMaterialfv .GL_FRONT .GL_SPECULAR no_mat,
      .glMaterialfv .GL_FRONT .GL_SHININESS [100.0]] ++
     (if g.switchTwo = true then [.glMaterialfv .GL_FRONT .GL_EMISSION [1, 1, 1, 1.0]]
      else [.glMaterialfv .GL_FRONT .GL_EMISSION no_mat]) ++
     [.glutSolidSphere 1.0 16 16]) ++
    [.glPopMatrix]

/-- The routine `lightOne`; it reads `amb1`, `diff1`, `spec1`. -/
def lightOne (g : Globals) : List GLCmd :=
  let no_light : List ℚ := [0.0, 0.0, 0.0, 1.0]
  let light_ambient : List ℚ := [0.5, 0.5, 0.5, 1.0]
  let light_diffuse : List ℚ := [1.0, 1.0, 1.0, 1.0]
  let light_specular : List ℚ := [1.0, 1.0, 1.0, 1.0]
  let light_position : List ℚ := [5.0, 5.0, 8.0, 1.0]
  [.glPushMatrix] ++
  (if g.amb1 = true then [.glLightfv .GL_LIGHT0 .GL_AMBIENT light_ambient]
   else [.glLightfv .GL_LIGHT0 .GL_AMBIENT no_light]) ++
  (if g.diff1 = true then [.glLightfv .GL_LIGHT0 .GL_DIFFUSE light_diffuse]
   else [.glLightfv .GL_LIGHT0 .GL_DIFFUSE no_light]) ++
  (if g.spec1 = true then [.glLightfv .GL_LIGHT0 .GL_SPECULAR light_specular]
   else [.glLightfv .GL_LIGHT0 .GL_SPECULAR no_light]) ++
  [.glLightfv .GL_LIGHT0 .GL_POSITION light_position] ++
  [.glPopMatrix]

/-- The routine `lightTwo`; it reads `amb2`, `diff2`, `spec2`. -/
def lightTwo (g : Globals) : List GLCmd :=
  let no_light : List ℚ := [0.0, 0.0, 0.0, 1.0]
  let light_ambient : List ℚ := [0.5, 0.5, 0.5, 1.0]
  let light_diffuse : List ℚ := [1.0, 1.0, 0.9, 1.0]
  let light_specular : List ℚ := [1.0, 1.0, 1.0, 1.0]
  let light_position : List ℚ := [0.0, 5.0, 8.0, 1.0]
  [.glPushMatrix] ++
  (if g.amb2 = true then [.glLightfv .GL_LIGHT1 .GL_AMBIENT light_ambient]
   else [.glLightfv .GL_LIGHT1 .GL_AMBIENT no_light]) ++
  (if g.diff2 = true then [.glLightfv .GL_LIGHT1 .GL_DIFFUSE light_diffuse]
   else [.glLightfv .GL_LIGHT1 .GL_DIFFUSE no_light]) ++
  (if g.spec2 = true then [.glLightfv .GL_LIGHT1 .GL_SPECULAR light_specular]
   else [.glLightfv .GL_LIGHT1 .GL_SPECULAR no_light]) ++
  [.glLightfv .GL_LIGHT1 .GL_POSITION light_position] ++
  [.glPopMatrix]

/-- The routine `lampLight`; it reads `amb3`, `diff3`, `spec3`. -/
def lampLight (g : Globals) : List GLCmd :=
  let no_light : List ℚ := [0.0, 0.0, 0.0, 1.0]
  let light_ambient : List ℚ := [0.5, 0.5, 0.5, 1.0]
  let light_diffuse : List ℚ := [1.0, 1.0, 1.0, 1.0]
  let light_specular : List ℚ := [1.0, 1.0, 1.0, 1.0]
  let light_position : List ℚ := [0.7, 1.5, 9.0, 1.0]
  let spot_direction : List ℚ := [0.3, -1, -0.8]
  [.glPushMatrix] ++
  (if g.amb3 = true then [.glLightfv .GL_LIGHT2 .GL_AMBIENT light_ambient]
   else [.glLightfv .GL_LIGHT2 .GL_AMBIENT no_light]) ++
  (if g.diff3 = true then [.glLightfv .GL_LIGHT2 .GL_DIFFUSE light_diffuse]
   else [.glLightfv .GL_LIGHT2 .GL_DIFFUSE no_light]) ++
  (if g.spec3 = true then [.glLightfv .GL_LIGHT2 .GL_SPECULAR light_specular]
   else [.glLightfv .GL_LIGHT2 .GL_SPECULAR no_light]) ++
  [.glLightfv .GL_LIGHT2 .GL_POSITION light_position] ++
  [.glLightfv .GL_LIGHT2 .GL_SPOT_DIRECTION spot_direction,
   .glLightf .GL_LIGHT2 .GL_SPOT_CUTOFF 35.0] ++
  [.glPopMatrix]

/-! ### The display callback (lines 1432-1467) -/

/-- What `display` issues before the first assembly. -/
def displayPrologue (g : Globals) : List GLCmd :=
  [.glClear,
   .glMatrixMode .GL_PROJECTION,
   .glLoadIdentity,
   .gluPerspective 60 1 1 100,
   .glMatrixMode .GL_MODELVIEW,
   .glLoadIdentity,
   .gluLookAt g.eyeX g.eyeY g.eyeZ g.refX g.refY g.refZ 0 1 0,
   .glEnable .GL_LIGHTING]

/-- The routines `display` calls, in call order. -/
def sceneRoutines (env : Env) (g : Globals) : List (List GLCmd) :=
  [lightOne g,
   lightTwo g,
   lampLight g,
   room env,
   bed,
   bedsideDrawer env,
   lamp g,
   LinkinParkPoster,
   wallshelf,
   wardrobe,
   cupboard,
   dressingTable,
   Clock g,
   window,
   sphericalObject,
   lightBulb1 g,
   lightBulb2 g]

/-- What `display` issues after the last assembly. -/
def displayEpilogue : List GLCmd :=
  [.glDisable .GL_LIGHTING,
   .glFlush,
   .glutSwapBuffers]

/-- The display callback `display`: one rendered frame. -/
def display (env : Env) (g : Globals) : List GLCmd :=
  displayPrologue g ++ (sceneRoutines env g).flatten ++ displayEpilogue

/-! ## Drawing: the GL state the command stream acts on

Only the parts of the GL state the properties below speak about are kept: the matrix
mode, the two matrix stacks, the front material's diffuse and emission colour, and the
attribute stack.  A matrix is kept as the sequence of transformations multiplied onto
the identity, oldest first, so two equal sequences denote equal matrices.  Stack
overflow is not modelled. -/

/-- One transformation multiplied onto the current matrix. -/
inductive Xf where
  | translate (x y z : ℚ)
  | scale (x y z : ℚ)
  | rotate (angle x y z : ℚ)
  | lookAt (eyeX eyeY eyeZ centerX centerY centerZ upX upY upZ : ℚ)
  | perspective (fovy aspect zNear zFar : ℚ)
deriving DecidableEq

/-- A matrix stack; it always holds at least the current matrix `top`. -/
structure MatrixStack where
  top : List Xf
  below : List (List Xf)
deriving DecidableEq

/-- Number of matrices on the stack. -/
def MatrixStack.depth (m : MatrixStack) : Nat :=
  m.below.length + 1

/-- What `glPushAttrib(GL_ALL_ATTRIB_BITS)` saves, of the state kept here. -/
structure SavedAttribs where
  mode : GLenum
  diffuse : List ℚ
  emission : List ℚ
deriving DecidableEq

/-- One piece of geometry sent to GL (a `glBegin` or a `glutSolidSphere`): the routine
that sent it, and the front material and modelview matrix in force at that moment. -/
structure Draw where
  routine : Routine
  diffuse : List ℚ
  emission : List ℚ
  matrix : List Xf
deriving DecidableEq

/-- The GL state.  `drawn` logs the geometry sent so far, most recent first;
`lowWater` is the smallest depth the modelview stack has had; `underflow` records a
`glPopMatrix` on a stack of depth 1 (which GL refuses). -/
structure GLState where
  mode : GLenum
  modelview : MatrixStack
  projection : MatrixStack
  diffuse : List ℚ
  emission : List ℚ
  attribs : List SavedAttribs
  routine : Routine
  drawn : List Draw
  lowWater : Nat
  underflow : Bool

/-- Multiply the current matrix of the current mode by `x`. -/
def GLState.mult (s : GLState) (x : Xf) : GLState :=
  match s.mode with
  | .GL_MODELVIEW => { s with modelview := { s.modelview with top := s.modelview.top ++ [x] } }
  | .GL_PROJECTION =>
    { s with projection := { s.projection with top := s.projection.top ++ [x] } }
  | _ => s

/-- The effect of one call on the GL state. -/
def step (s : GLState) : GLCmd → GLState
  | .glMatrixMode mode => { s with mode := mode }
  | .glLoadIdentity =>
    match s.mode with
    | .GL_MODELVIEW => { s with modelview := { s.modelview with top := [] } }
    | .GL_PROJECTION => { s with projection := { s.projection with top := [] } }
    | _ => s
  | .gluPerspective fovy aspect zNear zFar => s.mult (.perspective fovy aspect zNear zFar)
  | .gluLookAt ex ey ez cx cy cz ux uy uz => s.mult (.lookAt ex ey ez cx cy cz ux uy uz)
  | .glTranslatef x y z => s.mult (.translate x y z)
  | .glScalef x y z => s.mult (.scale x y z)
  | .glRotatef angle x y z => s.mult (.rotate angle x y z)
  | .glPushMatrix =>
    match s.mode with
    | .GL_MODELVIEW =>
      { s with modelview := { top := s.modelview.top,
                              below := s.modelview.top :: s.modelview.below } }
    | .GL_PROJECTION =>
      { s with projection := { top := s.projection.top,
                               below := s.projection.top :: s.projection.below } }
    | _ => s
  | .glPopMatrix =>
    match s.mode with
    | .GL_MODELVIEW =>
      match s.modelview.below with
      | [] => { s with underflow := true }
      | m :: rest =>
        { s with modelview := { top := m, below := rest },
                 lowWater := min s.lowWater (rest.length + 1) }
    | .GL_PROJECTION =>
      match s.projection.below with
      | [] => { s with underflow := true }
      | m :: rest => { s with projection := { top := m, below := rest } }
    | _ => s
  | .glPushAttrib =>
    { s with attribs := { mode := s.mode, diffuse := s.diffuse, emission := s.emission }
                          :: s.attribs }
  | .glPopAttrib =>
    match s.attribs with
    | [] => s
    | a :: rest =>
      { s with mode := a.mode, diffuse := a.diffuse, emission := a.emission, attribs := rest }
  | .glMaterialfv .GL_FRONT .GL_DIFFUSE params => { s with diffuse := params }
  | .glMaterialfv .GL_FRONT .GL_EMISSION params => { s with emission := params }
  | .enter r => { s with routine := r }
  | .glBegin _ =>
    { s with drawn := { routine := s.routine, diffuse := s.diffuse, emission := s.emission,
                        matrix := s.modelview.top } :: s.drawn }
  | .glutSolidSphere _ _ _ =>
    { s with drawn := { routine := s.routine, diffuse := s.diffuse, emission := s.emission,
                        matrix := s.modelview.top } :: s.drawn }
  | _ => s

/-- The effect of a command stream on the GL state. -/
def run (t : List GLCmd) (s : GLState) : GLState :=
  t.foldl step s

/-- Number of `glPushMatrix` calls in a command stream. -/
def pushes (t : List GLCmd) : Nat :=
  t.countP fun c =>
    match c with
    | .glPushMatrix => true
    | _ => false

/-- Number of `glPopMatrix` calls in a command stream. -/
def pops (t : List GLCmd) : Nat :=
  t.countP fun c =>
    match c with
    | .glPopMatrix => true
    | _ => false

/-- Red, green and blue of a colour given as `r, g, b, a`. -/
def rgb (c : List ℚ) : List ℚ :=
  c.take 3

/-! ## Specification-side definitions for geometry and the y-bands -/

/-- The vector a `glNormal3f` call carries. -/
def normalOf : GLCmd → List ℚ
  | .glNormal3f nx ny nz => [nx, ny, nz]
  | _ => []

/-- The normal the drawing loops compute for face `i` of face table `t` over vertex
table `v`: `getNormal3p` on the first three vertices of the face. -/
def faceNormal (v : List (List ℚ)) (t : List (List Nat)) (i : Nat) : List ℚ :=
  normalOf (getNormal3p
    (coord v (idx t i 0) 0) (coord v (idx t i 0) 1) (coord v (idx t i 0) 2)
    (coord v (idx t i 1) 0) (coord v (idx t i 1) 1) (coord v (idx t i 1) 2)
    (coord v (idx t i 2) 0) (coord v (idx t i 2) 1) (coord v (idx t i 2) 2))

/-- The mean of a list of points, coordinate by coordinate. -/
def centroid (pts : List (List ℚ)) : List ℚ :=
  [(pts.map fun p => p.getD 0 0).sum / pts.length,
   (pts.map fun p => p.getD 1 0).sum / pts.length,
   (pts.map fun p => p.getD 2 0).sum / pts.length]

/-- The centroid of face `i`: the mean of the vertices the face lists. -/
def faceCentroid (v : List (List ℚ)) (t : List (List Nat)) (i : Nat) : List ℚ :=
  centroid ((t.getD i []).map fun k => v.getD k [])

/-- Dot product of two vectors given by their three coordinates. -/
def dot3 (a b : List ℚ) : ℚ :=
  a.getD 0 0 * b.getD 0 0 + a.getD 1 0 * b.getD 1 0 + a.getD 2 0 * b.getD 2 0

/-- The dot product of the computed normal of face `i` with
(face centroid - primitive centroid); the normal points outward when it is positive. -/
def outwardness (v : List (List ℚ)) (t : List (List Nat)) (i : Nat) : ℚ :=
  dot3 (faceNormal v t i)
    [(faceCentroid v t i).getD 0 0 - (centroid v).getD 0 0,
     (faceCentroid v t i).getD 1 0 - (centroid v).getD 1 0,
     (faceCentroid v t i).getD 2 0 - (centroid v).getD 2 0]

/-- The points a command stream hands to `glVertex2f`, in order. -/
def vertices2 (t : List GLCmd) : List (ℚ × ℚ) :=
  t.filterMap fun c =>
    match c with
    | .glVertex2f x y => some (x, y)
    | _ => none

/-- The four y-bands of `animate` as a table: lower bound, upper bound, value of `y`. -/
def yBandTable : List (ℚ × ℚ × ℚ) :=
  [(196, 210, 1.44), (180, 194, 1.42), (180, 194, 1.4), (164, 178, 1.42)]

/-- First-match lookup in a band table: the value of the first band that contains
`theta`, or `y` when none does. -/
def firstMatchIn : List (ℚ × ℚ × ℚ) → ℚ → ℚ → ℚ
  | [], _, y => y
  | (lo, hi, v) :: rest, theta, y =>
    if theta ≥ lo ∧ theta ≤ hi then v else firstMatchIn rest theta y

/-- Last-match lookup in a band table: every band that contains `theta` overwrites the
value, in table order, starting from `y`. -/
def lastMatchIn (table : List (ℚ × ℚ × ℚ)) (theta y : ℚ) : ℚ :=
  table.foldl (fun acc b => if theta ≥ b.1 ∧ theta ≤ b.2.1 then b.2.2 else acc) y

/-- First-match lookup in the y-bands of `animate`. -/
def firstMatch (theta y : ℚ) : ℚ :=
  firstMatchIn yBandTable theta y

/-- Last-match lookup in the y-bands of `animate`. -/
def lastMatch (theta y : ℚ) : ℚ :=
  lastMatchIn yBandTable theta y

/-! ## Specification-side definitions for drawing -/

/-- A colour with red, green and blue all zero. -/
def Dark (c : List ℚ) : Prop :=
  rgb c = [0, 0, 0]

/-- The emission a piece of geometry may be drawn with: a bulb sphere glows white
exactly when its master switch is set, the trapezoid glows in its diffuse colour exactly
when `switchLamp` is set, and everything else has zero emission. -/
def Draw.emissionOk (g : Globals) (d : Draw) : Prop :=
  match d.routine with
  | .lightBulb1 => rgb d.emission = if g.switchOne = true then [1, 1, 1] else [0, 0, 0]
  | .lightBulb2 => rgb d.emission = if g.switchTwo = true then [1, 1, 1] else [0, 0, 0]
  | .drawTrapezoid =>
    rgb d.emission = if g.switchLamp = true then rgb d.diffuse else [0, 0, 0]
  | _ => rgb d.emission = [0, 0, 0]

/-- A local transform issued as translate, then at most one rotate, then scale. -/
def isTRS : List Xf → Bool
  | [.translate _ _ _, .scale _ _ _] => true
  | [.translate _ _ _, .rotate _ _ _ _, .scale _ _ _] => true
  | _ => false

/-- The geometry `d` was drawn under the matrix `m` followed by a local transform of
the shape translate, optional rotate, scale. -/
def Draw.placedOn (m : List Xf) (d : Draw) : Prop :=
  ∃ l, d.matrix = m ++ l ∧ isTRS l = true

/-- The geometry `d` was drawn under the matrix `m` itself. -/
def Draw.drawnAt (m : List Xf) (d : Draw) : Prop :=
  d.matrix = m

/-- Number of logged pieces of geometry sent by `drawTrapezoid`. -/
def trapCount (l : List Draw) : Nat :=
  l.countP fun d =>
    match d.routine with
    | .drawTrapezoid => true
    | _ => false

/-- Number of `drawTrapezoid` calls in a command stream. -/
def trapCalls (t : List GLCmd) : Nat :=
  t.countP fun c =>
    match c with
    | .enter .drawTrapezoid => true
    | _ => false

/-- Number of matrix transformations (`glTranslatef`, `glRotatef`, `glScalef`) in a
command stream. -/
def transforms (t : List GLCmd) : Nat :=
  t.countP fun c =>
    match c with
    | .glTranslatef _ _ _ => true
    | .glRotatef _ _ _ _ => true
    | .glScalef _ _ _ => true
    | _ => false

/-- Number of pieces of geometry (`glBegin`, `glutSolidSphere`) in a command stream. -/
def geometry (t : List GLCmd) : Nat :=
  t.countP fun c =>
    match c with
    | .glBegin _ => true
    | .glutSolidSphere _ _ _ => true
    | _ => false

/-- What a well-scoped piece of drawing code does to a GL state in modelview mode.
It issues as many pushes as pops; it leaves the matrix mode, both matrix stacks, the
attribute stack and the underflow mark as they were, and the modelview stack never
gets shallower than at entry; it logs one trapezoid per `drawTrapezoid` call; every
piece of geometry it logs stands in relation `Q` to the entry matrix.  If the emission
is dark at entry wherever the code relies on that (`pre`), every piece of geometry it
logs has an allowed emission, and the emission is dark at exit wherever the code
guarantees that (`post`). -/
def Effect (g : Globals) (Q : List Xf → Draw → Prop) (t : List GLCmd) (pre post : Bool) :
    Prop :=
  pushes t = pops t ∧
  ∀ s : GLState, s.mode = .GL_MODELVIEW →
    (run t s).mode = .GL_MODELVIEW ∧
    (run t s).modelview = s.modelview ∧
    (run t s).projection = s.projection ∧
    (run t s).attribs = s.attribs ∧
    (run t s).underflow = s.underflow ∧
    min s.lowWater s.modelview.depth ≤ (run t s).lowWater ∧
    trapCount (run t s).drawn = trapCount s.drawn + trapCalls t ∧
    (∀ d ∈ (run t s).drawn, d ∈ s.drawn ∨ Q s.modelview.top d) ∧
    ((pre = true → Dark s.emission) →
      (post = true → Dark (run t s).emission) ∧
      ∀ d ∈ (run t s).drawn, d ∈ s.drawn ∨ d.emissionOk g)

/-- The calls that send one primitive, as they occur inside a push/pop block: one of
the seven material routines, or the material calls and sphere of a light bulb.  The
flags say whether the primitive relies on a dark emission (it does not set the emission
itself) and whether it leaves one. -/
inductive Prim (g : Globals) : List GLCmd → Bool → Bool → Prop where
  | cube (difX difY difZ ambX ambY ambZ shine : ℚ) (pre : Bool) :
    Prim g (drawCube1 difX difY difZ ambX ambY ambZ shine) pre true
  | carpet (soil : Nat) (difX difY difZ ambX ambY ambZ shine : ℚ) (b : Bool) :
    Prim g (drawCarpet soil difX difY difZ ambX ambY ambZ shine) b b
  | trapezoid (difX difY difZ ambX ambY ambZ shine : ℚ) (pre : Bool) :
    Prim g (drawTrapezoid g difX difY difZ ambX ambY ambZ shine) pre false
  | pyramid (difX difY difZ ambX ambY ambZ shine : ℚ) :
    Prim g (drawpyramid difX difY difZ ambX ambY ambZ shine) true true
  | polygon (difX difY difZ ambX ambY ambZ shine : ℚ) :
    Prim g (polygon difX difY difZ ambX ambY ambZ shine) true true
  | polygonLine (difX difY difZ ambX ambY ambZ shine : ℚ) :
    Prim g (polygonLine difX difY difZ ambX ambY ambZ shine) true true
  | sphere (difX difY difZ ambX ambY ambZ shine : ℚ) :
    Prim g (drawSphere difX difY difZ ambX ambY ambZ shine) true true
  | bulb1 (pre : Bool) :
    Prim g
      ([.enter .lightBulb1,
        .glMaterialfv .GL_FRONT .GL_AMBIENT no_mat,
        .glMaterialfv .GL_FRONT .GL_DIFFUSE [1.000, 0.843, 0.000, 1.0],
        .glMaterialfv .GL_FRONT .GL_SPECULAR no_mat,
        .glMaterialfv .GL_FRONT .GL_SHININESS [100.0]] ++
       (if g.switchOne = true then [.glMaterialfv .GL_FRONT .GL_EMISSION [1.000, 1, 1, 0.0]]
        else [.glMaterialfv .GL_FRONT .GL_EMISSION no_mat]) ++
       [.glutSolidSphere 1.0 16 16]) pre false
  | bulb2 (pre : Bool) :
    Prim g
      ([.enter .lightBulb2,
        .glMaterialfv .GL_FRONT .GL_AMBIENT no_mat,
        .glMaterialfv .GL_FRONT .GL_DIFFUSE [1.000, 0.843, 0.000, 1.0],
        .glMaterialfv .GL_FRONT .GL_SPECULAR no_mat,
        .glMaterialfv .GL_FRONT .GL_SHININESS [100.0]] ++
       (if g.switchTwo = true then [.glMaterialfv .GL_FRONT .GL_EMISSION [1, 1, 1, 1.0]]
        else [.glMaterialfv .GL_FRONT .GL_EMISSION no_mat]) ++
       [.glutSolidSphere 1.0 16 16]) pre false

/-- The shape of an assembly: a sequence of `glColor3f` calls and push/pop blocks, where
every block is `glPushMatrix`, one `glTranslatef`, at most one `glRotatef`, one
`glScalef`, the calls of one primitive, `glPopMatrix`.  The flags are those of `Prim`,
threaded through the sequence. -/
inductive Assembly (g : Globals) : List GLCmd → Bool → Bool → Prop where
  | nil (b : Bool) : Assembly g [] b b
  | color (r gr bl : ℚ) (b : Bool) : Assembly g [.glColor3f r gr bl] b b
  | blockTS (x y z a b c : ℚ) {p : List GLCmd} {pre post : Bool} (hp : Prim g p pre post) :
    Assembly g ([.glPushMatrix, .glTranslatef x y z, .glScalef a b c] ++ p ++ [.glPopMatrix])
      pre post
  | blockTRS (x y z angle u v w a b c : ℚ) {p : List GLCmd} {pre post : Bool}
    (hp : Prim g p pre post) :
    Assembly g
      ([.glPushMatrix, .glTranslatef x y z, .glRotatef angle u v w, .glScalef a b c] ++ p ++
        [.glPopMatrix]) pre post
  | append {s t : List GLCmd} {pre mid post : Bool} (hs : Assembly g s pre mid)
    (ht : Assembly g t mid post) : Assembly g (s ++ t) pre post

/-- The GL state a fresh context starts with: modelview mode, identity matrices on
stacks of depth 1, default front material, nothing drawn. -/
def GLState.initial : GLState where
  mode := .GL_MODELVIEW
  modelview := { top := [], below := [] }
  projection := { top := [], below := [] }
  diffuse := [0.8, 0.8, 0.8, 1.0]
  emission := [0.0, 0.0, 0.0, 1.0]
  attribs := []
  routine := .drawCube1
  drawn := []
  lowWater := 1
  underflow := false

/-- The GL state after one `display` pass started in state `s`, with the geometry log
emptied first: `(frame env g s).drawn` is the geometry of this frame. -/
def frame (env : Env) (g : Globals) (s : GLState) : GLState :=
  run (display env g) { s with drawn := [] }

/-- Number of calls in a command stream that set the material emission. -/
def emissionCalls (t : List GLCmd) : Nat :=
  t.countP fun c =>
    match c with
    | .glMaterialfv _ .GL_EMISSION _ => true
    | _ => false

/-! ## The resize callback (`fullScreen`, lines 1640-1655) -/

/-- The quotient of two `GLfloat` values; `none` stands for the non-finite result of a
division by zero. -/
def divGLfloat (a b : ℚ) : Option ℚ :=
  if b = 0 then none else some (a / b)

/-- The resize callback `fullScreen`: the calls it issues for a window of width `w` and
height `h`, or `none` if its aspect-ratio division has a zero divisor. -/
def fullScreen (w h : Int) : Option (List GLCmd) :=
  let h := if h = 0 then 1 else h
  match divGLfloat (w : ℚ) (h : ℚ) with
  | none => none
  | some ratio =>
    some [.glMatrixMode .GL_PROJECTION,
          .glLoadIdentity,
          .glViewport 0 0 w h,
          .gluPerspective 60 ratio 1 500,
          .glMatrixMode .GL_MODELVIEW]

/-! ## The display callback as a step of the world -/

/-- One display pass: `display` and the routines it calls assign no global and switch
no light unit; they read the globals and issue GL calls, which act on the GL state. -/
def displayCallback (env : Env) (w : World) (s : GLState) : World × GLState :=
  (w, run (display env w.g) s)

/-! ## Specification-side definitions for ownership, lights and the projection -/

/-- The pendulum state. -/
def pendulum (w : World) : ℚ × ℚ × ℚ × Bool :=
  (w.g.theta, w.g.y, w.g.z, w.g.redFlag)

/-- The twelve light booleans: three master switches and nine sub-channels. -/
def lightBooleans (w : World) : List Bool :=
  [w.g.switchOne, w.g.switchTwo, w.g.switchLamp,
   w.g.amb1, w.g.diff1, w.g.spec1,
   w.g.amb2, w.g.diff2, w.g.spec2,
   w.g.amb3, w.g.diff3, w.g.spec3]

/-- The enable bits of the three GL light units. -/
def lightUnits (w : World) : Bool × Bool × Bool :=
  (w.light0, w.light1, w.light2)

/-- Every GL light unit is enabled exactly when its master boolean is set. -/
def LightsFollowSwitches (w : World) : Prop :=
  w.light0 = w.g.switchOne ∧ w.light1 = w.g.switchTwo ∧ w.light2 = w.g.switchLamp

/-- The GL states in force at the moments a command stream sends geometry (`glBegin`
or `glutSolidSphere`), in order, when the stream is run from state `s`. -/
def statesAtDraws : List GLCmd → GLState → List GLState
  | [], _ => []
  | c :: t, s =>
    (match c with
      | .glBegin _ => [s]
      | .glutSolidSphere _ _ _ => [s]
      | _ => []) ++ statesAtDraws t (step s c)

/-- A call that, issued in modelview mode, leaves the matrix mode and the projection
stack alone: anything but `glMatrixMode` and `glPopAttrib`. -/
def calm : GLCmd → Bool
  | .glMatrixMode _ => false
  | .glPopAttrib => false
  | _ => true

/-- Running `t` in modelview mode keeps the mode and the projection stack, at the end
and at every moment it sends geometry. -/
def ProjStable (t : List GLCmd) : Prop :=
  ∀ s : GLState, s.mode = .GL_MODELVIEW →
    (run t s).mode = .GL_MODELVIEW ∧
    (run t s).projection = s.projection ∧
    ∀ st ∈ statesAtDraws t s, st.mode = .GL_MODELVIEW ∧ st.projection = s.projection

/-! ## Pendulum: one tick -/

theorem yBands_frame (g : Globals) : yBands g = { g with y := (yBands g).y } := by
  unfold yBands
  split_ifs <;> rfl

theorem animate_theta (w : World) :
    (animate w).g.theta = if w.g.redFlag = true then w.g.theta + 2 else w.g.theta - 2 := by
  cases h : w.g.redFlag <;> simp [animate, glutPostRedisplay, h]
  all_goals (rw [yBands_frame]; split_ifs <;> rfl)

theorem animate_z (w : World) :
    (animate w).g.z = if w.g.redFlag = true then w.g.z - 0.02 else w.g.z + 0.02 := by
  cases h : w.g.redFlag <;> simp [animate, glutPostRedisplay, h]
  all_goals (rw [yBands_frame]; split_ifs <;> rfl)

theorem animate_redFlag (w : World) :
    (animate w).g.redFlag =
      if w.g.redFlag = true then !decide (w.g.theta + 2 = 210)
      else decide (w.g.theta - 2 = 150) := by
  cases h : w.g.redFlag <;> simp [animate, glutPostRedisplay, h]
  all_goals (rw [yBands_frame]; split_ifs <;> simp_all)

/-- One tick conserves `z + theta / 100`. -/
theorem animate_depth (w : World) :
    (animate w).g.z + (animate w).g.theta / 100 = w.g.z + w.g.theta / 100 := by
  rw [animate_theta, animate_z]
  split_ifs <;> norm_num <;> ring

/-- One tick advances the phase by one, modulo the period. -/
theorem onWave_step (k : Nat) (hk : k < 60) (w : World) (h : OnWave k w) :
    OnWave ((k + 1) % 60) (animate w) := by
  obtain ⟨h1, h2⟩ := h
  unfold OnWave
  rw [animate_theta, animate_redFlag, h2, h1]
  interval_cases k <;> norm_num [triangleWave, rising]

/-! ## Pendulum: trajectories -/

theorem ticks_succ (n : Nat) (w : World) : ticks (n + 1) w = animate (ticks n w) := by
  induction n generalizing w with
  | zero => rfl
  | succ m ih =>
    show ticks (m + 1) (animate w) = animate (ticks m (animate w))
    exact ih (animate w)

theorem onWave_start (w : World) (h1 : w.g.theta = 180) (h2 : w.g.redFlag = true) :
    OnWave 0 w := by
  norm_num [OnWave, triangleWave, rising, h1, h2]

theorem onWave_ticks (w : World) (h : OnWave 0 w) (n : Nat) :
    OnWave (n % 60) (ticks n w) := by
  induction n with
  | zero => exact h
  | succ m ih =>
    rw [ticks_succ, Nat.add_mod, Nat.one_mod]
    exact onWave_step (m % 60) (Nat.mod_lt m (by norm_num)) _ ih

theorem ticks_depth (w : World) (n : Nat) :
    (ticks n w).g.z + (ticks n w).g.theta / 100 = w.g.z + w.g.theta / 100 := by
  induction n with
  | zero => rfl
  | succ m ih => rw [ticks_succ, animate_depth, ih]

theorem triangleWave_bounds (k : Nat) (hk : k < 60) :
    150 ≤ triangleWave k ∧ triangleWave k ≤ 210 := by
  interval_cases k <;> norm_num [triangleWave]

theorem initial_theta : World.initial.g.theta = 180 := by
  norm_num [World.initial, Globals.initial]

theorem initial_redFlag : World.initial.g.redFlag = true := rfl

/-- C1: started with `theta = 180` and `redFlag = true` (the program's initial
pendulum state), `theta` lies in `[150, 210]` after any number of `animate` ticks. -/
theorem theta_stays_in_range (w : World) (h1 : w.g.theta = 180) (h2 : w.g.redFlag = true)
    (n : Nat) : 150 ≤ (ticks n w).g.theta ∧ (ticks n w).g.theta ≤ 210 := by
  rw [(onWave_ticks w (onWave_start w h1 h2) n).1]
  exact triangleWave_bounds (n % 60) (Nat.mod_lt n (by norm_num))

/-- Witness for C1: the program's initial world, after 1000 ticks. -/
theorem theta_stays_in_range_witness :
    World.initial.g.theta = 180 ∧ World.initial.g.redFlag = true ∧
      150 ≤ (ticks 1000 World.initial).g.theta ∧ (ticks 1000 World.initial).g.theta ≤ 210 :=
  ⟨initial_theta, initial_redFlag,
    theta_stays_in_range World.initial initial_theta initial_redFlag 1000⟩

/-- C2, refuted as stated: from the initial state, 30 ticks end at `theta = 180`
(15 ticks up to 210, 15 ticks back down), not at 150. -/
theorem thirty_ticks_not_150 :
    (ticks 30 World.initial).g.theta = 180 ∧
      ¬ ((ticks 15 World.initial).g.theta = 210 ∧ (ticks 30 World.initial).g.theta = 150 ∧
          (ticks 30 World.initial).g.redFlag = false) := by
  have h := (onWave_ticks World.initial
    (onWave_start World.initial initial_theta initial_redFlag) 30).1
  norm_num [triangleWave] at h
  refine ⟨h, ?_⟩
  rw [h]
  norm_num

/-- C2, amended: from `theta = 180`, `redFlag = true` the flag is still set after
14 ticks, the direction reverses at `theta = 210` after 15 ticks, and after exactly
30 ticks `theta = 180` (that is `210 - 2 * (30 - 15)`) with `redFlag` false. -/
theorem thirty_ticks (w : World) (h1 : w.g.theta = 180) (h2 : w.g.redFlag = true) :
    (ticks 14 w).g.redFlag = true ∧
      (ticks 15 w).g.theta = 210 ∧ (ticks 15 w).g.redFlag = false ∧
      (ticks 30 w).g.theta = 210 - 2 * (30 - 15) ∧ (ticks 30 w).g.theta = 180 ∧
      (ticks 30 w).g.redFlag = false := by
  have h := onWave_ticks w (onWave_start w h1 h2)
  have a := h 14
  have b := h 15
  have c := h 30
  norm_num [OnWave, triangleWave, rising] at a b c
  refine ⟨a.2, b.1, b.2, ?_, c.1, c.2⟩
  rw [c.1]
  norm_num

/-- Witness for the amended C2 at the program's initial world. -/
theorem thirty_ticks_witness :
    World.initial.g.theta = 180 ∧ World.initial.g.redFlag = true ∧
      (ticks 14 World.initial).g.redFlag = true ∧
      (ticks 15 World.initial).g.theta = 210 ∧ (ticks 15 World.initial).g.redFlag = false ∧
      (ticks 30 World.initial).g.theta = 210 - 2 * (30 - 15) ∧
      (ticks 30 World.initial).g.theta = 180 ∧
      (ticks 30 World.initial).g.redFlag = false :=
  ⟨initial_theta, initial_redFlag, thirty_ticks World.initial initial_theta initial_redFlag⟩

/-- C4: from `theta = 180`, `redFlag = true` (any `z`, in particular the initial
7.97888) the trajectory is a triangle wave of period 60: with `k = n mod 60`,
`theta` after `n` ticks is `180 + 2k` for `k ≤ 15`, `240 - 2k` for `15 ≤ k ≤ 45`
and `60 + 2k` for `45 ≤ k`, and `theta`, `redFlag` and `z` after `n + 60` ticks
equal their values after `n` ticks. -/
theorem triangle_wave_period_60 (w : World) (h1 : w.g.theta = 180)
    (h2 : w.g.redFlag = true) (n : Nat) :
    (n % 60 ≤ 15 → (ticks n w).g.theta = 180 + 2 * ((n % 60 : Nat) : ℚ)) ∧
    (15 ≤ n % 60 → n % 60 ≤ 45 → (ticks n w).g.theta = 240 - 2 * ((n % 60 : Nat) : ℚ)) ∧
    (45 ≤ n % 60 → (ticks n w).g.theta = 60 + 2 * ((n % 60 : Nat) : ℚ)) ∧
    (ticks (n + 60) w).g.theta = (ticks n w).g.theta ∧
    (ticks (n + 60) w).g.redFlag = (ticks n w).g.redFlag ∧
    (ticks (n + 60) w).g.z = (ticks n w).g.z := by
  have h := onWave_ticks w (onWave_start w h1 h2)
  have a := h n
  have b := h (n + 60)
  rw [Nat.add_mod_right] at b
  have ht : (ticks (n + 60) w).g.theta = (ticks n w).g.theta := by rw [a.1, b.1]
  have hz : (ticks (n + 60) w).g.z = (ticks n w).g.z := by
    have c := ticks_depth w n
    have d := ticks_depth w (n + 60)
    rw [ht] at d
    linarith
  refine ⟨?_, ?_, ?_, ht, by rw [a.2, b.2], hz⟩
  · intro hk
    rw [a.1, triangleWave, if_pos hk]
  · intro hk1 hk2
    rw [a.1, triangleWave]
    split_ifs with hk
    · have e : n % 60 = 15 := le_antisymm hk hk1
      rw [e]
      norm_num
    · rfl
  · intro hk
    rw [a.1, triangleWave]
    have hlt : n % 60 < 60 := Nat.mod_lt n (by norm_num)
    interval_cases (n % 60) <;> norm_num

/-- Witness for C4: the program's initial world at tick 100 (phase 40). -/
theorem triangle_wave_period_60_witness :
    World.initial.g.theta = 180 ∧ World.initial.g.redFlag = true ∧
    (ticks 100 World.initial).g.theta = 240 - 2 * ((100 % 60 : Nat) : ℚ) ∧
    (ticks (100 + 60) World.initial).g.theta = (ticks 100 World.initial).g.theta ∧
    (ticks (100 + 60) World.initial).g.redFlag = (ticks 100 World.initial).g.redFlag ∧
    (ticks (100 + 60) World.initial).g.z = (ticks 100 World.initial).g.z :=
  have h := triangle_wave_period_60 World.initial initial_theta initial_redFlag 100
  ⟨initial_theta, initial_redFlag, h.2.1 (by decide) (by decide), h.2.2.2⟩

/-! ## Keyboard: the effect of each key

One lemma per `case` label, giving the complete world the callback returns. -/

theorem key_w (w : World) (x y : Int) :
    myKeyboardFunc 119 x y w = .returned
      { w with g := { w.g with eyeY := w.g.eyeY + 1 }, redisplay := true } := by
  norm_num [myKeyboardFunc, keySwitch, glutPostRedisplay]

theorem key_s (w : World) (x y : Int) :
    myKeyboardFunc 115 x y w = .returned
      { w with g := { w.g with eyeY := w.g.eyeY - 1 }, redisplay := true } := by
  norm_num [myKeyboardFunc, keySwitch, glutPostRedisplay]

theorem key_a (w : World) (x y : Int) :
    myKeyboardFunc 97 x y w = .returned
      { w with g := { w.g with eyeX := w.g.eyeX - 1 }, redisplay := true } := by
  norm_num [myKeyboardFunc, keySwitch, glutPostRedisplay]

theorem key_d (w : World) (x y : Int) :
    myKeyboardFunc 100 x y w = .returned
      { w with g := { w.g with eyeX := w.g.eyeX + 1 }, redisplay := true } := by
  norm_num [myKeyboardFunc, keySwitch, glutPostRedisplay]

theorem key_o (w : World) (x y : Int) :
    myKeyboardFunc 111 x y w = .returned
      { w with g := { w.g with eyeZ := w.g.eyeZ + 1 }, redisplay := true } := by
  norm_num [myKeyboardFunc, keySwitch, glutPostRedisplay]

theorem key_i (w : World) (x y : Int) :
    myKeyboardFunc 105 x y w = .returned
      { w with g := { w.g with eyeZ := w.g.eyeZ - 1 }, redisplay := true } := by
  norm_num [myKeyboardFunc, keySwitch, glutPostRedisplay]

theorem key_j (w : World) (x y : Int) :
    myKeyboardFunc 106 x y w = .returned
      { w with g := { w.g with refY := w.g.refY + 1 }, redisplay := true } := by
  norm_num [myKeyboardFunc, keySwitch, glutPostRedisplay]

theorem key_n (w : World) (x y : Int) :
    myKeyboardFunc 110 x y w = .returned
      { w with g := { w.g with refY := w.g.refY - 1 }, redisplay := true } := by
  norm_num [myKeyboardFunc, keySwitch, glutPostRedisplay]

theorem key_b (w : World) (x y : Int) :
    myKeyboardFunc 98 x y w = .returned
      { w with g := { w.g with refX := w.g.refX - 1 }, redisplay := true } := by
  norm_num [myKeyboardFunc, keySwitch, glutPostRedisplay]

theorem key_m (w : World) (x y : Int) :
    myKeyboardFunc 109 x y w = .returned
      { w with g := { w.g with refX := w.g.refX + 1 }, redisplay := true } := by
  norm_num [myKeyboardFunc, keySwitch, glutPostRedisplay]

theorem key_k (w : World) (x y : Int) :
    myKeyboardFunc 107 x y w = .returned
      { w with g := { w.g with refZ := w.g.refZ + 1 }, redisplay := true } := by
  norm_num [myKeyboardFunc, keySwitch, glutPostRedisplay]

theorem key_l (w : World) (x y : Int) :
    myKeyboardFunc 108 x y w = .returned
      { w with g := { w.g with refZ := w.g.refZ - 1 }, redisplay := true } := by
  norm_num [myKeyboardFunc, keySwitch, glutPostRedisplay]

theorem key_q (w : World) (x y : Int) :
    myKeyboardFunc 113 x y w = .returned
      { w with g := { w.g with eyeX := 7, eyeY := 2, eyeZ := 15,
                               refX := 0, refY := 0, refZ := 0 },
               redisplay := true } := by
  norm_num [myKeyboardFunc, keySwitch, glutPostRedisplay]

theorem key_1 (w : World) (x y : Int) :
    myKeyboardFunc 49 x y w =
      if w.g.switchOne = true then
        .returned { w with g := { w.g with switchOne := false, amb1 := false, diff1 := false,
                                           spec1 := false },
                           light0 := false, redisplay := true }
      else
        .returned { w with g := { w.g with switchOne := true, amb1 := true, diff1 := true,
                                           spec1 := true },
                           light0 := true, redisplay := true } := by
  cases h : w.g.switchOne <;>
    simp [myKeyboardFunc, keySwitch, case1, glEnable, glDisable, glutPostRedisplay, h]

theorem key_2 (w : World) (x y : Int) :
    myKeyboardFunc 50 x y w =
      if w.g.switchTwo = true then
        .returned { w with g := { w.g with switchTwo := false, amb2 := false, diff2 := false,
                                           spec2 := false },
                           light1 := false, redisplay := true }
      else
        .returned { w with g := { w.g with switchTwo := true, amb2 := true, diff2 := true,
                                           spec2 := true },
                           light1 := true, redisplay := true } := by
  cases h : w.g.switchTwo <;>
    simp [myKeyboardFunc, keySwitch, case2, glEnable, glDisable, glutPostRedisplay, h]

theorem key_3 (w : World) (x y : Int) :
    myKeyboardFunc 51 x y w =
      if w.g.switchLamp = true then
        .returned { w with g := { w.g with switchLamp := false, amb3 := false, diff3 := false,
                                           spec3 := false },
                           light2 := false, redisplay := true }
      else
        .returned { w with g := { w.g with switchLamp := true, amb3 := true, diff3 := true,
                                           spec3 := true },
                           light2 := true, redisplay := true } := by
  cases h : w.g.switchLamp <;>
    simp [myKeyboardFunc, keySwitch, case3, glEnable, glDisable, glutPostRedisplay, h]

theorem key_4 (w : World) (x y : Int) :
    myKeyboardFunc 52 x y w = .returned
      { w with g := { w.g with amb1 := !w.g.amb1 }, redisplay := true } := by
  cases h : w.g.amb1 <;> simp [myKeyboardFunc, keySwitch, case4, glutPostRedisplay, h]

theorem key_5 (w : World) (x y : Int) :
    myKeyboardFunc 53 x y w = .returned
      { w with g := { w.g with diff1 := !w.g.diff1 }, redisplay := true } := by
  cases h : w.g.diff1 <;> simp [myKeyboardFunc, keySwitch, case5, glutPostRedisplay, h]

theorem key_6 (w : World) (x y : Int) :
    myKeyboardFunc 54 x y w = .returned
      { w with g := { w.g with spec1 := !w.g.spec1 }, redisplay := true } := by
  cases h : w.g.spec1 <;> simp [myKeyboardFunc, keySwitch, case6, glutPostRedisplay, h]

theorem key_7 (w : World) (x y : Int) :
    myKeyboardFunc 55 x y w = .returned
      { w with g := { w.g with amb2 := !w.g.amb2 }, redisplay := true } := by
  cases h : w.g.amb2 <;> simp [myKeyboardFunc, keySwitch, case7, glutPostRedisplay, h]

theorem key_8 (w : World) (x y : Int) :
    myKeyboardFunc 56 x y w = .returned
      { w with g := { w.g with diff2 := !w.g.diff2 }, redisplay := true } := by
  cases h : w.g.diff2 <;> simp [myKeyboardFunc, keySwitch, case8, glutPostRedisplay, h]

theorem key_9 (w : World) (x y : Int) :
    myKeyboardFunc 57 x y w = .returned
      { w with g := { w.g with spec2 := !w.g.spec2 }, redisplay := true } := by
  cases h : w.g.spec2 <;> simp [myKeyboardFunc, keySwitch, case9, glutPostRedisplay, h]

theorem key_e (w : World) (x y : Int) :
    myKeyboardFunc 101 x y w = .returned
      { w with g := { w.g with amb3 := !w.g.amb3 }, redisplay := true } := by
  cases h : w.g.amb3 <;> simp [myKeyboardFunc, keySwitch, caseE, glutPostRedisplay, h]

theorem key_r (w : World) (x y : Int) :
    myKeyboardFunc 114 x y w = .returned
      { w with g := { w.g with diff3 := !w.g.diff3 }, redisplay := true } := by
  cases h : w.g.diff3 <;> simp [myKeyboardFunc, keySwitch, caseR, glutPostRedisplay, h]

theorem key_t (w : World) (x y : Int) :
    myKeyboardFunc 116 x y w = .returned
      { w with g := { w.g with spec3 := !w.g.spec3 }, redisplay := true } := by
  cases h : w.g.spec3 <;> simp [myKeyboardFunc, keySwitch, caseT, glutPostRedisplay, h]

theorem key_escape (w : World) (x y : Int) :
    myKeyboardFunc 27 x y w = .exited 1 w := by
  simp [myKeyboardFunc, keySwitch, case27]

theorem key_other (key : Nat) (hk : key ∉ recognisedKeys) (w : World) (x y : Int) :
    myKeyboardFunc key x y w = .returned { w with redisplay := true } := by
  simp only [recognisedKeys, List.mem_cons, List.mem_singleton, not_or, List.not_mem_nil,
    not_false_eq_true, and_true] at hk
  simp [myKeyboardFunc, keySwitch, glutPostRedisplay, hk]

/-- Every key other than escape makes the callback return. -/
theorem returns_unless_escape (key : Nat) (hk : key ≠ 27) (w : World) (x y : Int) :
    ∃ w1, myKeyboardFunc key x y w = .returned w1 := by
  by_cases hr : key ∈ recognisedKeys
  · simp only [recognisedKeys, List.mem_cons, List.mem_singleton, List.not_mem_nil,
      or_false] at hr
    rcases hr with h | h | h | h | h | h | h | h | h | h | h | h | h | h | h | h | h | h | h |
      h | h | h | h | h | h | h <;> subst h
    all_goals first
      | exact absurd rfl hk
      | exact ⟨_, key_w w x y⟩
      | exact ⟨_, key_s w x y⟩
      | exact ⟨_, key_a w x y⟩
      | exact ⟨_, key_d w x y⟩
      | exact ⟨_, key_o w x y⟩
      | exact ⟨_, key_i w x y⟩
      | exact ⟨_, key_q w x y⟩
      | exact ⟨_, key_j w x y⟩
      | exact ⟨_, key_n w x y⟩
      | exact ⟨_, key_b w x y⟩
      | exact ⟨_, key_m w x y⟩
      | exact ⟨_, key_k w x y⟩
      | exact ⟨_, key_l w x y⟩
      | (rw [key_1]; split_ifs <;> exact ⟨_, rfl⟩)
      | (rw [key_2]; split_ifs <;> exact ⟨_, rfl⟩)
      | (rw [key_3]; split_ifs <;> exact ⟨_, rfl⟩)
      | exact ⟨_, key_4 w x y⟩
      | exact ⟨_, key_5 w x y⟩
      | exact ⟨_, key_6 w x y⟩
      | exact ⟨_, key_7 w x y⟩
      | exact ⟨_, key_8 w x y⟩
      | exact ⟨_, key_9 w x y⟩
      | exact ⟨_, key_e w x y⟩
      | exact ⟨_, key_r w x y⟩
      | exact ⟨_, key_t w x y⟩
  · exact ⟨_, key_other key hr w x y⟩

/-- A key outside light one's group (`1`, `4`, `5`, `6`) leaves light one alone. -/
theorem lightOne_frame (key : Nat) (hk : key ∉ [49, 52, 53, 54]) (w : World) (x y : Int) :
    lightOneFlags (myKeyboardFunc key x y w).world = lightOneFlags w := by
  by_cases hr : key ∈ recognisedKeys
  · simp only [recognisedKeys, List.mem_cons, List.mem_singleton, List.not_mem_nil,
      or_false] at hr
    rcases hr with h | h | h | h | h | h | h | h | h | h | h | h | h | h | h | h | h | h | h |
      h | h | h | h | h | h | h <;> subst h
    all_goals first
      | exact absurd (by decide) hk
      | (simp only [key_w, key_s, key_a, key_d, key_o, key_i, key_q, key_j, key_n, key_b, key_m,
          key_k, key_l, key_2, key_3, key_7, key_8, key_9, key_e, key_r, key_t, key_escape]
         try split_ifs
         all_goals rfl)
  · rw [key_other key hr]
    rfl

/-- A key outside light two's group (`2`, `7`, `8`, `9`) leaves light two alone. -/
theorem lightTwo_frame (key : Nat) (hk : key ∉ [50, 55, 56, 57]) (w : World) (x y : Int) :
    lightTwoFlags (myKeyboardFunc key x y w).world = lightTwoFlags w := by
  by_cases hr : key ∈ recognisedKeys
  · simp only [recognisedKeys, List.mem_cons, List.mem_singleton, List.not_mem_nil,
      or_false] at hr
    rcases hr with h | h | h | h | h | h | h | h | h | h | h | h | h | h | h | h | h | h | h |
      h | h | h | h | h | h | h <;> subst h
    all_goals first
      | exact absurd (by decide) hk
      | (simp only [key_w, key_s, key_a, key_d, key_o, key_i, key_q, key_j, key_n, key_b, key_m,
          key_k, key_l, key_1, key_3, key_4, key_5, key_6, key_e, key_r, key_t, key_escape]
         try split_ifs
         all_goals rfl)
  · rw [key_other key hr]
    rfl

/-- A key outside the lamp's group (`3`, `e`, `r`, `t`) leaves the lamp alone. -/
theorem lamp_frame (key : Nat) (hk : key ∉ [51, 101, 114, 116]) (w : World) (x y : Int) :
    lampFlags (myKeyboardFunc key x y w).world = lampFlags w := by
  by_cases hr : key ∈ recognisedKeys
  · simp only [recognisedKeys, List.mem_cons, List.mem_singleton, List.not_mem_nil,
      or_false] at hr
    rcases hr with h | h | h | h | h | h | h | h | h | h | h | h | h | h | h | h | h | h | h |
      h | h | h | h | h | h | h <;> subst h
    all_goals first
      | exact absurd (by decide) hk
      | (simp only [key_w, key_s, key_a, key_d, key_o, key_i, key_q, key_j, key_n, key_b, key_m,
          key_k, key_l, key_1, key_2, key_4, key_5, key_6, key_7, key_8, key_9, key_escape]
         try split_ifs
         all_goals rfl)
  · rw [key_other key hr]
    rfl

/-- C5: in every state `q` returns with eye `(7, 2, 15)` and reference point `(0, 0, 0)`;
the world it leaves differs from the one before only in the six camera globals (and the
pending-redisplay mark), so no light or pendulum global changes; a second `q` leaves that
world as it is. In particular, from the initial world, three `i` give `eyeZ = 12` and a
following `q` gives back the default pose. -/
theorem camera_reset (w : World) (x y : Int) :
    (∃ w1, myKeyboardFunc 113 x y w = .returned w1 ∧
      eye w1 = (7, 2, 15) ∧ refPoint w1 = (0, 0, 0) ∧
      w1 = { w with g := { w.g with eyeX := 7, eyeY := 2, eyeZ := 15,
                                    refX := 0, refY := 0, refZ := 0 },
                    redisplay := true } ∧
      myKeyboardFunc 113 x y w1 = .returned w1) ∧
    pressKeys [113, 113] w = pressKeys [113] w ∧
    (∃ w3 w4, pressKeys [105, 105, 105] World.initial = .returned w3 ∧ w3.g.eyeZ = 12 ∧
      pressKeys [105, 105, 105, 113] World.initial = .returned w4 ∧
      eye w4 = (7, 2, 15) ∧ refPoint w4 = (0, 0, 0)) := by
  refine ⟨⟨_, key_q w x y, rfl, rfl, rfl, ?_⟩, ?_, ?_⟩
  · rw [key_q]
  · simp only [pressKeys, key_q]
  · simp only [pressKeys, key_i, key_q]
    refine ⟨_, _, rfl, ?_, rfl, rfl, rfl⟩
    norm_num [World.initial, Globals.initial]

/-- C7: in every state, `1` pressed while `switchOne` is set clears `switchOne`, `amb1`,
`diff1`, `spec1` (and disables light unit 0), and pressed while `switchOne` is clear sets
all four (and enables the unit), whatever `amb1`, `diff1`, `spec1` were; `2` and `3` do
the same for light two and the lamp. Nothing else changes except the pending-redisplay
mark, and no key outside a light's own group of four keys changes that light's booleans. -/
theorem master_toggle_cascades (w : World) (x y : Int) :
    (myKeyboardFunc 49 x y w =
      if w.g.switchOne = true then
        .returned { w with g := { w.g with switchOne := false, amb1 := false, diff1 := false,
                                           spec1 := false },
                           light0 := false, redisplay := true }
      else
        .returned { w with g := { w.g with switchOne := true, amb1 := true, diff1 := true,
                                           spec1 := true },
                           light0 := true, redisplay := true }) ∧
    (myKeyboardFunc 50 x y w =
      if w.g.switchTwo = true then
        .returned { w with g := { w.g with switchTwo := false, amb2 := false, diff2 := false,
                                           spec2 := false },
                           light1 := false, redisplay := true }
      else
        .returned { w with g := { w.g with switchTwo := true, amb2 := true, diff2 := true,
                                           spec2 := true },
                           light1 := true, redisplay := true }) ∧
    (myKeyboardFunc 51 x y w =
      if w.g.switchLamp = true then
        .returned { w with g := { w.g with switchLamp := false, amb3 := false, diff3 := false,
                                           spec3 := false },
                           light2 := false, redisplay := true }
      else
        .returned { w with g := { w.g with switchLamp := true, amb3 := true, diff3 := true,
                                           spec3 := true },
                           light2 := true, redisplay := true }) ∧
    (∀ key : Nat,
      (key ∉ [49, 52, 53, 54] →
        lightOneFlags (myKeyboardFunc key x y w).world = lightOneFlags w) ∧
      (key ∉ [50, 55, 56, 57] →
        lightTwoFlags (myKeyboardFunc key x y w).world = lightTwoFlags w) ∧
      (key ∉ [51, 101, 114, 116] →
        lampFlags (myKeyboardFunc key x y w).world = lampFlags w)) :=
  ⟨key_1 w x y, key_2 w x y, key_3 w x y, fun key =>
    ⟨fun h => lightOne_frame key h w x y, fun h => lightTwo_frame key h w x y,
      fun h => lamp_frame key h w x y⟩⟩

/-- C8: in every state each of the keys `4 5 6 7 8 9 e r t` returns a world that differs
from the one before only in one negated sub-channel boolean (`amb1 diff1 spec1 amb2 diff2
spec2 amb3 diff3 spec3` in this order) and in the pending-redisplay mark; pressing the
same key twice restores every global and every light unit. -/
theorem sub_channel_keys (w : World) (x y : Int) :
    myKeyboardFunc 52 x y w = .returned
      { w with g := { w.g with amb1 := !w.g.amb1 }, redisplay := true } ∧
    myKeyboardFunc 53 x y w = .returned
      { w with g := { w.g with diff1 := !w.g.diff1 }, redisplay := true } ∧
    myKeyboardFunc 54 x y w = .returned
      { w with g := { w.g with spec1 := !w.g.spec1 }, redisplay := true } ∧
    myKeyboardFunc 55 x y w = .returned
      { w with g := { w.g with amb2 := !w.g.amb2 }, redisplay := true } ∧
    myKeyboardFunc 56 x y w = .returned
      { w with g := { w.g with diff2 := !w.g.diff2 }, redisplay := true } ∧
    myKeyboardFunc 57 x y w = .returned
      { w with g := { w.g with spec2 := !w.g.spec2 }, redisplay := true } ∧
    myKeyboardFunc 101 x y w = .returned
      { w with g := { w.g with amb3 := !w.g.amb3 }, redisplay := true } ∧
    myKeyboardFunc 114 x y w = .returned
      { w with g := { w.g with diff3 := !w.g.diff3 }, redisplay := true } ∧
    myKeyboardFunc 116 x y w = .returned
      { w with g := { w.g with spec3 := !w.g.spec3 }, redisplay := true } ∧
    (∀ key ∈ [52, 53, 54, 55, 56, 57, 101, 114, 116],
      pressKeys [key, key] w = .returned { w with redisplay := true }) := by
  refine ⟨key_4 w x y, key_5 w x y, key_6 w x y, key_7 w x y, key_8 w x y, key_9 w x y,
    key_e w x y, key_r w x y, key_t w x y, ?_⟩
  intro key hk
  simp only [List.mem_cons, List.mem_singleton, List.not_mem_nil, or_false] at hk
  rcases hk with h | h | h | h | h | h | h | h | h <;> subst h <;>
    simp [pressKeys, key_4, key_5, key_6, key_7, key_8, key_9, key_e, key_r, key_t]

/-- C9: a key code without a label in the switch (upper-case letters included) leaves
every global and every light unit as it was; the callback returns, and only requests
a redisplay. -/
theorem unrecognised_key_is_noop (key : Nat) (hk : key ∉ recognisedKeys) (w : World)
    (x y : Int) :
    myKeyboardFunc key x y w = .returned { w with redisplay := true } ∧
    (myKeyboardFunc key x y w).world.g = w.g :=
  ⟨key_other key hk w x y, by rw [key_other key hk]; rfl⟩

/-- Witness for C9: upper-case `W` (code 87) in the initial world. -/
theorem unrecognised_key_is_noop_witness :
    87 ∉ recognisedKeys ∧
    myKeyboardFunc 87 0 0 World.initial = .returned { World.initial with redisplay := true } ∧
    (myKeyboardFunc 87 0 0 World.initial).world.g = World.initial.g :=
  ⟨by decide, unrecognised_key_is_noop 87 (by decide) World.initial 0 0⟩

/-- C10: in every state key code 27 ends the callback in `exit(1)`, a non-zero status,
with the world exactly as it was (no global changed, no redisplay requested); and a key
terminates the process only if it is 27. -/
theorem escape_exits (w : World) (x y : Int) (key : Nat) :
    myKeyboardFunc 27 x y w = .exited 1 w ∧
    (myKeyboardFunc 27 x y w).exitStatus = some 1 ∧
    (myKeyboardFunc 27 x y w).exitStatus ≠ some 0 ∧
    (myKeyboardFunc 27 x y w).world = w ∧
    ((myKeyboardFunc key x y w).exitStatus ≠ none ↔ key = 27) := by
  refine ⟨key_escape w x y, ?_, ?_, ?_, ?_⟩
  · rw [key_escape]; rfl
  · rw [key_escape]; simp [Outcome.exitStatus]
  · rw [key_escape]; rfl
  · constructor
    · intro h
      by_contra hk
      obtain ⟨w1, h1⟩ := returns_unless_escape key hk w x y
      rw [h1] at h
      exact h rfl
    · rintro rfl
      rw [key_escape]
      simp [Outcome.exitStatus]


/-! ## Geometry: face normals -/

theorem centroid_v_cube : centroid v_cube = [3 / 2, 3 / 2, 3 / 2] := by
  norm_num [centroid, v_cube]

theorem centroid_v_trapezoid : centroid v_trapezoid = [3 / 2, 3 / 2, 3 / 2] := by
  norm_num [centroid, v_trapezoid]

theorem centroid_v_pyramid : centroid v_pyramid = [1, 4 / 5, 1] := by
  norm_num [centroid, v_pyramid]

theorem cube_face_0 :
    faceNormal v_cube quadIndices 0 = [0, 9, 0] ∧
    faceCentroid v_cube quadIndices 0 = [3 / 2, 0, 3 / 2] ∧
    outwardness v_cube quadIndices 0 = -27 / 2 := by
  have h1 : faceNormal v_cube quadIndices 0 = [0, 9, 0] := by
    norm_num [faceNormal, normalOf, getNormal3p, coord, idx, v_cube, quadIndices]
  have h2 : faceCentroid v_cube quadIndices 0 = [3 / 2, 0, 3 / 2] := by
    norm_num [faceCentroid, centroid, v_cube, quadIndices]
  refine ⟨h1, h2, ?_⟩
  simp only [outwardness, centroid_v_cube, h1, h2]
  norm_num [dot3]

theorem cube_face_1 :
    faceNormal v_cube quadIndices 1 = [0, 9, 0] ∧
    faceCentroid v_cube quadIndices 1 = [3 / 2, 3, 3 / 2] ∧
    outwardness v_cube quadIndices 1 = 27 / 2 := by
  have h1 : faceNormal v_cube quadIndices 1 = [0, 9, 0] := by
    norm_num [faceNormal, normalOf, getNormal3p, coord, idx, v_cube, quadIndices]
  have h2 : faceCentroid v_cube quadIndices 1 = [3 / 2, 3, 3 / 2] := by
    norm_num [faceCentroid, centroid, v_cube, quadIndices]
  refine ⟨h1, h2, ?_⟩
  simp only [outwardness, centroid_v_cube, h1, h2]
  norm_num [dot3]

theorem cube_face_2 :
    faceNormal v_cube quadIndices 2 = [0, 0, 9] ∧
    faceCentroid v_cube quadIndices 2 = [3 / 2, 3 / 2, 3] ∧
    outwardness v_cube quadIndices 2 = 27 / 2 := by
  have h1 : faceNormal v_cube quadIndices 2 = [0, 0, 9] := by
    norm_num [faceNormal, normalOf, getNormal3p, coord, idx, v_cube, quadIndices]
  have h2 : faceCentroid v_cube quadIndices 2 = [3 / 2, 3 / 2, 3] := by
    norm_num [faceCentroid, centroid, v_cube, quadIndices]
  refine ⟨h1, h2, ?_⟩
  simp only [outwardness, centroid_v_cube, h1, h2]
  norm_num [dot3]

theorem cube_face_3 :
    faceNormal v_cube quadIndices 3 = [0, 0, (-9)] ∧
    faceCentroid v_cube quadIndices 3 = [3 / 2, 3 / 2, 0] ∧
    outwardness v_cube quadIndices 3 = 27 / 2 := by
  have h1 : faceNormal v_cube quadIndices 3 = [0, 0, (-9)] := by
    norm_num [faceNormal, normalOf, getNormal3p, coord, idx, v_cube, quadIndices]
  have h2 : faceCentroid v_cube quadIndices 3 = [3 / 2, 3 / 2, 0] := by
    norm_num [faceCentroid, centroid, v_cube, quadIndices]
  refine ⟨h1, h2, ?_⟩
  simp only [outwardness, centroid_v_cube, h1, h2]
  norm_num [dot3]

theorem cube_face_4 :
    faceNormal v_cube quadIndices 4 = [9, 0, 0] ∧
    faceCentroid v_cube quadIndices 4 = [3, 3 / 2, 3 / 2] ∧
    outwardness v_cube quadIndices 4 = 27 / 2 := by
  have h1 : faceNormal v_cube quadIndices 4 = [9, 0, 0] := by
    norm_num [faceNormal, normalOf, getNormal3p, coord, idx, v_cube, quadIndices]
  have h2 : faceCentroid v_cube quadIndices 4 = [3, 3 / 2, 3 / 2] := by
    norm_num [faceCentroid, centroid, v_cube, quadIndices]
  refine ⟨h1, h2, ?_⟩
  simp only [outwardness, centroid_v_cube, h1, h2]
  norm_num [dot3]

theorem cube_face_5 :
    faceNormal v_cube quadIndices 5 = [(-9), 0, 0] ∧
    faceCentroid v_cube quadIndices 5 = [0, 3 / 2, 3 / 2] ∧
    outwardness v_cube quadIndices 5 = 27 / 2 := by
  have h1 : faceNormal v_cube quadIndices 5 = [(-9), 0, 0] := by
    norm_num [faceNormal, normalOf, getNormal3p, coord, idx, v_cube, quadIndices]
  have h2 : faceCentroid v_cube quadIndices 5 = [0, 3 / 2, 3 / 2] := by
    norm_num [faceCentroid, centroid, v_cube, quadIndices]
  refine ⟨h1, h2, ?_⟩
  simp only [outwardness, centroid_v_cube, h1, h2]
  norm_num [dot3]

theorem trapezoid_face_0 :
    faceNormal v_trapezoid TquadIndices 0 = [0, 9, 0] ∧
    faceCentroid v_trapezoid TquadIndices 0 = [3 / 2, 0, 3 / 2] ∧
    outwardness v_trapezoid TquadIndices 0 = -27 / 2 := by
  have h1 : faceNormal v_trapezoid TquadIndices 0 = [0, 9, 0] := by
    norm_num [faceNormal, normalOf, getNormal3p, coord, idx, v_trapezoid, TquadIndices]
  have h2 : faceCentroid v_trapezoid TquadIndices 0 = [3 / 2, 0, 3 / 2] := by
    norm_num [faceCentroid, centroid, v_trapezoid, TquadIndices]
  refine ⟨h1, h2, ?_⟩
  simp only [outwardness, centroid_v_trapezoid, h1, h2]
  norm_num [dot3]

theorem trapezoid_face_1 :
    faceNormal v_trapezoid TquadIndices 1 = [0, 4, 0] ∧
    faceCentroid v_trapezoid TquadIndices 1 = [3 / 2, 3, 3 / 2] ∧
    outwardness v_trapezoid TquadIndices 1 = 6 := by
  have h1 : faceNormal v_trapezoid TquadIndices 1 = [0, 4, 0] := by
    norm_num [faceNormal, normalOf, getNormal3p, coord, idx, v_trapezoid, TquadIndices]
  have h2 : faceCentroid v_trapezoid TquadIndices 1 = [3 / 2, 3, 3 / 2] := by
    norm_num [faceCentroid, centroid, v_trapezoid, TquadIndices]
  refine ⟨h1, h2, ?_⟩
  simp only [outwardness, centroid_v_trapezoid, h1, h2]
  norm_num [dot3]

theorem trapezoid_face_2 :
    faceNormal v_trapezoid TquadIndices 2 = [0, 3 / 2, 9] ∧
    faceCentroid v_trapezoid TquadIndices 2 = [3 / 2, 3 / 2, 11 / 4] ∧
    outwardness v_trapezoid TquadIndices 2 = 45 / 4 := by
  have h1 : faceNormal v_trapezoid TquadIndices 2 = [0, 3 / 2, 9] := by
    norm_num [faceNormal, normalOf, getNormal3p, coord, idx, v_trapezoid, TquadIndices]
  have h2 : faceCentroid v_trapezoid TquadIndices 2 = [3 / 2, 3 / 2, 11 / 4] := by
    norm_num [faceCentroid, centroid, v_trapezoid, TquadIndices]
  refine ⟨h1, h2, ?_⟩
  simp only [outwardness, centroid_v_trapezoid, h1, h2]
  norm_num [dot3]

theorem trapezoid_face_3 :
    faceNormal v_trapezoid TquadIndices 3 = [0, 1, (-6)] ∧
    faceCentroid v_trapezoid TquadIndices 3 = [3 / 2, 3 / 2, 1 / 4] ∧
    outwardness v_trapezoid TquadIndices 3 = 15 / 2 := by
  have h1 : faceNormal v_trapezoid TquadIndices 3 = [0, 1, (-6)] := by
    norm_num [faceNormal, normalOf, getNormal3p, coord, idx, v_trapezoid, TquadIndices]
  have h2 : faceCentroid v_trapezoid TquadIndices 3 = [3 / 2, 3 / 2, 1 / 4] := by
    norm_num [faceCentroid, centroid, v_trapezoid, TquadIndices]
  refine ⟨h1, h2, ?_⟩
  simp only [outwardness, centroid_v_trapezoid, h1, h2]
  norm_num [dot3]

theorem trapezoid_face_4 :
    faceNormal v_trapezoid TquadIndices 4 = [9, 3 / 2, 0] ∧
    faceCentroid v_trapezoid TquadIndices 4 = [11 / 4, 3 / 2, 3 / 2] ∧
    outwardness v_trapezoid TquadIndices 4 = 45 / 4 := by
  have h1 : faceNormal v_trapezoid TquadIndices 4 = [9, 3 / 2, 0] := by
    norm_num [faceNormal, normalOf, getNormal3p, coord, idx, v_trapezoid, TquadIndices]
  have h2 : faceCentroid v_trapezoid TquadIndices 4 = [11 / 4, 3 / 2, 3 / 2] := by
    norm_num [faceCentroid, centroid, v_trapezoid, TquadIndices]
  refine ⟨h1, h2, ?_⟩
  simp only [outwardness, centroid_v_trapezoid, h1, h2]
  norm_num [dot3]

theorem trapezoid_face_5 :
    faceNormal v_trapezoid TquadIndices 5 = [(-6), 1, 0] ∧
    faceCentroid v_trapezoid TquadIndices 5 = [1 / 4, 3 / 2, 3 / 2] ∧
    outwardness v_trapezoid TquadIndices 5 = 15 / 2 := by
  have h1 : faceNormal v_trapezoid TquadIndices 5 = [(-6), 1, 0] := by
    norm_num [faceNormal, normalOf, getNormal3p, coord, idx, v_trapezoid, TquadIndices]
  have h2 : faceCentroid v_trapezoid TquadIndices 5 = [1 / 4, 3 / 2, 3 / 2] := by
    norm_num [faceCentroid, centroid, v_trapezoid, TquadIndices]
  refine ⟨h1, h2, ?_⟩
  simp only [outwardness, centroid_v_trapezoid, h1, h2]
  norm_num [dot3]

theorem pyramid_face_0 :
    faceNormal v_pyramid p_Indices 0 = [0, 2, 8] ∧
    faceCentroid v_pyramid p_Indices 0 = [1, 4 / 3, 5 / 3] ∧
    outwardness v_pyramid p_Indices 0 = 32 / 5 := by
  have h1 : faceNormal v_pyramid p_Indices 0 = [0, 2, 8] := by
    norm_num [faceNormal, normalOf, getNormal3p, coord, idx, v_pyramid, p_Indices]
  have h2 : faceCentroid v_pyramid p_Indices 0 = [1, 4 / 3, 5 / 3] := by
    norm_num [faceCentroid, centroid, v_pyramid, p_Indices]
  refine ⟨h1, h2, ?_⟩
  simp only [outwardness, centroid_v_pyramid, h1, h2]
  norm_num [dot3]

theorem pyramid_face_1 :
    faceNormal v_pyramid p_Indices 1 = [8, 2, 0] ∧
    faceCentroid v_pyramid p_Indices 1 = [5 / 3, 4 / 3, 1] ∧
    outwardness v_pyramid p_Indices 1 = 32 / 5 := by
  have h1 : faceNormal v_pyramid p_Indices 1 = [8, 2, 0] := by
    norm_num [faceNormal, normalOf, getNormal3p, coord, idx, v_pyramid, p_Indices]
  have h2 : faceCentroid v_pyramid p_Indices 1 = [5 / 3, 4 / 3, 1] := by
    norm_num [faceCentroid, centroid, v_pyramid, p_Indices]
  refine ⟨h1, h2, ?_⟩
  simp only [outwardness, centroid_v_pyramid, h1, h2]
  norm_num [dot3]

theorem pyramid_face_2 :
    faceNormal v_pyramid p_Indices 2 = [0, 2, (-8)] ∧
    faceCentroid v_pyramid p_Indices 2 = [1, 4 / 3, 1 / 3] ∧
    outwardness v_pyramid p_Indices 2 = 32 / 5 := by
  have h1 : faceNormal v_pyramid p_Indices 2 = [0, 2, (-8)] := by
    norm_num [faceNormal, normalOf, getNormal3p, coord, idx, v_pyramid, p_Indices]
  have h2 : faceCentroid v_pyramid p_Indices 2 = [1, 4 / 3, 1 / 3] := by
    norm_num [faceCentroid, centroid, v_pyramid, p_Indices]
  refine ⟨h1, h2, ?_⟩
  simp only [outwardness, centroid_v_pyramid, h1, h2]
  norm_num [dot3]

theorem pyramid_face_3 :
    faceNormal v_pyramid p_Indices 3 = [(-8), 2, 0] ∧
    faceCentroid v_pyramid p_Indices 3 = [1 / 3, 4 / 3, 1] ∧
    outwardness v_pyramid p_Indices 3 = 32 / 5 := by
  have h1 : faceNormal v_pyramid p_Indices 3 = [(-8), 2, 0] := by
    norm_num [faceNormal, normalOf, getNormal3p, coord, idx, v_pyramid, p_Indices]
  have h2 : faceCentroid v_pyramid p_Indices 3 = [1 / 3, 4 / 3, 1] := by
    norm_num [faceCentroid, centroid, v_pyramid, p_Indices]
  refine ⟨h1, h2, ?_⟩
  simp only [outwardness, centroid_v_pyramid, h1, h2]
  norm_num [dot3]

theorem pyramidBase_face_0 :
    faceNormal v_pyramid PquadIndices 0 = [0, (-4), 0] ∧
    faceCentroid v_pyramid PquadIndices 0 = [1, 0, 1] ∧
    outwardness v_pyramid PquadIndices 0 = 16 / 5 := by
  have h1 : faceNormal v_pyramid PquadIndices 0 = [0, (-4), 0] := by
    norm_num [faceNormal, normalOf, getNormal3p, coord, idx, v_pyramid, PquadIndices]
  have h2 : faceCentroid v_pyramid PquadIndices 0 = [1, 0, 1] := by
    norm_num [faceCentroid, centroid, v_pyramid, PquadIndices]
  refine ⟨h1, h2, ?_⟩
  simp only [outwardness, centroid_v_pyramid, h1, h2]
  norm_num [dot3]

/-- C11, the code at the failing faces: for the bottom face (index 0, vertices
`0, 1, 2, 3`) of the cuboid and of the trapezoidal prism, `getNormal3p` yields
`(0, 9, 0)`, which points into the solid (its dot product with
face centroid - primitive centroid is `-27/2`); `drawCube1` and `drawTrapezoid` hand
exactly this vector to `glNormal3f` for their first face.  Every other face of the
three primitives, the base of the pyramid (wound `0, 3, 2, 1`) included, has a
strictly outward normal. -/
theorem bottom_face_normal_inward :
    faceNormal v_cube quadIndices 0 = [0, 9, 0] ∧
    outwardness v_cube quadIndices 0 = -27 / 2 ∧
    faceNormal v_trapezoid TquadIndices 0 = [0, 9, 0] ∧
    outwardness v_trapezoid TquadIndices 0 = -27 / 2 ∧
    (∀ d1 d2 d3 a1 a2 a3 sh : ℚ,
      (drawCube1 d1 d2 d3 a1 a2 a3 sh)[7]? = some (.glNormal3f 0 9 0)) ∧
    (∀ (g : Globals) (d1 d2 d3 a1 a2 a3 sh : ℚ),
      (drawTrapezoid g d1 d2 d3 a1 a2 a3 sh)[7]? = some (.glNormal3f 0 9 0)) ∧
    (∀ i ∈ [1, 2, 3, 4, 5], 0 < outwardness v_cube quadIndices i) ∧
    (∀ i ∈ [1, 2, 3, 4, 5], 0 < outwardness v_trapezoid TquadIndices i) ∧
    (∀ i ∈ [0, 1, 2, 3], 0 < outwardness v_pyramid p_Indices i) ∧
    0 < outwardness v_pyramid PquadIndices 0 := by
  refine ⟨cube_face_0.1, cube_face_0.2.2, trapezoid_face_0.1, trapezoid_face_0.2.2,
    ?_, ?_, ?_, ?_, ?_, ?_⟩
  · intro d1 d2 d3 a1 a2 a3 sh
    norm_num [drawCube1, setMaterial, List.range, List.range.loop, List.flatMap,
      getNormal3p, coord, idx, v_cube, quadIndices]
  · intro g d1 d2 d3 a1 a2 a3 sh
    cases h : g.switchLamp <;>
      norm_num [drawTrapezoid, setMaterial, List.range, List.range.loop, List.flatMap,
        getNormal3p, coord, idx, v_trapezoid, TquadIndices, h]
  · intro i hi
    simp only [List.mem_cons, List.mem_singleton, List.not_mem_nil, or_false] at hi
    rcases hi with h | h | h | h | h <;> subst h
    · rw [cube_face_1.2.2]; norm_num
    · rw [cube_face_2.2.2]; norm_num
    · rw [cube_face_3.2.2]; norm_num
    · rw [cube_face_4.2.2]; norm_num
    · rw [cube_face_5.2.2]; norm_num
  · intro i hi
    simp only [List.mem_cons, List.mem_singleton, List.not_mem_nil, or_false] at hi
    rcases hi with h | h | h | h | h <;> subst h
    · rw [trapezoid_face_1.2.2]; norm_num
    · rw [trapezoid_face_2.2.2]; norm_num
    · rw [trapezoid_face_3.2.2]; norm_num
    · rw [trapezoid_face_4.2.2]; norm_num
    · rw [trapezoid_face_5.2.2]; norm_num
  · intro i hi
    simp only [List.mem_cons, List.mem_singleton, List.not_mem_nil, or_false] at hi
    rcases hi with h | h | h | h <;> subst h
    · rw [pyramid_face_0.2.2]; norm_num
    · rw [pyramid_face_1.2.2]; norm_num
    · rw [pyramid_face_2.2.2]; norm_num
    · rw [pyramid_face_3.2.2]; norm_num
  · rw [pyramidBase_face_0.2.2]; norm_num

/-! ## Geometry: the mirror polygon -/

/-- C15, refuted as stated: the outline's point sequence is not the fill's point
sequence reversed (the reversed fill starts at `(0.2, 1)`, the outline at `(6, 0)`). -/
theorem outline_not_reverse_of_fill :
    vertices2 (polygonLine 0.2 0.1 0.1 0.1 0.05 0.05 50) ≠
      (vertices2 (polygon 0.690 0.878 0.902 0.345 0.439 0.451 10)).reverse := by
  simp [vertices2, polygon, polygonLine, setMaterial, List.filterMap]

/-- C15, amended: the outline emits the fill's points in the same order, starting from
the fill's second point `(6, 0)` and ending with its first point `(0, 0)`: it is the
fill's sequence rotated by one place, for any material arguments. -/
theorem outline_is_fill_rotated (d1 d2 d3 a1 a2 a3 sh e1 e2 e3 b1 b2 b3 th : ℚ) :
    vertices2 (polygonLine d1 d2 d3 a1 a2 a3 sh) =
      (vertices2 (polygon e1 e2 e3 b1 b2 b3 th)).rotate 1 ∧
    (vertices2 (polygon e1 e2 e3 b1 b2 b3 th)).head? = some (0, 0) ∧
    (vertices2 (polygonLine d1 d2 d3 a1 a2 a3 sh)).head? = some (6, 0) ∧
    (vertices2 (polygonLine d1 d2 d3 a1 a2 a3 sh)).getLast? = some (0, 0) := by
  refine ⟨?_, ?_, ?_, ?_⟩ <;>
    simp [vertices2, polygon, polygonLine, setMaterial, List.rotate, List.filterMap]

/-! ## Pendulum: the y-bands -/

theorem yBands_y (g : Globals) : (yBands g).y = firstMatch g.theta g.y := by
  unfold yBands
  simp only [firstMatch, yBandTable, firstMatchIn]
  split_ifs <;> rfl

theorem animate_y (w : World) :
    (animate w).g.y = firstMatch (animate w).g.theta w.g.y := by
  rw [animate_theta]
  cases h : w.g.redFlag <;> simp [animate, glutPostRedisplay, h]
  all_goals (split_ifs <;> simp [yBands_y])

/-- C19, refuted as stated: from the initial state one tick gives `theta = 182`, which
lies in the second and in the third band, and `y` becomes 1.42, not the third band's
1.4; last-match lookup would give 1.4. -/
theorem overlap_not_last_match :
    (animate World.initial).g.theta = 182 ∧
    (animate World.initial).g.y = 1.42 ∧
    (animate World.initial).g.y ≠ 1.4 ∧
    lastMatch (animate World.initial).g.theta World.initial.g.y = 1.4 ∧
    (animate World.initial).g.y ≠ lastMatch (animate World.initial).g.theta World.initial.g.y := by
  have ht : (animate World.initial).g.theta = 182 := by
    rw [animate_theta]
    norm_num [World.initial, Globals.initial]
  have hy : (animate World.initial).g.y = 1.42 := by
    rw [animate_y, ht]
    norm_num [firstMatch, firstMatchIn, yBandTable]
  have hl : lastMatch (animate World.initial).g.theta World.initial.g.y = 1.4 := by
    rw [ht]
    norm_num [lastMatch, lastMatchIn, yBandTable]
  refine ⟨ht, hy, ?_, hl, ?_⟩
  · rw [hy]; norm_num
  · rw [hy, hl]; norm_num

/-- C19, amended: in every state the four y-bands are evaluated first-match-wins (an
`if / else if` chain): `y` ends with the value of the first band of the table that
contains the updated `theta`, so for an updated `theta` in `[180, 194]`, which matches
the second and the third band, `y` becomes the second band's value 1.42. -/
theorem overlap_first_match (w : World) :
    (animate w).g.y = firstMatch (animate w).g.theta w.g.y ∧
    (180 ≤ (animate w).g.theta ∧ (animate w).g.theta ≤ 194 → (animate w).g.y = 1.42) := by
  refine ⟨animate_y w, ?_⟩
  intro h
  rw [animate_y]
  have h1 : ¬ (196 ≤ (animate w).g.theta) := by linarith [h.2]
  simp [firstMatch, yBandTable, firstMatchIn, h1, h.1, h.2]

/-- C20: in every state a tick sets `y` to 1.44 when the updated `theta` is in
`[196, 210]`, to 1.42 when it is in `[180, 194]` or in `[164, 178]`, and leaves `y` as
it was for every other `theta`; so the tick never assigns the third band's 1.4. -/
theorem third_band_dead (w : World) :
    ((animate w).g.y =
      if 196 ≤ (animate w).g.theta ∧ (animate w).g.theta ≤ 210 then 1.44
      else if (180 ≤ (animate w).g.theta ∧ (animate w).g.theta ≤ 194) ∨
              (164 ≤ (animate w).g.theta ∧ (animate w).g.theta ≤ 178) then 1.42
      else w.g.y) ∧
    ((animate w).g.y = 1.44 ∨ (animate w).g.y = 1.42 ∨ (animate w).g.y = w.g.y) := by
  have h : (animate w).g.y =
      if 196 ≤ (animate w).g.theta ∧ (animate w).g.theta ≤ 210 then 1.44
      else if (180 ≤ (animate w).g.theta ∧ (animate w).g.theta ≤ 194) ∨
              (164 ≤ (animate w).g.theta ∧ (animate w).g.theta ≤ 178) then 1.42
      else w.g.y := by
    rw [animate_y]
    simp only [firstMatch, yBandTable, firstMatchIn, ge_iff_le]
    split_ifs <;> first | rfl | (exfalso; tauto)
  refine ⟨h, ?_⟩
  rw [h]
  split_ifs <;> simp


/-! ## Drawing: running command streams -/

theorem run_nil (s : GLState) : run [] s = s := rfl

theorem run_append (a b : List GLCmd) (s : GLState) : run (a ++ b) s = run b (run a s) := by
  simp [run, List.foldl_append]

theorem pushes_append (a b : List GLCmd) : pushes (a ++ b) = pushes a + pushes b := by
  simp [pushes]

theorem pops_append (a b : List GLCmd) : pops (a ++ b) = pops a + pops b := by
  simp [pops]

theorem trapCalls_append (a b : List GLCmd) :
    trapCalls (a ++ b) = trapCalls a + trapCalls b := by
  simp [trapCalls]

/-- Sequencing: the second piece may rely on what the first one guarantees. -/
theorem effect_append {g : Globals} {Q : List Xf → Draw → Prop} {a b : List GLCmd}
    {pre mid post : Bool} (ha : Effect g Q a pre mid) (hb : Effect g Q b mid post) :
    Effect g Q (a ++ b) pre post := by
  obtain ⟨ca, ha⟩ := ha
  obtain ⟨cb, hb⟩ := hb
  refine ⟨by rw [pushes_append, pops_append, ca, cb], ?_⟩
  intro s hm
  obtain ⟨a1, a2, a3, a4, a5, a6, a7, a8, a9⟩ := ha s hm
  obtain ⟨b1, b2, b3, b4, b5, b6, b7, b8, b9⟩ := hb (run a s) a1
  rw [run_append]
  refine ⟨b1, b2.trans a2, b3.trans a3, b4.trans a4, b5.trans a5, ?_, ?_, ?_, ?_⟩
  · rw [a2] at b6
    exact le_trans (le_min a6 (min_le_right _ _)) b6
  · rw [b7, a7, trapCalls_append, Nat.add_assoc]
  · intro d hd
    rcases b8 d hd with h | h
    · exact a8 d h
    · rw [a2] at h
      exact Or.inr h
  · intro hpre
    obtain ⟨c1, c2⟩ := a9 hpre
    obtain ⟨e1, e2⟩ := b9 c1
    refine ⟨e1, fun d hd => ?_⟩
    rcases e2 d hd with h | h
    · exact c2 d h
    · exact Or.inr h

theorem effect_nil (g : Globals) (Q : List Xf → Draw → Prop) (b : Bool) :
    Effect g Q [] b b := by
  refine ⟨rfl, fun s hm => ?_⟩
  exact ⟨hm, rfl, rfl, rfl, rfl, min_le_left _ _, rfl, fun d hd => Or.inl hd,
    fun hp => ⟨hp, fun d hd => Or.inl hd⟩⟩

theorem effect_color (g : Globals) (Q : List Xf → Draw → Prop) (b : Bool) (r gr bl : ℚ) :
    Effect g Q [.glColor3f r gr bl] b b := by
  refine ⟨rfl, fun s hm => ?_⟩
  exact ⟨hm, rfl, rfl, rfl, rfl, min_le_left _ _, rfl, fun d hd => Or.inl hd,
    fun hp => ⟨hp, fun d hd => Or.inl hd⟩⟩

/-! ## Drawing: the geometry routines -/

theorem run_drawCube1 (difX difY difZ ambX ambY ambZ shine : ℚ) (s : GLState) :
    run (drawCube1 difX difY difZ ambX ambY ambZ shine) s =
      { s with diffuse := [difX, difY, difZ, 1.0], emission := no_mat, routine := .drawCube1,
               drawn := { routine := .drawCube1, diffuse := [difX, difY, difZ, 1.0],
                          emission := no_mat, matrix := s.modelview.top } :: s.drawn } := by
  simp [drawCube1, setMaterial, run, step, List.range, List.range.loop, List.flatMap,
    getNormal3p, glVertex3fv]

theorem counts_drawCube1 (difX difY difZ ambX ambY ambZ shine : ℚ) :
    pushes (drawCube1 difX difY difZ ambX ambY ambZ shine) = 0 ∧
    pops (drawCube1 difX difY difZ ambX ambY ambZ shine) = 0 ∧
    trapCalls (drawCube1 difX difY difZ ambX ambY ambZ shine) = 0 ∧
    transforms (drawCube1 difX difY difZ ambX ambY ambZ shine) = 0 ∧
    geometry (drawCube1 difX difY difZ ambX ambY ambZ shine) = 1 := by
  simp [pushes, pops, trapCalls, transforms, geometry, drawCube1, setMaterial, List.range,
    List.range.loop, List.flatMap, getNormal3p, glVertex3fv]

theorem paints_drawCube1 (g : Globals) (difX difY difZ ambX ambY ambZ shine : ℚ)
    (pre : Bool) :
    Effect g Draw.drawnAt (drawCube1 difX difY difZ ambX ambY ambZ shine) pre true := by
  obtain ⟨c1, c2, c3, -, -⟩ := counts_drawCube1 difX difY difZ ambX ambY ambZ shine
  refine ⟨by rw [c1, c2], fun s hm => ?_⟩
  rw [run_drawCube1, c3]
  refine ⟨hm, rfl, rfl, rfl, rfl, min_le_left _ _, ?_, ?_, fun _ => ⟨fun _ => ?_, ?_⟩⟩
  · simp [trapCount]
  · intro d hd
    simp only [List.mem_cons] at hd
    rcases hd with rfl | hd
    · exact Or.inr rfl
    · exact Or.inl hd
  · norm_num [Dark, rgb, no_mat]
  · intro d hd
    simp only [List.mem_cons] at hd
    rcases hd with rfl | hd
    · right
      norm_num [Draw.emissionOk, rgb, no_mat]
    · exact Or.inl hd


theorem emissionOk_of_dark (g : Globals) (r : Routine) (dif e : List ℚ) (m : List Xf)
    (hr : r ≠ .lightBulb1 ∧ r ≠ .lightBulb2 ∧ r ≠ .drawTrapezoid) (he : Dark e) :
    Draw.emissionOk g { routine := r, diffuse := dif, emission := e, matrix := m } := by
  obtain ⟨h1, h2, h3⟩ := hr
  cases r <;> first | exact he | exact absurd rfl h1 | exact absurd rfl h2 | exact absurd rfl h3

theorem run_drawSphere (difX difY difZ ambX ambY ambZ shine : ℚ) (s : GLState) :
    run (drawSphere difX difY difZ ambX ambY ambZ shine) s =
      { s with diffuse := [difX, difY, difZ, 1.0], routine := .drawSphere,
               drawn := { routine := .drawSphere, diffuse := [difX, difY, difZ, 1.0],
                          emission := s.emission, matrix := s.modelview.top } :: s.drawn } := by
  simp [drawSphere, setMaterial, run, step]

theorem counts_drawSphere (difX difY difZ ambX ambY ambZ shine : ℚ) :
    pushes (drawSphere difX difY difZ ambX ambY ambZ shine) = 0 ∧
    pops (drawSphere difX difY difZ ambX ambY ambZ shine) = 0 ∧
    trapCalls (drawSphere difX difY difZ ambX ambY ambZ shine) = 0 ∧
    transforms (drawSphere difX difY difZ ambX ambY ambZ shine) = 0 ∧
    geometry (drawSphere difX difY difZ ambX ambY ambZ shine) = 1 := by
  simp [pushes, pops, trapCalls, transforms, geometry, drawSphere, setMaterial]

theorem paints_drawSphere (g : Globals) (difX difY difZ ambX ambY ambZ shine : ℚ) :
    Effect g Draw.drawnAt (drawSphere difX difY difZ ambX ambY ambZ shine) true true := by
  obtain ⟨c1, c2, c3, -, -⟩ := counts_drawSphere difX difY difZ ambX ambY ambZ shine
  refine ⟨by rw [c1, c2], fun s hm => ?_⟩
  rw [run_drawSphere, c3]
  refine ⟨hm, rfl, rfl, rfl, rfl, min_le_left _ _, ?_, ?_, fun hp => ⟨fun _ => hp rfl, ?_⟩⟩
  · simp [trapCount]
  · intro d hd
    simp only [List.mem_cons] at hd
    rcases hd with rfl | hd
    · exact Or.inr rfl
    · exact Or.inl hd
  · intro d hd
    simp only [List.mem_cons] at hd
    rcases hd with rfl | hd
    · exact Or.inr (emissionOk_of_dark g _ _ _ _ (by decide) (hp rfl))
    · exact Or.inl hd

theorem run_polygon (difX difY difZ ambX ambY ambZ shine : ℚ) (s : GLState) :
    run (polygon difX difY difZ ambX ambY ambZ shine) s =
      { s with diffuse := [difX, difY, difZ, 1.0], routine := .polygon,
               drawn := { routine := .polygon, diffuse := [difX, difY, difZ, 1.0],
                          emission := s.emission, matrix := s.modelview.top } :: s.drawn } := by
  simp [polygon, setMaterial, run, step]

theorem counts_polygon (difX difY difZ ambX ambY ambZ shine : ℚ) :
    pushes (polygon difX difY difZ ambX ambY ambZ shine) = 0 ∧
    pops (polygon difX difY difZ ambX ambY ambZ shine) = 0 ∧
    trapCalls (polygon difX difY difZ ambX ambY ambZ shine) = 0 ∧
    transforms (polygon difX difY difZ ambX ambY ambZ shine) = 0 ∧
    geometry (polygon difX difY difZ ambX ambY ambZ shine) = 1 := by
  simp [pushes, pops, trapCalls, transforms, geometry, polygon, setMaterial]

theorem paints_polygon (g : Globals) (difX difY difZ ambX ambY ambZ shine : ℚ) :
    Effect g Draw.drawnAt (polygon difX difY difZ ambX ambY ambZ shine) true true := by
  obtain ⟨c1, c2, c3, -, -⟩ := counts_polygon difX difY difZ ambX ambY ambZ shine
  refine ⟨by rw [c1, c2], fun s hm => ?_⟩
  rw [run_polygon, c3]
  refine ⟨hm, rfl, rfl, rfl, rfl, min_le_left _ _, ?_, ?_, fun hp => ⟨fun _ => hp rfl, ?_⟩⟩
  · simp [trapCount]
  · intro d hd
    simp only [List.mem_cons] at hd
    rcases hd with rfl | hd
    · exact Or.inr rfl
    · exact Or.inl hd
  · intro d hd
    simp only [List.mem_cons] at hd
    rcases hd with rfl | hd
    · exact Or.inr (emissionOk_of_dark g _ _ _ _ (by decide) (hp rfl))
    · exact Or.inl hd

theorem run_polygonLine (difX difY difZ ambX ambY ambZ shine : ℚ) (s : GLState) :
    run (polygonLine difX difY difZ ambX ambY ambZ shine) s =
      { s with diffuse := [difX, difY, difZ, 1.0], routine := .polygonLine,
               drawn := { routine := .polygonLine, diffuse := [difX, difY, difZ, 1.0],
                          emission := s.emission, matrix := s.modelview.top } :: s.drawn } := by
  simp [polygonLine, setMaterial, run, step]

theorem counts_polygonLine (difX difY difZ ambX ambY ambZ shine : ℚ) :
    pushes (polygonLine difX difY difZ ambX ambY ambZ shine) = 0 ∧
    pops (polygonLine difX difY difZ ambX ambY ambZ shine) = 0 ∧
    trapCalls (polygonLine difX difY difZ ambX ambY ambZ shine) = 0 ∧
    transforms (polygonLine difX difY difZ ambX ambY ambZ shine) = 0 ∧
    geometry (polygonLine difX difY difZ ambX ambY ambZ shine) = 1 := by
  simp [pushes, pops, trapCalls, transforms, geometry, polygonLine, setMaterial]

theorem paints_polygonLine (g : Globals) (difX difY difZ ambX ambY ambZ shine : ℚ) :
    Effect g Draw.drawnAt (polygonLine difX difY difZ ambX ambY ambZ shine) true true := by
  obtain ⟨c1, c2, c3, -, -⟩ := counts_polygonLine difX difY difZ ambX ambY ambZ shine
  refine ⟨by rw [c1, c2], fun s hm => ?_⟩
  rw [run_polygonLine, c3]
  refine ⟨hm, rfl, rfl, rfl, rfl, min_le_left _ _, ?_, ?_, fun hp => ⟨fun _ => hp rfl, ?_⟩⟩
  · simp [trapCount]
  · intro d hd
    simp only [List.mem_cons] at hd
    rcases hd with rfl | hd
    · exact Or.inr rfl
    · exact Or.inl hd
  · intro d hd
    simp only [List.mem_cons] at hd
    rcases hd with rfl | hd
    · exact Or.inr (emissionOk_of_dark g _ _ _ _ (by decide) (hp rfl))
    · exact Or.inl hd

theorem run_drawpyramid (difX difY difZ ambX ambY ambZ shine : ℚ) (s : GLState) :
    run (drawpyramid difX difY difZ ambX ambY ambZ shine) s =
      { s with diffuse := [difX, difY, difZ, 1.0], routine := .drawpyramid,
               drawn := { routine := .drawpyramid, diffuse := [difX, difY, difZ, 1.0],
                          emission := s.emission, matrix := s.modelview.top } ::
                        { routine := .drawpyramid, diffuse := [difX, difY, difZ, 1.0],
                          emission := s.emission, matrix := s.modelview.top } :: s.drawn } := by
  simp [drawpyramid, setMaterial, run, step, List.range, List.range.loop, List.flatMap,
    getNormal3p, glVertex3fv]

theorem counts_drawpyramid (difX difY difZ ambX ambY ambZ shine : ℚ) :
    pushes (drawpyramid difX difY difZ ambX ambY ambZ shine) = 0 ∧
    pops (drawpyramid difX difY difZ ambX ambY ambZ shine) = 0 ∧
    trapCalls (drawpyramid difX difY difZ ambX ambY ambZ shine) = 0 ∧
    transforms (drawpyramid difX difY difZ ambX ambY ambZ shine) = 0 ∧
    geometry (drawpyramid difX difY difZ ambX ambY ambZ shine) = 2 := by
  simp [pushes, pops, trapCalls, transforms, geometry, drawpyramid, setMaterial, List.range,
    List.range.loop, List.flatMap, getNormal3p, glVertex3fv]

theorem paints_drawpyramid (g : Globals) (difX difY difZ ambX ambY ambZ shine : ℚ) :
    Effect g Draw.drawnAt (drawpyramid difX difY difZ ambX ambY ambZ shine) true true := by
  obtain ⟨c1, c2, c3, -, -⟩ := counts_drawpyramid difX difY difZ ambX ambY ambZ shine
  refine ⟨by rw [c1, c2], fun s hm => ?_⟩
  rw [run_drawpyramid, c3]
  refine ⟨hm, rfl, rfl, rfl, rfl, min_le_left _ _, ?_, ?_, fun hp => ⟨fun _ => hp rfl, ?_⟩⟩
  · simp [trapCount]
  · intro d hd
    simp only [List.mem_cons] at hd
    rcases hd with rfl | rfl | hd
    · exact Or.inr rfl
    · exact Or.inr rfl
    · exact Or.inl hd
  · intro d hd
    simp only [List.mem_cons] at hd
    rcases hd with rfl | rfl | hd
    · exact Or.inr (emissionOk_of_dark g _ _ _ _ (by decide) (hp rfl))
    · exact Or.inr (emissionOk_of_dark g _ _ _ _ (by decide) (hp rfl))
    · exact Or.inl hd

theorem run_drawTrapezoid (g : Globals) (difX difY difZ ambX ambY ambZ shine : ℚ)
    (s : GLState) :
    run (drawTrapezoid g difX difY difZ ambX ambY ambZ shine) s =
      { s with diffuse := [difX, difY, difZ, 1.0],
               emission := if g.switchLamp = true then [difX, difY, difZ, 0.0] else no_mat,
               routine := .drawTrapezoid,
               drawn := { routine := .drawTrapezoid, diffuse := [difX, difY, difZ, 1.0],
                          emission :=
                            if g.switchLamp = true then [difX, difY, difZ, 0.0] else no_mat,
                          matrix := s.modelview.top } :: s.drawn } := by
  cases h : g.switchLamp <;>
    simp [drawTrapezoid, setMaterial, run, step, List.range, List.range.loop, List.flatMap,
      getNormal3p, glVertex3fv, h]

theorem counts_drawTrapezoid (g : Globals) (difX difY difZ ambX ambY ambZ shine : ℚ) :
    pushes (drawTrapezoid g difX difY difZ ambX ambY ambZ shine) = 0 ∧
    pops (drawTrapezoid g difX difY difZ ambX ambY ambZ shine) = 0 ∧
    trapCalls (drawTrapezoid g difX difY difZ ambX ambY ambZ shine) = 1 ∧
    transforms (drawTrapezoid g difX difY difZ ambX ambY ambZ shine) = 0 ∧
    geometry (drawTrapezoid g difX difY difZ ambX ambY ambZ shine) = 1 := by
  cases h : g.switchLamp <;>
    simp [pushes, pops, trapCalls, transforms, geometry, drawTrapezoid, setMaterial,
      List.range, List.range.loop, List.flatMap, getNormal3p, glVertex3fv, h]

theorem paints_drawTrapezoid (g : Globals) (difX difY difZ ambX ambY ambZ shine : ℚ)
    (pre : Bool) :
    Effect g Draw.drawnAt (drawTrapezoid g difX difY difZ ambX ambY ambZ shine) pre false := by
  obtain ⟨c1, c2, c3, -, -⟩ := counts_drawTrapezoid g difX difY difZ ambX ambY ambZ shine
  refine ⟨by rw [c1, c2], fun s hm => ?_⟩
  rw [run_drawTrapezoid, c3]
  refine ⟨hm, rfl, rfl, rfl, rfl, min_le_left _ _, ?_, ?_,
    fun _ => ⟨fun hf => absurd hf (by decide), ?_⟩⟩
  · simp [trapCount]
  · intro d hd
    simp only [List.mem_cons] at hd
    rcases hd with rfl | hd
    · exact Or.inr rfl
    · exact Or.inl hd
  · intro d hd
    simp only [List.mem_cons] at hd
    rcases hd with rfl | hd
    · right
      cases h : g.switchLamp <;> norm_num [Draw.emissionOk, rgb, no_mat, h]
    · exact Or.inl hd

theorem run_drawCarpet (soil : Nat) (difX difY difZ ambX ambY ambZ shine : ℚ) (s : GLState)
    (hm : s.mode = .GL_MODELVIEW) :
    run (drawCarpet soil difX difY difZ ambX ambY ambZ shine) s =
      { s with routine := .drawCarpet,
               lowWater := min s.lowWater s.modelview.depth,
               drawn := { routine := .drawCarpet, diffuse := [difX, difY, difZ, 1.0],
                          emission := no_mat, matrix := s.modelview.top } :: s.drawn } := by
  by_cases h : soil = 0 <;>
    simp [drawCarpet, loadTexture, setMaterial, run, step, List.range, List.range.loop,
      List.flatMap, getNormal3p, glVertex3fv, h, hm, MatrixStack.depth]

theorem counts_drawCarpet (soil : Nat) (difX difY difZ ambX ambY ambZ shine : ℚ) :
    pushes (drawCarpet soil difX difY difZ ambX ambY ambZ shine) = 1 ∧
    pops (drawCarpet soil difX difY difZ ambX ambY ambZ shine) = 1 ∧
    trapCalls (drawCarpet soil difX difY difZ ambX ambY ambZ shine) = 0 ∧
    transforms (drawCarpet soil difX difY difZ ambX ambY ambZ shine) = 0 ∧
    geometry (drawCarpet soil difX difY difZ ambX ambY ambZ shine) = 1 := by
  by_cases h : soil = 0 <;>
    simp [pushes, pops, trapCalls, transforms, geometry, drawCarpet, loadTexture, setMaterial,
      List.range, List.range.loop, List.flatMap, getNormal3p, glVertex3fv, h]

theorem paints_drawCarpet (g : Globals) (soil : Nat)
    (difX difY difZ ambX ambY ambZ shine : ℚ) (b : Bool) :
    Effect g Draw.drawnAt (drawCarpet soil difX difY difZ ambX ambY ambZ shine) b b := by
  obtain ⟨c1, c2, c3, -, -⟩ := counts_drawCarpet soil difX difY difZ ambX ambY ambZ shine
  refine ⟨by rw [c1, c2], fun s hm => ?_⟩
  rw [run_drawCarpet _ _ _ _ _ _ _ _ s hm, c3]
  refine ⟨hm, rfl, rfl, rfl, rfl, le_refl _, ?_, ?_, fun hp => ⟨hp, ?_⟩⟩
  · simp [trapCount]
  · intro d hd
    simp only [List.mem_cons] at hd
    rcases hd with rfl | hd
    · exact Or.inr rfl
    · exact Or.inl hd
  · intro d hd
    simp only [List.mem_cons] at hd
    rcases hd with rfl | hd
    · right
      norm_num [Draw.emissionOk, rgb, no_mat]
    · exact Or.inl hd


theorem run_bulb1 (g : Globals) (s : GLState) :
    run
      ([.enter .lightBulb1,
        .glMaterialfv .GL_FRONT .GL_AMBIENT no_mat,
        .glMaterialfv .GL_FRONT .GL_DIFFUSE [1.000, 0.843, 0.000, 1.0],
        .glMaterialfv .GL_FRONT .GL_SPECULAR no_mat,
        .glMaterialfv .GL_FRONT .GL_SHININESS [100.0]] ++
       (if g.switchOne = true then [.glMaterialfv .GL_FRONT .GL_EMISSION [1.000, 1, 1, 0.0]]
        else [.glMaterialfv .GL_FRONT .GL_EMISSION no_mat]) ++
       [.glutSolidSphere 1.0 16 16]) s =
      { s with diffuse := [1.000, 0.843, 0.000, 1.0],
               emission := if g.switchOne = true then [1.000, 1, 1, 0.0] else no_mat,
               routine := .lightBulb1,
               drawn := { routine := .lightBulb1, diffuse := [1.000, 0.843, 0.000, 1.0],
                          emission := if g.switchOne = true then [1.000, 1, 1, 0.0] else no_mat,
                          matrix := s.modelview.top } :: s.drawn } := by
  cases h : g.switchOne <;> simp [run, step, h]

theorem paints_bulb1 (g : Globals) (pre : Bool) :
    Effect g Draw.drawnAt
      ([.enter .lightBulb1,
        .glMaterialfv .GL_FRONT .GL_AMBIENT no_mat,
        .glMaterialfv .GL_FRONT .GL_DIFFUSE [1.000, 0.843, 0.000, 1.0],
        .glMaterialfv .GL_FRONT .GL_SPECULAR no_mat,
        .glMaterialfv .GL_FRONT .GL_SHININESS [100.0]] ++
       (if g.switchOne = true then [.glMaterialfv .GL_FRONT .GL_EMISSION [1.000, 1, 1, 0.0]]
        else [.glMaterialfv .GL_FRONT .GL_EMISSION no_mat]) ++
       [.glutSolidSphere 1.0 16 16]) pre false := by
  refine ⟨by cases h : g.switchOne <;> simp [pushes, pops, h], fun s hm => ?_⟩
  rw [run_bulb1]
  refine ⟨hm, rfl, rfl, rfl, rfl, min_le_left _ _, ?_, ?_,
    fun _ => ⟨fun hf => absurd hf (by decide), ?_⟩⟩
  · cases h : g.switchOne <;> simp [trapCount, trapCalls, h]
  · intro d hd
    simp only [List.mem_cons] at hd
    rcases hd with rfl | hd
    · exact Or.inr rfl
    · exact Or.inl hd
  · intro d hd
    simp only [List.mem_cons] at hd
    rcases hd with rfl | hd
    · right
      cases h : g.switchOne <;> norm_num [Draw.emissionOk, rgb, no_mat, h]
    · exact Or.inl hd

theorem run_bulb2 (g : Globals) (s : GLState) :
    run
      ([.enter .lightBulb2,
        .glMaterialfv .GL_FRONT .GL_AMBIENT no_mat,
        .glMaterialfv .GL_FRONT .GL_DIFFUSE [1.000, 0.843, 0.000, 1.0],
        .glMaterialfv .GL_FRONT .GL_SPECULAR no_mat,
        .glMaterialfv .GL_FRONT .GL_SHININESS [100.0]] ++
       (if g.switchTwo = true then [.glMaterialfv .GL_FRONT .GL_EMISSION [1, 1, 1, 1.0]]
        else [.glMaterialfv .GL_FRONT .GL_EMISSION no_mat]) ++
       [.glutSolidSphere 1.0 16 16]) s =
      { s with diffuse := [1.000, 0.843, 0.000, 1.0],
               emission := if g.switchTwo = true then [1, 1, 1, 1.0] else no_mat,
               routine := .lightBulb2,
               drawn := { routine := .lightBulb2, diffuse := [1.000, 0.843, 0.000, 1.0],
                          emission := if g.switchTwo = true then [1, 1, 1, 1.0] else no_mat,
                          matrix := s.modelview.top } :: s.drawn } := by
  cases h : g.switchTwo <;> simp [run, step, h]

theorem paints_bulb2 (g : Globals) (pre : Bool) :
    Effect g Draw.drawnAt
      ([.enter .lightBulb2,
        .glMaterialfv .GL_FRONT .GL_AMBIENT no_mat,
        .glMaterialfv .GL_FRONT .GL_DIFFUSE [1.000, 0.843, 0.000, 1.0],
        .glMaterialfv .GL_FRONT .GL_SPECULAR no_mat,
        .glMaterialfv .GL_FRONT .GL_SHININESS [100.0]] ++
       (if g.switchTwo = true then [.glMaterialfv .GL_FRONT .GL_EMISSION [1, 1, 1, 1.0]]
        else [.glMaterialfv .GL_FRONT .GL_EMISSION no_mat]) ++
       [.glutSolidSphere 1.0 16 16]) pre false := by
  refine ⟨by cases h : g.switchTwo <;> simp [pushes, pops, h], fun s hm => ?_⟩
  rw [run_bulb2]
  refine ⟨hm, rfl, rfl, rfl, rfl, min_le_left _ _, ?_, ?_,
    fun _ => ⟨fun hf => absurd hf (by decide), ?_⟩⟩
  · cases h : g.switchTwo <;> simp [trapCount, trapCalls, h]
  · intro d hd
    simp only [List.mem_cons] at hd
    rcases hd with rfl | hd
    · exact Or.inr rfl
    · exact Or.inl hd
  · intro d hd
    simp only [List.mem_cons] at hd
    rcases hd with rfl | hd
    · right
      cases h : g.switchTwo <;> norm_num [Draw.emissionOk, rgb, no_mat, h]
    · exact Or.inl hd

/-- Every primitive paints at the current matrix, with the flags of its `Prim` rule. -/
theorem effect_of_prim {g : Globals} {p : List GLCmd} {pre post : Bool}
    (h : Prim g p pre post) : Effect g Draw.drawnAt p pre post := by
  cases h with
  | cube d1 d2 d3 a1 a2 a3 sh pre => exact paints_drawCube1 g d1 d2 d3 a1 a2 a3 sh pre
  | carpet soil d1 d2 d3 a1 a2 a3 sh => exact paints_drawCarpet g soil d1 d2 d3 a1 a2 a3 sh _
  | trapezoid d1 d2 d3 a1 a2 a3 sh pre => exact paints_drawTrapezoid g d1 d2 d3 a1 a2 a3 sh pre
  | pyramid d1 d2 d3 a1 a2 a3 sh => exact paints_drawpyramid g d1 d2 d3 a1 a2 a3 sh
  | polygon d1 d2 d3 a1 a2 a3 sh => exact paints_polygon g d1 d2 d3 a1 a2 a3 sh
  | polygonLine d1 d2 d3 a1 a2 a3 sh => exact paints_polygonLine g d1 d2 d3 a1 a2 a3 sh
  | sphere d1 d2 d3 a1 a2 a3 sh => exact paints_drawSphere g d1 d2 d3 a1 a2 a3 sh
  | bulb1 pre => exact paints_bulb1 g pre
  | bulb2 pre => exact paints_bulb2 g pre

/-- No primitive issues a matrix transformation of its own. -/
theorem transforms_of_prim {g : Globals} {p : List GLCmd} {pre post : Bool}
    (h : Prim g p pre post) : transforms p = 0 := by
  cases h with
  | cube d1 d2 d3 a1 a2 a3 sh pre => exact (counts_drawCube1 d1 d2 d3 a1 a2 a3 sh).2.2.2.1
  | carpet soil d1 d2 d3 a1 a2 a3 sh =>
    exact (counts_drawCarpet soil d1 d2 d3 a1 a2 a3 sh).2.2.2.1
  | trapezoid d1 d2 d3 a1 a2 a3 sh pre =>
    exact (counts_drawTrapezoid g d1 d2 d3 a1 a2 a3 sh).2.2.2.1
  | pyramid d1 d2 d3 a1 a2 a3 sh => exact (counts_drawpyramid d1 d2 d3 a1 a2 a3 sh).2.2.2.1
  | polygon d1 d2 d3 a1 a2 a3 sh => exact (counts_polygon d1 d2 d3 a1 a2 a3 sh).2.2.2.1
  | polygonLine d1 d2 d3 a1 a2 a3 sh =>
    exact (counts_polygonLine d1 d2 d3 a1 a2 a3 sh).2.2.2.1
  | sphere d1 d2 d3 a1 a2 a3 sh => exact (counts_drawSphere d1 d2 d3 a1 a2 a3 sh).2.2.2.1
  | bulb1 pre => cases h : g.switchOne <;> simp [transforms, h]
  | bulb2 pre => cases h : g.switchTwo <;> simp [transforms, h]

/-! ## Drawing: push/pop blocks and assemblies -/

/-- A push/pop block: whatever is painted inside at the current matrix has been
placed by the block's local transform `l`, and the block restores the stack. -/
theorem effect_block {g : Globals} {xs p : List GLCmd} {l : List Xf} {pre post : Bool}
    (hc : pushes xs = 0 ∧ pops xs = 0 ∧ trapCalls xs = 0)
    (hxs : ∀ s : GLState, s.mode = .GL_MODELVIEW →
      run xs s = { s with modelview := { s.modelview with top := s.modelview.top ++ l } })
    (hl : isTRS l = true) (hp : Effect g Draw.drawnAt p pre post) :
    Effect g Draw.placedOn ((.glPushMatrix :: xs) ++ p ++ [.glPopMatrix]) pre post := by
  obtain ⟨cp, hp⟩ := hp
  obtain ⟨hc1, hc2, hc3⟩ := hc
  have e1 : pushes (.glPushMatrix :: xs) = pushes xs + 1 := by simp [pushes]
  have e2 : pops (.glPushMatrix :: xs) = pops xs := by simp [pops]
  have e3 : trapCalls (.glPushMatrix :: xs) = trapCalls xs := by simp [trapCalls]
  have e4 : pops [.glPopMatrix] = 1 := by simp [pops]
  have e5 : pushes [.glPopMatrix] = 0 := by simp [pushes]
  have e6 : trapCalls [.glPopMatrix] = 0 := by simp [trapCalls]
  refine ⟨?_, fun s hm => ?_⟩
  · rw [pushes_append, pushes_append, pops_append, pops_append, e1, e2, e4, e5, hc1, hc2, cp]
    omega
  have hs0 : step s .glPushMatrix =
      { s with modelview := { top := s.modelview.top,
                              below := s.modelview.top :: s.modelview.below } } := by
    simp [step, hm]
  obtain ⟨s1, hs1⟩ : ∃ s1 : GLState, s1 =
      { s with modelview := { top := s.modelview.top ++ l,
                              below := s.modelview.top :: s.modelview.below } } := ⟨_, rfl⟩
  have hA : run (.glPushMatrix :: xs) s = run xs (step s .glPushMatrix) := rfl
  have key : run ((.glPushMatrix :: xs) ++ p ++ [.glPopMatrix]) s =
      run [.glPopMatrix] (run p s1) := by
    have hx := hxs _ (show (step s .glPushMatrix).mode = .GL_MODELVIEW by rw [hs0]; exact hm)
    rw [hs0] at hx
    rw [run_append, run_append, hA, hs0, hx, hs1]
  have hm1 : s1.mode = .GL_MODELVIEW := by rw [hs1]; exact hm
  have m1 : s1.modelview = ⟨s.modelview.top ++ l, s.modelview.top :: s.modelview.below⟩ := by
    rw [hs1]
  have p1 : s1.projection = s.projection := by rw [hs1]
  have a1 : s1.attribs = s.attribs := by rw [hs1]
  have u1 : s1.underflow = s.underflow := by rw [hs1]
  have w1 : s1.lowWater = s.lowWater := by rw [hs1]
  have d1 : s1.drawn = s.drawn := by rw [hs1]
  have q1 : s1.emission = s.emission := by rw [hs1]
  obtain ⟨f1, f2, f3, f4, f5, f6, f7, f8, f9⟩ := hp s1 hm1
  rw [m1] at f2 f6 f8
  rw [p1] at f3
  rw [a1] at f4
  rw [u1] at f5
  rw [w1] at f6
  rw [d1] at f7 f8 f9
  rw [q1] at f9
  rw [key]
  generalize run p s1 = s2 at f1 f2 f3 f4 f5 f6 f7 f8 f9 ⊢
  have hb : s2.modelview.below = s.modelview.top :: s.modelview.below := by rw [f2]
  have hpop : run [.glPopMatrix] s2 =
      { s2 with modelview := s.modelview,
                lowWater := min s2.lowWater s.modelview.depth } := by
    simp [run, step, f1, hb, MatrixStack.depth]
  rw [hpop, trapCalls_append, trapCalls_append, e3, e6, hc3]
  refine ⟨f1, rfl, f3, f4, f5, ?_, by simpa using f7, ?_, fun hpre => ⟨(f9 hpre).1, (f9 hpre).2⟩⟩
  · simp only [MatrixStack.depth, List.length_cons] at f6 ⊢
    refine le_min (le_trans (le_min (min_le_left _ _) ?_) f6) (min_le_right _ _)
    exact le_trans (min_le_right _ _) (Nat.le_succ _)
  · intro d hd
    rcases f8 d hd with h | h
    · exact Or.inl h
    · exact Or.inr ⟨l, h, hl⟩

/-- An assembly, whatever its derivation, has the effect of well-scoped drawing code:
everything it draws is placed by one translate, optional rotate, scale on top of the
entry matrix. -/
theorem effect_of_assembly {g : Globals} {t : List GLCmd} {pre post : Bool}
    (h : Assembly g t pre post) : Effect g Draw.placedOn t pre post := by
  induction h with
  | nil b => exact effect_nil g _ b
  | color r gr bl b => exact effect_color g _ b r gr bl
  | blockTS x y z a b c hp =>
    refine effect_block (l := [.translate x y z, .scale a b c])
      (by simp [pushes, pops, trapCalls]) ?_ rfl (effect_of_prim hp)
    intro s hm
    simp [run, step, GLState.mult, hm]
  | blockTRS x y z angle u v w a b c hp =>
    refine effect_block (l := [.translate x y z, .rotate angle u v w, .scale a b c])
      (by simp [pushes, pops, trapCalls]) ?_ rfl (effect_of_prim hp)
    intro s hm
    simp [run, step, GLState.mult, hm]
  | append _ _ ih1 ih2 => exact effect_append ih1 ih2


/-! ## Drawing: every assembly has the block shape -/

/-- A `forYPos` loop of assemblies is an assembly (and the loop terminates: `forYPos`
is a total function). -/
theorem assembly_forYPos (g : Globals) (b : Bool) (stop : ℚ) (body : ℚ → List GLCmd)
    (hbody : ∀ y, Assembly g (body y) b b) (yPos : ℚ) :
    Assembly g (forYPos yPos stop body) b b := by
  induction yPos, stop, body using forYPos.induct with
  | case1 yPos stop body h ih =>
    rw [forYPos, if_pos h]
    exact Assembly.append (hbody yPos) (ih hbody)
  | case2 yPos stop body h =>
    rw [forYPos, if_neg h]
    exact Assembly.nil b

theorem assembly_cupboard (g : Globals) : Assembly g (cupboard) false true := by
  unfold cupboard
  repeat' first
    | apply Assembly.blockTS
    | apply Assembly.append
    | apply Prim.cube
    | apply Prim.sphere

theorem assembly_room (g : Globals) (env : Env) : Assembly g (room env) false true := by
  unfold room
  repeat' first
    | apply Assembly.blockTS
    | apply Assembly.append
    | apply Prim.cube
    | apply Prim.carpet

theorem assembly_bed (g : Globals) : Assembly g (bed) false true := by
  unfold bed
  repeat' first
    | apply Assembly.blockTS
    | apply Assembly.blockTRS
    | apply Assembly.append
    | apply Prim.cube

theorem assembly_bedsideDrawer (g : Globals) (env : Env) : Assembly g (bedsideDrawer env) false true := by
  unfold bedsideDrawer
  repeat' first
    | apply Assembly.blockTS
    | apply Assembly.append
    | apply Prim.cube
    | apply Prim.sphere

theorem assembly_lamp (g : Globals) : Assembly g (lamp g) false false := by
  unfold lamp
  repeat' first
    | apply Assembly.blockTS
    | apply Assembly.color
    | apply Assembly.append
    | apply Prim.cube
    | apply Prim.trapezoid

theorem assembly_LinkinParkPoster (g : Globals) : Assembly g (LinkinParkPoster) false true := by
  unfold LinkinParkPoster
  repeat' first
    | apply Assembly.blockTS
    | apply Assembly.blockTRS
    | apply Assembly.color
    | apply Assembly.append
    | apply Prim.cube

theorem assembly_dressingTable (g : Globals) : Assembly g (dressingTable) false true := by
  unfold dressingTable
  repeat' first
    | apply Assembly.blockTS
    | apply Assembly.color
    | apply Assembly.append
    | apply Prim.cube
    | apply Prim.polygon
    | apply Prim.polygonLine

theorem assembly_wallshelf (g : Globals) : Assembly g (wallshelf) false true := by
  unfold wallshelf
  repeat' first
    | apply Assembly.blockTS
    | apply Assembly.color
    | apply Assembly.append
    | apply Prim.cube
    | apply Prim.pyramid

theorem assembly_Clock (g : Globals) : Assembly g (Clock g) false true := by
  unfold Clock
  repeat' first
    | apply Assembly.blockTS
    | apply Assembly.blockTRS
    | apply Assembly.color
    | apply Assembly.append
    | apply Prim.cube
    | apply Prim.pyramid
    | apply Prim.sphere

theorem assembly_window (g : Globals) : Assembly g (window) false true := by
  unfold window
  repeat' first
    | apply Assembly.blockTS
    | apply Assembly.append
    | apply Prim.cube

theorem assembly_sphericalObject (g : Globals) : Assembly g (sphericalObject) true true := by
  unfold sphericalObject
  repeat' first
    | apply Assembly.blockTS
    | apply Assembly.color
    | apply Assembly.append
    | apply Prim.cube
    | apply Prim.sphere

theorem assembly_lightBulb1 (g : Globals) : Assembly g (lightBulb1 g) false false := by
  unfold lightBulb1
  repeat' first
    | apply Assembly.blockTS
    | apply Prim.bulb1

theorem assembly_lightBulb2 (g : Globals) : Assembly g (lightBulb2 g) false false := by
  unfold lightBulb2
  repeat' first
    | apply Assembly.blockTS
    | apply Prim.bulb2

theorem assembly_wardrobe (g : Globals) : Assembly g wardrobe false true := by
  unfold wardrobe
  apply Assembly.append
  · apply Assembly.append
    · apply Assembly.append
      · exact Assembly.blockTS _ _ _ _ _ _ (Prim.cube _ _ _ _ _ _ _ false)
      · exact assembly_forYPos g true _ _
          (fun y => Assembly.blockTS _ _ _ _ _ _ (Prim.cube _ _ _ _ _ _ _ true)) _
    · exact Assembly.color _ _ _ true
  · exact assembly_forYPos g true _ _
      (fun y => Assembly.blockTS _ _ _ _ _ _ (Prim.cube _ _ _ _ _ _ _ true)) _

/-! ## Drawing: the light routines and the whole frame -/

/-- Code that does not rely on a dark emission can be used where one holds. -/
theorem effect_weaken_pre {g : Globals} {Q : List Xf → Draw → Prop} {t : List GLCmd}
    {post : Bool} (pre : Bool) (h : Effect g Q t false post) : Effect g Q t pre post := by
  refine ⟨h.1, fun s hm => ?_⟩
  obtain ⟨a1, a2, a3, a4, a5, a6, a7, a8, a9⟩ := h.2 s hm
  exact ⟨a1, a2, a3, a4, a5, a6, a7, a8, fun _ => a9 (fun hf => absurd hf (by decide))⟩

theorem run_lightOne (g : Globals) (s : GLState) (hm : s.mode = .GL_MODELVIEW) :
    run (lightOne g) s = { s with lowWater := min s.lowWater s.modelview.depth } := by
  cases h1 : g.amb1 <;> cases h2 : g.diff1 <;> cases h3 : g.spec1 <;>
    simp [lightOne, run, step, hm, h1, h2, h3, MatrixStack.depth]

theorem run_lightTwo (g : Globals) (s : GLState) (hm : s.mode = .GL_MODELVIEW) :
    run (lightTwo g) s = { s with lowWater := min s.lowWater s.modelview.depth } := by
  cases h1 : g.amb2 <;> cases h2 : g.diff2 <;> cases h3 : g.spec2 <;>
    simp [lightTwo, run, step, hm, h1, h2, h3, MatrixStack.depth]

theorem run_lampLight (g : Globals) (s : GLState) (hm : s.mode = .GL_MODELVIEW) :
    run (lampLight g) s = { s with lowWater := min s.lowWater s.modelview.depth } := by
  cases h1 : g.amb3 <;> cases h2 : g.diff3 <;> cases h3 : g.spec3 <;>
    simp [lampLight, run, step, hm, h1, h2, h3, MatrixStack.depth]

theorem counts_lightOne (g : Globals) :
    pushes (lightOne g) = 1 ∧ pops (lightOne g) = 1 ∧ trapCalls (lightOne g) = 0 := by
  cases h1 : g.amb1 <;> cases h2 : g.diff1 <;> cases h3 : g.spec1 <;>
    simp [lightOne, pushes, pops, trapCalls, h1, h2, h3]

theorem counts_lightTwo (g : Globals) :
    pushes (lightTwo g) = 1 ∧ pops (lightTwo g) = 1 ∧ trapCalls (lightTwo g) = 0 := by
  cases h1 : g.amb2 <;> cases h2 : g.diff2 <;> cases h3 : g.spec2 <;>
    simp [lightTwo, pushes, pops, trapCalls, h1, h2, h3]

theorem counts_lampLight (g : Globals) :
    pushes (lampLight g) = 1 ∧ pops (lampLight g) = 1 ∧ trapCalls (lampLight g) = 0 := by
  cases h1 : g.amb3 <;> cases h2 : g.diff3 <;> cases h3 : g.spec3 <;>
    simp [lampLight, pushes, pops, trapCalls, h1, h2, h3]

/-- Code that only pushes and pops once around calls that leave the state alone. -/
theorem effect_of_run_eq {g : Globals} {Q : List Xf → Draw → Prop} {t : List GLCmd}
    (hc : pushes t = 1 ∧ pops t = 1 ∧ trapCalls t = 0)
    (hrun : ∀ s : GLState, s.mode = .GL_MODELVIEW →
      run t s = { s with lowWater := min s.lowWater s.modelview.depth })
    (b : Bool) : Effect g Q t b b := by
  refine ⟨by rw [hc.1, hc.2.1], fun s hm => ?_⟩
  rw [hrun s hm, hc.2.2]
  exact ⟨hm, rfl, rfl, rfl, rfl, le_refl _, rfl, fun d hd => Or.inl hd,
    fun hp => ⟨hp, fun d hd => Or.inl hd⟩⟩

theorem effect_lightOne (g : Globals) (b : Bool) :
    Effect g Draw.placedOn (lightOne g) b b :=
  effect_of_run_eq (counts_lightOne g) (run_lightOne g) b

theorem effect_lightTwo (g : Globals) (b : Bool) :
    Effect g Draw.placedOn (lightTwo g) b b :=
  effect_of_run_eq (counts_lightTwo g) (run_lightTwo g) b

theorem effect_lampLight (g : Globals) (b : Bool) :
    Effect g Draw.placedOn (lampLight g) b b :=
  effect_of_run_eq (counts_lampLight g) (run_lampLight g) b

/-- Each routine `display` calls is well-scoped drawing code. -/
theorem effect_of_sceneRoutine (env : Env) (g : Globals) (r : List GLCmd)
    (hr : r ∈ sceneRoutines env g) : ∃ pre post, Effect g Draw.placedOn r pre post := by
  simp only [sceneRoutines, List.mem_cons, List.mem_singleton, List.not_mem_nil,
    or_false] at hr
  rcases hr with h | h | h | h | h | h | h | h | h | h | h | h | h | h | h | h | h <;> subst h
  · exact ⟨_, _, effect_lightOne g false⟩
  · exact ⟨_, _, effect_lightTwo g false⟩
  · exact ⟨_, _, effect_lampLight g false⟩
  · exact ⟨_, _, effect_of_assembly (assembly_room g env)⟩
  · exact ⟨_, _, effect_of_assembly (assembly_bed g)⟩
  · exact ⟨_, _, effect_of_assembly (assembly_bedsideDrawer g env)⟩
  · exact ⟨_, _, effect_of_assembly (assembly_lamp g)⟩
  · exact ⟨_, _, effect_of_assembly (assembly_LinkinParkPoster g)⟩
  · exact ⟨_, _, effect_of_assembly (assembly_wallshelf g)⟩
  · exact ⟨_, _, effect_of_assembly (assembly_wardrobe g)⟩
  · exact ⟨_, _, effect_of_assembly (assembly_cupboard g)⟩
  · exact ⟨_, _, effect_of_assembly (assembly_dressingTable g)⟩
  · exact ⟨_, _, effect_of_assembly (assembly_Clock g)⟩
  · exact ⟨_, _, effect_of_assembly (assembly_window g)⟩
  · exact ⟨_, _, effect_of_assembly (assembly_sphericalObject g)⟩
  · exact ⟨_, _, effect_of_assembly (assembly_lightBulb1 g)⟩
  · exact ⟨_, _, effect_of_assembly (assembly_lightBulb2 g)⟩

/-- The routines of one frame in sequence: every routine that relies on a dark
emission is entered with one. -/
theorem effect_scene (env : Env) (g : Globals) :
    Effect g Draw.placedOn (sceneRoutines env g).flatten false false := by
  simp only [sceneRoutines, List.flatten]
  exact
    effect_append (effect_lightOne g false) <|
    effect_append (effect_lightTwo g false) <|
    effect_append (effect_lampLight g false) <|
    effect_append (effect_of_assembly (assembly_room g env)) <|
    effect_append (effect_weaken_pre true (effect_of_assembly (assembly_bed g))) <|
    effect_append (effect_weaken_pre true (effect_of_assembly (assembly_bedsideDrawer g env))) <|
    effect_append (effect_weaken_pre true (effect_of_assembly (assembly_lamp g))) <|
    effect_append (effect_of_assembly (assembly_LinkinParkPoster g)) <|
    effect_append (effect_weaken_pre true (effect_of_assembly (assembly_wallshelf g))) <|
    effect_append (effect_weaken_pre true (effect_of_assembly (assembly_wardrobe g))) <|
    effect_append (effect_weaken_pre true (effect_of_assembly (assembly_cupboard g))) <|
    effect_append (effect_weaken_pre true (effect_of_assembly (assembly_dressingTable g))) <|
    effect_append (effect_weaken_pre true (effect_of_assembly (assembly_Clock g))) <|
    effect_append (effect_weaken_pre true (effect_of_assembly (assembly_window g))) <|
    effect_append (effect_of_assembly (assembly_sphericalObject g)) <|
    effect_append (effect_weaken_pre true (effect_of_assembly (assembly_lightBulb1 g))) <|
    effect_append (effect_of_assembly (assembly_lightBulb2 g)) <|
    effect_nil g _ false

theorem trapCalls_forYPos (stop : ℚ) (body : ℚ → List GLCmd)
    (hbody : ∀ y, trapCalls (body y) = 0) (yPos : ℚ) :
    trapCalls (forYPos yPos stop body) = 0 := by
  induction yPos, stop, body using forYPos.induct with
  | case1 yPos stop body h ih =>
    rw [forYPos, if_pos h, trapCalls_append, hbody, ih hbody]
  | case2 yPos stop body h =>
    rw [forYPos, if_neg h]
    rfl

theorem trapCalls_cons_of_not_enter (c : GLCmd) (t : List GLCmd)
    (hc : ∀ r, c ≠ .enter r) : trapCalls (c :: t) = trapCalls t := by
  cases c <;> first | rfl | exact absurd rfl (hc _)

/-- One frame calls `drawTrapezoid` exactly once (for the lamp shade). -/
theorem trapCalls_scene (env : Env) (g : Globals) :
    trapCalls (sceneRoutines env g).flatten = 1 := by
  have hb1 : trapCalls (lightBulb1 g) = 0 := by
    cases h : g.switchOne <;> simp [lightBulb1, trapCalls, h]
  have hb2 : trapCalls (lightBulb2 g) = 0 := by
    cases h : g.switchTwo <;> simp [lightBulb2, trapCalls, h]
  have h3 : ∀ x y z a b c : ℚ,
      trapCalls [.glPushMatrix, .glTranslatef x y z, .glScalef a b c] = 0 := by
    intros; rfl
  have h4 : ∀ x y z an u v w a b c : ℚ,
      trapCalls [.glPushMatrix, .glTranslatef x y z, .glRotatef an u v w, .glScalef a b c] = 0 := by
    intros; rfl
  have h5 : trapCalls [.glPopMatrix] = 0 := rfl
  have h6 : ∀ r gr bl : ℚ, trapCalls [.glColor3f r gr bl] = 0 := by
    intros; rfl
  have hc := fun d1 d2 d3 a1 a2 a3 sh => (counts_drawCube1 d1 d2 d3 a1 a2 a3 sh).2.2.1
  have hs := fun d1 d2 d3 a1 a2 a3 sh => (counts_drawSphere d1 d2 d3 a1 a2 a3 sh).2.2.1
  have hp := fun d1 d2 d3 a1 a2 a3 sh => (counts_drawpyramid d1 d2 d3 a1 a2 a3 sh).2.2.1
  have hg := fun d1 d2 d3 a1 a2 a3 sh => (counts_polygon d1 d2 d3 a1 a2 a3 sh).2.2.1
  have hl := fun d1 d2 d3 a1 a2 a3 sh => (counts_polygonLine d1 d2 d3 a1 a2 a3 sh).2.2.1
  have hk := fun so d1 d2 d3 a1 a2 a3 sh => (counts_drawCarpet so d1 d2 d3 a1 a2 a3 sh).2.2.1
  have ht := fun d1 d2 d3 a1 a2 a3 sh => (counts_drawTrapezoid g d1 d2 d3 a1 a2 a3 sh).2.2.1
  have hw : trapCalls wardrobe = 0 := by
    unfold wardrobe
    simp only [trapCalls_append, h3, h5, h6, hc]
    rw [trapCalls_forYPos, trapCalls_forYPos]
    · intro y
      simp only [trapCalls_append, h3, h5, hc]
    · intro y
      simp only [trapCalls_append, h3, h5, hc]
  simp only [sceneRoutines, List.flatten, trapCalls_append, (counts_lightOne g).2.2,
    (counts_lightTwo g).2.2, (counts_lampLight g).2.2, hb1, hb2, hw]
  simp only [room, bed, bedsideDrawer, lamp, LinkinParkPoster, wallshelf, cupboard,
    dressingTable, Clock, window, sphericalObject, trapCalls_append, h3, h4, h5, h6, hc, hs,
    hp, hg, hl, hk, ht]
  rfl

/-- What the first eight calls of `display` leave behind: modelview mode, the
projection `perspective(60, 1, 1, 100)`, and the view matrix of the camera. -/
theorem run_displayPrologue (g : Globals) (s : GLState) :
    run (displayPrologue g) s =
      { s with mode := .GL_MODELVIEW,
               modelview := { s.modelview with
                 top := [.lookAt g.eyeX g.eyeY g.eyeZ g.refX g.refY g.refZ 0 1 0] },
               projection := { s.projection with top := [.perspective 60 1 1 100] } } := by
  simp [displayPrologue, run, step, GLState.mult]

theorem run_displayEpilogue (s : GLState) : run displayEpilogue s = s := rfl


/-- The geometry of a frame: each piece is placed by translate, optional rotate, scale
on top of the view matrix and has an allowed emission; one piece is a trapezoid. -/
theorem frame_draws (env : Env) (g : Globals) (s : GLState) :
    (∀ d ∈ (frame env g s).drawn,
      d.placedOn [.lookAt g.eyeX g.eyeY g.eyeZ g.refX g.refY g.refZ 0 1 0] ∧
      d.emissionOk g) ∧
    trapCount (frame env g s).drawn = 1 := by
  obtain ⟨-, h⟩ := effect_scene env g
  unfold frame display
  rw [run_append, run_append, run_displayPrologue, run_displayEpilogue]
  obtain ⟨-, -, -, -, -, -, h7, h8, h9⟩ := h
    { s with mode := .GL_MODELVIEW,
             modelview := { s.modelview with
               top := [.lookAt g.eyeX g.eyeY g.eyeZ g.refX g.refY g.refZ 0 1 0] },
             projection := { s.projection with top := [.perspective 60 1 1 100] },
             drawn := [] } rfl
  refine ⟨fun d hd => ⟨?_, ?_⟩, ?_⟩
  · rcases h8 d hd with h | h
    · exact absurd h (List.not_mem_nil d)
    · exact h
  · rcases (h9 (fun hf => absurd hf (by decide))).2 d hd with h | h
    · exact absurd h (List.not_mem_nil d)
    · exact h
  · rw [h7, trapCalls_scene]
    rfl

theorem scoped_of_effect {g : Globals} {Q : List Xf → Draw → Prop} {r : List GLCmd}
    {pre post : Bool} (h : Effect g Q r pre post) (s : GLState)
    (hm : s.mode = .GL_MODELVIEW) :
    pushes r = pops r ∧
    (run r s).modelview = s.modelview ∧
    (run r s).underflow = s.underflow ∧
    s.modelview.depth ≤ (run r { s with lowWater := s.modelview.depth }).lowWater := by
  obtain ⟨a1, a2, a3, a4, a5, a6, a7, a8, a9⟩ := h.2 s hm
  obtain ⟨b1, b2, b3, b4, b5, b6, b7, b8, b9⟩ :=
    h.2 { s with lowWater := s.modelview.depth } hm
  refine ⟨h.1, a2, a5, ?_⟩
  have e : s.modelview.depth = min s.modelview.depth s.modelview.depth := (min_self _).symm
  exact le_trans (le_of_eq e) b6

/-- C12: for every scene state, each of the seventeen routines `display` calls (the
three light routines, the twelve furniture assemblies, the two bulbs), and `drawCarpet`
with its nested push, entered in modelview mode with any GL state: issues as many
`glPushMatrix` as `glPopMatrix`; leaves the modelview stack exactly as it was (same
depth, same current transform, same saved matrices); causes no stack underflow; and,
with the low-water mark set to the entry depth, never takes the stack below that depth. -/
theorem transform_scoping (env : Env) (g : Globals) (r : List GLCmd)
    (hr : r ∈ sceneRoutines env g ∨ r = drawCarpet env.soil 0.4 0.1 0.0 0.20 0.05 0.0 50)
    (s : GLState) (hm : s.mode = .GL_MODELVIEW) :
    pushes r = pops r ∧
    (run r s).modelview.depth = s.modelview.depth ∧
    (run r s).modelview.top = s.modelview.top ∧
    (run r s).modelview = s.modelview ∧
    (run r s).underflow = s.underflow ∧
    s.modelview.depth ≤ (run r { s with lowWater := s.modelview.depth }).lowWater := by
  have key : pushes r = pops r ∧ (run r s).modelview = s.modelview ∧
      (run r s).underflow = s.underflow ∧
      s.modelview.depth ≤ (run r { s with lowWater := s.modelview.depth }).lowWater := by
    rcases hr with hr | hr
    · obtain ⟨pre, post, h⟩ := effect_of_sceneRoutine env g r hr
      exact scoped_of_effect h s hm
    · subst hr
      exact scoped_of_effect (paints_drawCarpet g env.soil _ _ _ _ _ _ _ false) s hm
  obtain ⟨k1, k2, k3, k4⟩ := key
  exact ⟨k1, by rw [k2], by rw [k2], k2, k3, k4⟩

/-- Witness for C12: the bed, in the initial scene state, entered in a fresh GL state. -/
theorem transform_scoping_witness :
    pushes bed = pops bed ∧
    (run bed GLState.initial).modelview.depth = GLState.initial.modelview.depth ∧
    (run bed GLState.initial).modelview.top = GLState.initial.modelview.top ∧
    (run bed GLState.initial).modelview = GLState.initial.modelview ∧
    (run bed GLState.initial).underflow = GLState.initial.underflow ∧
    GLState.initial.modelview.depth ≤
      (run bed { GLState.initial with lowWater := GLState.initial.modelview.depth }).lowWater :=
  transform_scoping { soil := 0, knobShine := 50 } Globals.initial bed
    (Or.inl (by simp [sceneRoutines])) GLState.initial rfl

/-- C13: in every scene state and GL state, `lightBulb1` sends exactly one piece of
geometry, its sphere, with emission colour `(1, 1, 1)` when `switchOne` is set and
`(0, 0, 0)` otherwise, and `lightBulb2` does the same with `switchTwo`; the calls a bulb
routine issues depend on no other global than its switch. -/
theorem bulb_emission (g : Globals) (s : GLState) :
    (∃ d, (run (lightBulb1 g) s).drawn = d :: s.drawn ∧ d.routine = .lightBulb1 ∧
      rgb d.emission = if g.switchOne = true then [1, 1, 1] else [0, 0, 0]) ∧
    (∃ d, (run (lightBulb2 g) s).drawn = d :: s.drawn ∧ d.routine = .lightBulb2 ∧
      rgb d.emission = if g.switchTwo = true then [1, 1, 1] else [0, 0, 0]) ∧
    (∀ g2 : Globals, g2.switchOne = g.switchOne → lightBulb1 g2 = lightBulb1 g) ∧
    (∀ g2 : Globals, g2.switchTwo = g.switchTwo → lightBulb2 g2 = lightBulb2 g) := by
  refine ⟨?_, ?_, ?_, ?_⟩
  · cases hm : s.mode <;> cases h : g.switchOne <;>
      simp [lightBulb1, run, step, GLState.mult, hm, h] <;>
      norm_num [rgb, no_mat]
  · cases hm : s.mode <;> cases h : g.switchTwo <;>
      simp [lightBulb2, run, step, GLState.mult, hm, h] <;>
      norm_num [rgb, no_mat]
  · intro g2 h
    simp only [lightBulb1, h]
  · intro g2 h
    simp only [lightBulb2, h]


/-- C14: in every display pass, for every scene state and every GL state left by what
came before, each piece of geometry of the frame is either a bulb sphere (white exactly
when its switch is set), or the trapezoid, whose emission is its diffuse colour when
`switchLamp` is set and zero otherwise, or is sent by one of the other six routines
while the current emission is zero; the frame has exactly one trapezoid (the lamp
shade); and `drawSphere`, `drawpyramid`, `polygon`, `polygonLine` issue no call that
sets the emission. -/
theorem emission_only_shade_and_bulbs (env : Env) (g : Globals) (s : GLState) :
    (∀ d ∈ (frame env g s).drawn,
      (d.routine = .lightBulb1 ∧
        rgb d.emission = if g.switchOne = true then [1, 1, 1] else [0, 0, 0]) ∨
      (d.routine = .lightBulb2 ∧
        rgb d.emission = if g.switchTwo = true then [1, 1, 1] else [0, 0, 0]) ∨
      (d.routine = .drawTrapezoid ∧
        rgb d.emission = if g.switchLamp = true then rgb d.diffuse else [0, 0, 0]) ∨
      (d.routine ∈ [Routine.drawCube1, .drawCarpet, .drawSphere, .drawpyramid, .polygon,
          .polygonLine] ∧ rgb d.emission = [0, 0, 0])) ∧
    trapCount (frame env g s).drawn = 1 ∧
    trapCalls (lamp g) = 1 ∧
    (∀ d1 d2 d3 a1 a2 a3 sh : ℚ,
      emissionCalls (drawSphere d1 d2 d3 a1 a2 a3 sh) = 0 ∧
      emissionCalls (drawpyramid d1 d2 d3 a1 a2 a3 sh) = 0 ∧
      emissionCalls (polygon d1 d2 d3 a1 a2 a3 sh) = 0 ∧
      emissionCalls (polygonLine d1 d2 d3 a1 a2 a3 sh) = 0) := by
  obtain ⟨h1, h2⟩ := frame_draws env g s
  refine ⟨fun d hd => ?_, h2, ?_, ?_⟩
  · have h := (h1 d hd).2
    unfold Draw.emissionOk at h
    cases hr : d.routine <;> simp only [hr] at h <;> simp [h]
  · have ht := fun d1 d2 d3 a1 a2 a3 sh => (counts_drawTrapezoid g d1 d2 d3 a1 a2 a3 sh).2.2.1
    have hc := fun d1 d2 d3 a1 a2 a3 sh => (counts_drawCube1 d1 d2 d3 a1 a2 a3 sh).2.2.1
    simp only [lamp, trapCalls_append, ht, hc]
    rfl
  · intro d1 d2 d3 a1 a2 a3 sh
    simp [emissionCalls, drawSphere, drawpyramid, polygon, polygonLine, setMaterial,
      List.range, List.range.loop, List.flatMap, getNormal3p, glVertex3fv]

/-- C16, refuted as stated: the push/pop block that `drawCarpet` opens (its second call
is `glPushMatrix`, its last `glPopMatrix`, and these are its only push and pop) sends
geometry, the carpet's faces, and contains no `glTranslatef`, `glRotatef` or `glScalef`
at all. -/
theorem carpet_block_has_no_transform :
    (drawCarpet 0 0.4 0.1 0.0 0.20 0.05 0.0 50)[1]? = some .glPushMatrix ∧
    (drawCarpet 0 0.4 0.1 0.0 0.20 0.05 0.0 50).getLast? = some .glPopMatrix ∧
    pushes (drawCarpet 0 0.4 0.1 0.0 0.20 0.05 0.0 50) = 1 ∧
    pops (drawCarpet 0 0.4 0.1 0.0 0.20 0.05 0.0 50) = 1 ∧
    geometry (drawCarpet 0 0.4 0.1 0.0 0.20 0.05 0.0 50) = 1 ∧
    transforms (drawCarpet 0 0.4 0.1 0.0 0.20 0.05 0.0 50) = 0 := by
  obtain ⟨c1, c2, -, c4, c5⟩ := counts_drawCarpet 0 0.4 0.1 0.0 0.20 0.05 0.0 50
  refine ⟨?_, ?_, c1, c2, c5, c4⟩
  · simp [drawCarpet]
  · simp [drawCarpet, loadTexture, setMaterial, List.range, List.range.loop, List.flatMap,
      List.getLast?_cons_cons]

/-- C16, amended: every routine of a frame that draws (the twelve furniture assemblies
and the two bulbs) is a sequence of `glColor3f` calls and push/pop blocks in which each
block is `glPushMatrix`, exactly one `glTranslatef`, at most one `glRotatef`, exactly
one `glScalef`, the calls of one primitive, `glPopMatrix`; no primitive issues a
transformation of its own (the push/pop block nested inside `drawCarpet` contains
none); hence every piece of geometry of a frame is drawn under the view matrix followed
by translate, optional rotate, scale, in this order. -/
theorem local_transform_order (env : Env) (g : Globals) :
    (∀ r ∈ (sceneRoutines env g).drop 3, ∃ pre post, Assembly g r pre post) ∧
    (∀ p pre post, Prim g p pre post → transforms p = 0) ∧
    (∀ s : GLState, ∀ d ∈ (frame env g s).drawn,
      ∃ l, d.matrix = [.lookAt g.eyeX g.eyeY g.eyeZ g.refX g.refY g.refZ 0 1 0] ++ l ∧
        isTRS l = true) := by
  refine ⟨fun r hr => ?_, fun p pre post h => transforms_of_prim h,
    fun s d hd => ((frame_draws env g s).1 d hd).1⟩
  simp only [sceneRoutines, List.drop_succ_cons, List.drop_zero, List.mem_cons,
    List.mem_singleton, List.not_mem_nil, or_false] at hr
  rcases hr with h | h | h | h | h | h | h | h | h | h | h | h | h | h <;> subst h
  · exact ⟨_, _, assembly_room g env⟩
  · exact ⟨_, _, assembly_bed g⟩
  · exact ⟨_, _, assembly_bedsideDrawer g env⟩
  · exact ⟨_, _, assembly_lamp g⟩
  · exact ⟨_, _, assembly_LinkinParkPoster g⟩
  · exact ⟨_, _, assembly_wallshelf g⟩
  · exact ⟨_, _, assembly_wardrobe g⟩
  · exact ⟨_, _, assembly_cupboard g⟩
  · exact ⟨_, _, assembly_dressingTable g⟩
  · exact ⟨_, _, assembly_Clock g⟩
  · exact ⟨_, _, assembly_window g⟩
  · exact ⟨_, _, assembly_sphericalObject g⟩
  · exact ⟨_, _, assembly_lightBulb1 g⟩
  · exact ⟨_, _, assembly_lightBulb2 g⟩

theorem same_pendulum_animate (a b : World) (h1 : a.g.theta = b.g.theta)
    (h2 : a.g.z = b.g.z) (h3 : a.g.redFlag = b.g.redFlag) :
    (animate a).g.theta = (animate b).g.theta ∧ (animate a).g.z = (animate b).g.z ∧
    (animate a).g.redFlag = (animate b).g.redFlag := by
  simp only [animate_theta, animate_z, animate_redFlag, h1, h2, h3, and_self]

theorem same_pendulum_ticks (n : Nat) (a b : World) (h1 : a.g.theta = b.g.theta)
    (h2 : a.g.z = b.g.z) (h3 : a.g.redFlag = b.g.redFlag) :
    (ticks n a).g.theta = (ticks n b).g.theta ∧ (ticks n a).g.z = (ticks n b).g.z ∧
    (ticks n a).g.redFlag = (ticks n b).g.redFlag := by
  induction n generalizing a b with
  | zero => exact ⟨h1, h2, h3⟩
  | succ m ih =>
    obtain ⟨k1, k2, k3⟩ := same_pendulum_animate a b h1 h2 h3
    exact ih (animate a) (animate b) k1 k2 k3

/-- C18: two scene states that differ only in `y` give the same command stream for a
display pass, hence the same frame (the clock's calls depend on `theta` and `z` only),
and after any number of ticks they agree on `theta`, `z` and `redFlag`. -/
theorem y_is_dead_state (env : Env) (g : Globals) (y2 : ℚ) (w : World) (n : Nat) :
    display env { g with y := y2 } = display env g ∧
    (∀ s : GLState, frame env { g with y := y2 } s = frame env g s) ∧
    (∀ g2 : Globals, g2.theta = g.theta → g2.z = g.z → Clock g2 = Clock g) ∧
    (ticks n { w with g := { w.g with y := y2 } }).g.theta = (ticks n w).g.theta ∧
    (ticks n { w with g := { w.g with y := y2 } }).g.z = (ticks n w).g.z ∧
    (ticks n { w with g := { w.g with y := y2 } }).g.redFlag = (ticks n w).g.redFlag := by
  refine ⟨rfl, fun s => rfl, fun g2 h1 h2 => ?_,
    same_pendulum_ticks n { w with g := { w.g with y := y2 } } w rfl rfl rfl⟩
  simp only [Clock, h1, h2]


/-! ## Geometry: the mirror polygon as a set of points, and table bounds -/

theorem vertices2_polygonLine (d1 d2 d3 a1 a2 a3 sh e1 e2 e3 b1 b2 b3 th : ℚ) :
    vertices2 (polygonLine d1 d2 d3 a1 a2 a3 sh) =
      (vertices2 (polygon e1 e2 e3 b1 b2 b3 th)).rotate 1 := by
  simp [vertices2, polygon, polygonLine, setMaterial, List.rotate, List.filterMap]

/-- C21: the outline's emitted points are a permutation of the fill's emitted points,
eleven each, whatever the material arguments: no point is added, dropped or altered. -/
theorem outline_points_perm_fill (d1 d2 d3 a1 a2 a3 sh e1 e2 e3 b1 b2 b3 th : ℚ) :
    List.Perm (vertices2 (polygonLine d1 d2 d3 a1 a2 a3 sh))
      (vertices2 (polygon e1 e2 e3 b1 b2 b3 th)) ∧
    (vertices2 (polygonLine d1 d2 d3 a1 a2 a3 sh)).length = 11 ∧
    (vertices2 (polygon e1 e2 e3 b1 b2 b3 th)).length = 11 := by
  refine ⟨?_, ?_, ?_⟩
  · rw [vertices2_polygonLine d1 d2 d3 a1 a2 a3 sh e1 e2 e3 b1 b2 b3 th]
    exact List.rotate_perm _ _
  · simp [vertices2, polygonLine, setMaterial, List.filterMap]
  · simp [vertices2, polygon, setMaterial, List.filterMap]

theorem fullScreen_eq (w h : Int) :
    fullScreen w h =
      some [.glMatrixMode .GL_PROJECTION,
            .glLoadIdentity,
            .glViewport 0 0 w (if h = 0 then 1 else h),
            .gluPerspective 60 ((w : ℚ) / ((if h = 0 then 1 else h : Int) : ℚ)) 1 500,
            .glMatrixMode .GL_MODELVIEW] := by
  by_cases hh : h = 0
  · subst hh
    simp [fullScreen, divGLfloat]
  · have hq : (h : ℚ) ≠ 0 := by exact_mod_cast hh
    simp [fullScreen, divGLfloat, hh, hq]

theorem run_fullScreen (w h : Int) (t : List GLCmd) (ht : fullScreen w h = some t)
    (s : GLState) :
    run t s =
      { s with mode := .GL_MODELVIEW,
               projection := { s.projection with
                 top := [.perspective 60 ((w : ℚ) / ((if h = 0 then 1 else h : Int) : ℚ))
                          1 500] } } := by
  rw [fullScreen_eq] at ht
  cases ht
  simp [run, step, GLState.mult]

theorem animate_frame (w : World) :
    eye (animate w) = eye w ∧ refPoint (animate w) = refPoint w ∧
    lightBooleans (animate w) = lightBooleans w ∧ lightUnits (animate w) = lightUnits w := by
  cases h : w.g.redFlag <;>
    simp only [animate, glutPostRedisplay, h, if_true, if_false, Bool.false_eq_true]
  all_goals (rw [yBands_frame]; split_ifs <;> exact ⟨rfl, rfl, rfl, rfl⟩)

theorem keyboard_keeps_pendulum (key : Nat) (x y : Int) (w : World) :
    pendulum (myKeyboardFunc key x y w).world = pendulum w := by
  by_cases hr : key ∈ recognisedKeys
  · simp only [recognisedKeys, List.mem_cons, List.mem_singleton, List.not_mem_nil,
      or_false] at hr
    rcases hr with h | h | h | h | h | h | h | h | h | h | h | h | h | h | h | h | h | h | h |
      h | h | h | h | h | h | h <;> subst h
    all_goals
      (simp only [key_w, key_s, key_a, key_d, key_o, key_i, key_q, key_j, key_n, key_b, key_m,
          key_k, key_l, key_1, key_2, key_3, key_4, key_5, key_6, key_7, key_8, key_9, key_e,
          key_r, key_t, key_escape]
       try split_ifs
       all_goals rfl)
  · rw [key_other key hr]
    rfl

/-- C24: for every key the keyboard callback leaves `theta`, `y`, `z` and `redFlag` as
they were; an idle tick leaves the eye, the reference point, the twelve light booleans
and the three light units as they were; a display pass returns the world it was given,
so camera, light and pendulum fields are unchanged. -/
theorem state_ownership (env : Env) (key : Nat) (x y : Int) (w : World) (s : GLState) :
    pendulum (myKeyboardFunc key x y w).world = pendulum w ∧
    (eye (animate w) = eye w ∧ refPoint (animate w) = refPoint w ∧
      lightBooleans (animate w) = lightBooleans w ∧ lightUnits (animate w) = lightUnits w) ∧
    ((displayCallback env w s).1 = w ∧
      eye (displayCallback env w s).1 = eye w ∧
      refPoint (displayCallback env w s).1 = refPoint w ∧
      lightBooleans (displayCallback env w s).1 = lightBooleans w ∧
      lightUnits (displayCallback env w s).1 = lightUnits w ∧
      pendulum (displayCallback env w s).1 = pendulum w) :=
  ⟨keyboard_keeps_pendulum key x y w, animate_frame w, rfl, rfl, rfl, rfl, rfl, rfl⟩

/-! ## Pendulum: depth and the off-grid start -/

/-- C25: from a start with `theta = 180`, `redFlag` set and `z = 7.97888` (the initial
state), after any number of ticks `z = 7.97888 - (theta - 180) / 100`, and `z` lies in
`[7.67888, 8.27888]`. -/
theorem depth_affine_in_theta (w : World) (h1 : w.g.theta = 180) (h2 : w.g.redFlag = true)
    (h3 : w.g.z = 7.97888) (n : Nat) :
    (ticks n w).g.z = 7.97888 - ((ticks n w).g.theta - 180) / 100 ∧
    7.67888 ≤ (ticks n w).g.z ∧ (ticks n w).g.z ≤ 8.27888 := by
  have hd := ticks_depth w n
  rw [h1, h3] at hd
  have hw := (onWave_ticks w (onWave_start w h1 h2) n).1
  have hb := triangleWave_bounds (n % 60) (Nat.mod_lt n (by norm_num))
  rw [← hw] at hb
  have hz : (ticks n w).g.z = 7.97888 - ((ticks n w).g.theta - 180) / 100 := by
    linarith
  refine ⟨hz, ?_, ?_⟩
  · rw [hz]
    norm_num
    linarith [hb.2]
  · rw [hz]
    norm_num
    linarith [hb.1]

theorem depth_affine_in_theta_witness :
    World.initial.g.theta = 180 ∧ World.initial.g.redFlag = true ∧
    World.initial.g.z = 7.97888 ∧
    ((ticks 30 World.initial).g.z =
        7.97888 - ((ticks 30 World.initial).g.theta - 180) / 100 ∧
      7.67888 ≤ (ticks 30 World.initial).g.z ∧ (ticks 30 World.initial).g.z ≤ 8.27888) :=
  ⟨initial_theta, initial_redFlag, by norm_num [World.initial, Globals.initial],
    depth_affine_in_theta World.initial initial_theta initial_redFlag
      (by norm_num [World.initial, Globals.initial]) 30⟩

theorem keyboard_keeps_lights_in_step (key : Nat) (x y : Int) (w : World)
    (h : LightsFollowSwitches w) : LightsFollowSwitches (myKeyboardFunc key x y w).world := by
  obtain ⟨h0, h1, h2⟩ := h
  by_cases hr : key ∈ recognisedKeys
  · simp only [recognisedKeys, List.mem_cons, List.mem_singleton, List.not_mem_nil,
      or_false] at hr
    rcases hr with h | h | h | h | h | h | h | h | h | h | h | h | h | h | h | h | h | h | h |
      h | h | h | h | h | h | h <;> subst h
    all_goals
      (simp only [key_w, key_s, key_a, key_d, key_o, key_i, key_q, key_j, key_n, key_b, key_m,
          key_k, key_l, key_1, key_2, key_3, key_4, key_5, key_6, key_7, key_8, key_9, key_e,
          key_r, key_t, key_escape]
       try split_ifs
       all_goals exact ⟨by first | exact h0 | rfl, by first | exact h1 | rfl,
         by first | exact h2 | rfl⟩)
  · rw [key_other key hr]
    exact ⟨h0, h1, h2⟩

theorem pressKeys_keeps_lights_in_step (keys : List Nat) (w : World)
    (h : LightsFollowSwitches w) : LightsFollowSwitches (pressKeys keys w).world := by
  induction keys generalizing w with
  | nil => exact h
  | cons key rest ih =>
    have hk := keyboard_keeps_lights_in_step key 0 0 w h
    unfold pressKeys
    cases hm : myKeyboardFunc key 0 0 w with
    | returned w1 =>
      rw [hm] at hk
      exact ih w1 hk
    | exited status w1 =>
      rw [hm] at hk
      exact hk

theorem sub_channel_keeps_units (key : Nat) (hk : key ∈ [52, 53, 54, 55, 56, 57, 101, 114, 116])
    (x y : Int) (w : World) :
    lightUnits (myKeyboardFunc key x y w).world = lightUnits w := by
  simp only [List.mem_cons, List.mem_singleton, List.not_mem_nil, or_false] at hk
  rcases hk with h | h | h | h | h | h | h | h | h <;> subst h
  all_goals
    (simp only [key_4, key_5, key_6, key_7, key_8, key_9, key_e, key_r, key_t]
     rfl)

/-- C27: if the three light units start disabled and the three master switches start
unset, then after any sequence of key presses light unit 0, 1, 2 is enabled exactly when
`switchOne`, `switchTwo`, `switchLamp` is set; and each of the nine sub-channel keys
(`4`-`9`, `e`, `r`, `t`) leaves the three light units as they were, in every state. -/
theorem lights_follow_switches (w0 : World)
    (hl : w0.light0 = false ∧ w0.light1 = false ∧ w0.light2 = false)
    (hs : w0.g.switchOne = false ∧ w0.g.switchTwo = false ∧ w0.g.switchLamp = false)
    (keys : List Nat) :
    ((pressKeys keys w0).world.light0 = true ↔ (pressKeys keys w0).world.g.switchOne = true) ∧
    ((pressKeys keys w0).world.light1 = true ↔ (pressKeys keys w0).world.g.switchTwo = true) ∧
    ((pressKeys keys w0).world.light2 = true ↔ (pressKeys keys w0).world.g.switchLamp = true) ∧
    ∀ key ∈ [52, 53, 54, 55, 56, 57, 101, 114, 116], ∀ (x y : Int) (w : World),
      lightUnits (myKeyboardFunc key x y w).world = lightUnits w := by
  have h0 : LightsFollowSwitches w0 :=
    ⟨by rw [hl.1, hs.1], by rw [hl.2.1, hs.2.1], by rw [hl.2.2, hs.2.2]⟩
  obtain ⟨a, b, c⟩ := pressKeys_keeps_lights_in_step keys w0 h0
  exact ⟨by rw [a], by rw [b], by rw [c], fun key hk x y w => sub_channel_keeps_units key hk x y w⟩

theorem lights_follow_switches_witness :
    (World.initial.light0 = false ∧ World.initial.light1 = false ∧
      World.initial.light2 = false) ∧
    (World.initial.g.switchOne = false ∧ World.initial.g.switchTwo = false ∧
      World.initial.g.switchLamp = false) ∧
    ((pressKeys [49, 52, 51, 50, 49] World.initial).world.light0 = true ↔
      (pressKeys [49, 52, 51, 50, 49] World.initial).world.g.switchOne = true) :=
  ⟨⟨rfl, rfl, rfl⟩, ⟨rfl, rfl, rfl⟩,
    (lights_follow_switches World.initial ⟨rfl, rfl, rfl⟩ ⟨rfl, rfl, rfl⟩
      [49, 52, 51, 50, 49]).1⟩


/-! ## Drawing: the projection in force while a frame is drawn -/

theorem statesAtDraws_append (a b : List GLCmd) (s : GLState) :
    statesAtDraws (a ++ b) s = statesAtDraws a s ++ statesAtDraws b (run a s) := by
  induction a generalizing s with
  | nil => rfl
  | cons c a ih =>
    show _ ++ statesAtDraws (a ++ b) (step s c) = (_ ++ statesAtDraws a (step s c)) ++ _
    rw [ih (step s c), List.append_assoc]
    rfl

theorem step_calm (c : GLCmd) (hc : calm c = true) (s : GLState)
    (hm : s.mode = .GL_MODELVIEW) :
    (step s c).mode = .GL_MODELVIEW ∧ (step s c).projection = s.projection := by
  cases c
  case glMatrixMode m => simp [calm] at hc
  case glPopAttrib => simp [calm] at hc
  case glPopMatrix =>
    simp only [step, hm]
    split <;> exact ⟨rfl, rfl⟩
  case glMaterialfv face pname params =>
    cases face <;> cases pname <;> exact ⟨hm, rfl⟩
  all_goals
    (simp only [step, GLState.mult, hm]
     first
       | exact ⟨hm, rfl⟩
       | exact ⟨rfl, rfl⟩
       | exact ⟨hm, trivial⟩
       | exact ⟨trivial, trivial⟩)

theorem projStable_of_calm (t : List GLCmd) (ht : ∀ c ∈ t, calm c = true) :
    ProjStable t := by
  induction t with
  | nil => exact fun s hm => ⟨hm, rfl, fun st h => by cases h⟩
  | cons c t ih =>
    intro s hm
    obtain ⟨m1, p1⟩ := step_calm c (ht c (List.mem_cons_self c t)) s hm
    obtain ⟨m2, p2, d2⟩ := ih (fun x hx => ht x (List.mem_cons_of_mem c hx)) (step s c) m1
    refine ⟨m2, p2.trans p1, ?_⟩
    intro st hst
    rcases List.mem_append.mp hst with h | h
    · have hs : st = s := by
        cases c <;> first
          | exact absurd h (List.not_mem_nil st)
          | exact List.mem_singleton.mp h
      rw [hs]
      exact ⟨hm, rfl⟩
    · obtain ⟨x, y⟩ := d2 st h
      exact ⟨x, y.trans p1⟩

theorem projStable_append {a b : List GLCmd} (ha : ProjStable a) (hb : ProjStable b) :
    ProjStable (a ++ b) := by
  intro s hm
  obtain ⟨m1, p1, d1⟩ := ha s hm
  obtain ⟨m2, p2, d2⟩ := hb (run a s) m1
  rw [run_append, statesAtDraws_append]
  refine ⟨m2, p2.trans p1, ?_⟩
  intro st hst
  rcases List.mem_append.mp hst with h | h
  · exact d1 st h
  · obtain ⟨x, y⟩ := d2 st h
    exact ⟨x, y.trans p1⟩

theorem projStable_drawCarpet (soil : Nat) (difX difY difZ ambX ambY ambZ shine : ℚ) :
    ProjStable (drawCarpet soil difX difY difZ ambX ambY ambZ shine) := by
  intro s hm
  refine ⟨?_, ?_, ?_⟩
  · rw [run_drawCarpet soil difX difY difZ ambX ambY ambZ shine s hm]
    exact hm
  · rw [run_drawCarpet soil difX difY difZ ambX ambY ambZ shine s hm]
  · unfold drawCarpet
    rw [statesAtDraws_append]
    intro st hst
    rcases List.mem_append.mp hst with h | h
    · refine (projStable_of_calm _ ?_ s hm).2.2 st h
      by_cases h0 : soil = 0 <;>
        simp [loadTexture, setMaterial, List.range, List.range.loop, List.flatMap,
          getNormal3p, glVertex3fv, calm, h0]
    · exact absurd h (List.not_mem_nil st)

theorem projStable_of_prim {g : Globals} {p : List GLCmd} {pre post : Bool}
    (h : Prim g p pre post) : ProjStable p := by
  cases h with
  | cube =>
    exact projStable_of_calm _ (by
      simp [drawCube1, setMaterial, List.range, List.range.loop, List.flatMap,
        getNormal3p, glVertex3fv, calm])
  | carpet soil difX difY difZ ambX ambY ambZ shine =>
    exact projStable_drawCarpet soil difX difY difZ ambX ambY ambZ shine
  | trapezoid =>
    exact projStable_of_calm _ (by
      cases hl : g.switchLamp <;>
        simp [drawTrapezoid, setMaterial, List.range, List.range.loop, List.flatMap,
          getNormal3p, glVertex3fv, calm, hl])
  | pyramid =>
    exact projStable_of_calm _ (by
      simp [drawpyramid, setMaterial, List.range, List.range.loop, List.flatMap,
        getNormal3p, glVertex3fv, calm])
  | polygon =>
    exact projStable_of_calm _ (by simp [polygon, setMaterial, calm])
  | polygonLine =>
    exact projStable_of_calm _ (by simp [polygonLine, setMaterial, calm])
  | sphere =>
    exact projStable_of_calm _ (by simp [drawSphere, setMaterial, calm])
  | bulb1 =>
    exact projStable_of_calm _ (by cases h1 : g.switchOne <;> simp [calm, h1])
  | bulb2 =>
    exact projStable_of_calm _ (by cases h2 : g.switchTwo <;> simp [calm, h2])

theorem projStable_of_assembly {g : Globals} {t : List GLCmd} {pre post : Bool}
    (h : Assembly g t pre post) : ProjStable t := by
  induction h with
  | nil b => exact projStable_of_calm _ (by simp)
  | color r gr bl b => exact projStable_of_calm _ (by simp [calm])
  | blockTS x y z a b c hp =>
    exact projStable_append
      (projStable_append (projStable_of_calm _ (by simp [calm])) (projStable_of_prim hp))
      (projStable_of_calm _ (by simp [calm]))
  | blockTRS x y z angle u v w a b c hp =>
    exact projStable_append
      (projStable_append (projStable_of_calm _ (by simp [calm])) (projStable_of_prim hp))
      (projStable_of_calm _ (by simp [calm]))
  | append hs ht ihs iht => exact projStable_append ihs iht

theorem projStable_lightOne (g : Globals) : ProjStable (lightOne g) :=
  projStable_of_calm _ (by
    cases h1 : g.amb1 <;> cases h2 : g.diff1 <;> cases h3 : g.spec1 <;>
      simp [lightOne, calm, h1, h2, h3])

theorem projStable_lightTwo (g : Globals) : ProjStable (lightTwo g) :=
  projStable_of_calm _ (by
    cases h1 : g.amb2 <;> cases h2 : g.diff2 <;> cases h3 : g.spec2 <;>
      simp [lightTwo, calm, h1, h2, h3])

theorem projStable_lampLight (g : Globals) : ProjStable (lampLight g) :=
  projStable_of_calm _ (by
    cases h1 : g.amb3 <;> cases h2 : g.diff3 <;> cases h3 : g.spec3 <;>
      simp [lampLight, calm, h1, h2, h3])

theorem projStable_scene (env : Env) (g : Globals) :
    ProjStable (sceneRoutines env g).flatten := by
  simp only [sceneRoutines, List.flatten]
  exact
    projStable_append (projStable_lightOne g) <|
    projStable_append (projStable_lightTwo g) <|
    projStable_append (projStable_lampLight g) <|
    projStable_append (projStable_of_assembly (assembly_room g env)) <|
    projStable_append (projStable_of_assembly (assembly_bed g)) <|
    projStable_append (projStable_of_assembly (assembly_bedsideDrawer g env)) <|
    projStable_append (projStable_of_assembly (assembly_lamp g)) <|
    projStable_append (projStable_of_assembly (assembly_LinkinParkPoster g)) <|
    projStable_append (projStable_of_assembly (assembly_wallshelf g)) <|
    projStable_append (projStable_of_assembly (assembly_wardrobe g)) <|
    projStable_append (projStable_of_assembly (assembly_cupboard g)) <|
    projStable_append (projStable_of_assembly (assembly_dressingTable g)) <|
    projStable_append (projStable_of_assembly (assembly_Clock g)) <|
    projStable_append (projStable_of_assembly (assembly_window g)) <|
    projStable_append (projStable_of_assembly (assembly_sphericalObject g)) <|
    projStable_append (projStable_of_assembly (assembly_lightBulb1 g)) <|
    projStable_append (projStable_of_assembly (assembly_lightBulb2 g)) <|
    projStable_of_calm _ (by simp)

theorem statesAtDraws_display (env : Env) (g : Globals) (s : GLState) :
    ∀ st ∈ statesAtDraws (display env g) s,
      st.mode = .GL_MODELVIEW ∧ st.projection.top = [.perspective 60 1 1 100] := by
  intro st hst
  unfold display at hst
  rw [statesAtDraws_append, statesAtDraws_append, run_append, run_displayPrologue] at hst
  rcases List.mem_append.mp hst with h | h
  · rcases List.mem_append.mp h with h1 | h1
    · exact absurd h1 (List.not_mem_nil st)
    · obtain ⟨x, y⟩ := (projStable_scene env g _ rfl).2.2 st h1
      exact ⟨x, by rw [y]⟩
  · exact absurd h (List.not_mem_nil st)

theorem statesAtDraws_display_ne_nil (env : Env) (g : Globals) (s : GLState) :
    statesAtDraws (display env g) s ≠ [] := by
  have hd : display env g =
      (displayPrologue g ++ (lightOne g ++ (lightTwo g ++ (lampLight g ++ (room env ++
        (bed ++ (bedsideDrawer env ++ (lamp g ++ (LinkinParkPoster ++ (wallshelf ++
        (wardrobe ++ (cupboard ++ (dressingTable ++ (Clock g ++ (window ++
        (sphericalObject ++ lightBulb1 g)))))))))))))))) ++
      (lightBulb2 g ++ displayEpilogue) := by
    simp [display, sceneRoutines, List.flatten]
  rw [hd, statesAtDraws_append]
  intro h
  have h2 := (List.append_eq_nil.mp h).2
  revert h2
  cases hs : g.switchTwo <;>
    simp [lightBulb2, displayEpilogue, statesAtDraws, hs]

/-- C28: started in any GL state, a display pass sends no geometry before its prologue
has replaced the projection by `perspective 60 1 1 100`; it does send geometry, and at
every moment it does the projection is `perspective 60 1 1 100`, as it is at the end of
the pass.  In particular, after the resize callback for any width and height has
installed `perspective 60 (w / h) 1 500`, the frame is still drawn with
`perspective 60 1 1 100`. -/
theorem display_resets_projection (env : Env) (g : Globals) (s : GLState) (w h : Int) :
    statesAtDraws (displayPrologue g) s = [] ∧
    (run (displayPrologue g) s).projection.top = [.perspective 60 1 1 100] ∧
    statesAtDraws (display env g) s ≠ [] ∧
    (∀ st ∈ statesAtDraws (display env g) s,
      st.projection.top = [.perspective 60 1 1 100]) ∧
    (run (display env g) s).projection.top = [.perspective 60 1 1 100] ∧
    ∃ t, fullScreen w h = some t ∧
      (run t s).projection.top =
        [.perspective 60 ((w : ℚ) / ((if h = 0 then 1 else h : Int) : ℚ)) 1 500] ∧
      (∀ st ∈ statesAtDraws (display env g) (run t s),
        st.projection.top = [.perspective 60 1 1 100]) ∧
      (run (display env g) (run t s)).projection.top = [.perspective 60 1 1 100] := by
  have hend : ∀ s0 : GLState,
      (run (display env g) s0).projection.top = [.perspective 60 1 1 100] := by
    intro s0
    unfold display
    rw [run_append, run_append, run_displayEpilogue, run_displayPrologue,
      (projStable_scene env g _ rfl).2.1]
  refine ⟨rfl, by rw [run_displayPrologue], statesAtDraws_display_ne_nil env g s,
    fun st hst => (statesAtDraws_display env g s st hst).2, hend s,
    _, fullScreen_eq w h, ?_, fun st hst => (statesAtDraws_display env g _ st hst).2,
    hend _⟩
  rw [run_fullScreen w h _ (fullScreen_eq w h)]

end Bedroom
